import Mathlib

/-!
# Guardian Angel Studio storefront: the handlers of `server.js`

A shallow embedding of the HTTP handlers and the schema set-up of
`src/server.js` over an explicit model of the relational store they talk to.

Modelling conventions

* A table is the list of its rows, in insertion order; a `SELECT` returns rows in
  that order and an `UPDATE` keeps a row in its place.  A `SERIAL` column takes
  the next value of a per-table counter.
* Every SQL statement is a function from the store to the store after the
  statement together with either its result or a database error.  The handlers
  run outside any transaction, so the effects of the statements that preceded a
  failing statement persist.
* Values bound to an `INTEGER` column must lie in the 32-bit range and values
  stored in a `VARCHAR(n)` column must fit in `n` characters; `NOT NULL`,
  `UNIQUE`, `PRIMARY KEY` and `REFERENCES` are enforced as declared in
  `initializeDatabase`.
* The server refuses a text parameter that holds the character U+0000 when it
  reads the parameters of a statement, before the statement runs.
* A statement raises in this order: the errors of reading its parameters, in
  parameter order; the errors of fitting a value to its `VARCHAR(n)` or
  `DECIMAL` column; the exhaustion of the key sequence; `NOT NULL`; `UNIQUE` and
  `PRIMARY KEY`; `REFERENCES`.  The sequence behind a `SERIAL` key stops at
  2147483647, and a value taken from it stays taken when the statement fails
  later.
* `DECIMAL(10, 2)` prices are held as integer hundredths.
* A JavaScript number is the rational it denotes; arithmetic rounds to the
  nearest double, ties to even.  Overflow to `Infinity` (magnitudes from
  `2 ^ 1024` on), `NaN` and the sign of zero are outside the model.
* The payment processor is a pair of functions supplied from outside; a handler
  returns the calls it made to it.
* `created_at` columns are left out: no handler writes them or looks at their
  value.
* The form relay reached by `fetch` is a function supplied from outside.
* A response object delivers the first answer written to it; writing a further
  one throws and delivers nothing.
* A JSON request field that stands for a text is absent (`undefined`), `null` or
  a string.  One that stands for an integer (a product id, a quantity) is
  absent, `null`, an integral JSON number, or a JSON string that spells an
  integer in decimal digits, which is how `shop.js` sends the product id it
  reads from a `data-product-id` attribute.  Other JSON values in these places
  (fractions, other strings, arrays, objects) are outside the model.
-/

namespace GuardianAngel

/-! ## Request fields and JavaScript tests on them -/

/-- One field of a destructured JSON request body. -/
inductive JsField (α : Type) where
  | undefined : JsField α
  | null : JsField α
  | val (a : α) : JsField α
  deriving DecidableEq, Repr

/-- A request field that stands for an integer: absent, `null`, the JSON number
`n`, or the JSON string that spells `n` in decimal digits (`str n`). -/
inductive NumField where
  | undefined : NumField
  | null : NumField
  | val (n : Int) : NumField
  | str (n : Int) : NumField
  deriving DecidableEq, Repr

/-- JavaScript truthiness of a string-valued field: `!x` is false exactly when
this holds. -/
def truthyStr : JsField String → Bool
  | .val s => decide (s ≠ "")
  | _ => false

/-- JavaScript truthiness of an integer-valued field: a number other than zero,
or a string of digits (which is not empty). -/
def truthyNum : NumField → Bool
  | .val n => decide (n ≠ 0)
  | .str _ => true
  | _ => false

/-- The JavaScript test `x < 0` on an integer-valued field (`undefined` converts
to `NaN`, `null` to `0`, both compare false; a string of digits converts to the
number it spells). -/
def ltZero : NumField → Bool
  | .val n => decide (n < 0)
  | .str n => decide (n < 0)
  | _ => false

/-- The JavaScript test `x === 0` on an integer-valued field: a string is never
strictly equal to a number. -/
def strictEqZero : NumField → Bool
  | .val n => decide (n = 0)
  | _ => false

/-- Default parameter of a destructuring pattern, `{ x = d }`: the default
replaces `undefined` only. -/
def withDefault (d : Int) : NumField → NumField
  | .undefined => .val d
  | f => f

/-! ## Database values, errors and coercions -/

/-- The classes of database error the statements of `server.js` can raise. -/
inductive DbError where
  | numericValueOutOfRange
  | stringDataRightTruncation
  | notNullViolation
  | foreignKeyViolation
  | uniqueViolation
  | cardinalityViolation
  | characterNotInRepertoire
  | sequenceGeneratorLimitExceeded
  deriving DecidableEq, Repr

/-- Smallest value of an `INTEGER` column. -/
def int4Min : Int := -2147483648

/-- Largest value of an `INTEGER` column. -/
def int4Max : Int := 2147483647

/-- Membership in the range of an `INTEGER` column. -/
def isInt4 (n : Int) : Prop := int4Min ≤ n ∧ n ≤ int4Max

instance (n : Int) : Decidable (isInt4 n) := by unfold isInt4; infer_instance

/-- Conversion of an integer to the `INTEGER` type. -/
def toInt4 (n : Int) : Except DbError Int :=
  if isInt4 n then .ok n else .error .numericValueOutOfRange

/-- A query parameter compared with or stored in an `INTEGER` column:
`undefined` and `null` are sent as `NULL`, a number and a string of digits as
the digits, which the server reads as an `INTEGER`. -/
def bindInt4 : NumField → Except DbError (Option Int)
  | .val n => (toInt4 n).map some
  | .str n => (toInt4 n).map some
  | _ => .ok none

/-- Whether a string holds the character U+0000. -/
def hasNul (s : String) : Bool := s.data.contains (Char.ofNat 0)

/-- A text value as the server reads it from a parameter: a string that holds
U+0000 is refused. -/
def sqlText : Option String → Except DbError (Option String)
  | none => .ok none
  | some s => if hasNul s then .error .characterNotInRepertoire else .ok (some s)

/-- A query parameter compared with or stored in a text column: `undefined` and
`null` are sent as `NULL`. -/
def bindText : JsField String → Except DbError (Option String)
  | .val s => sqlText (some s)
  | _ => .ok none

/-- `nextval` of the sequence behind a `SERIAL` key, given the last value handed
out: the sequence stops at the largest `INTEGER`. -/
def nextval (last : Int) : Except DbError Int :=
  if last < int4Max then .ok (last + 1) else .error .sequenceGeneratorLimitExceeded

/-- Assignment of a string to a `VARCHAR(n)` column: an over-long value is an
error unless every excess character is a space, in which case it is cut. -/
def toVarchar (n : Nat) (s : String) : Except DbError String :=
  if s.length ≤ n then .ok s
  else if (s.drop n).all (fun c => c == ' ') then .ok (s.take n)
  else .error .stringDataRightTruncation

/-- Assignment to a nullable `VARCHAR(n)` column. -/
def toVarcharOpt (n : Nat) : Option String → Except DbError (Option String)
  | none => .ok none
  | some s => (toVarchar n s).map some

/-- A string the server accepts as a text value and that fits a `VARCHAR(n)`
column as it is: it holds no U+0000 and has at most `n` characters. -/
def textFits (n : Nat) (s : String) : Prop := s.length ≤ n ∧ hasNul s = false

instance (n : Nat) (s : String) : Decidable (textFits n s) := by
  unfold textFits; infer_instance

/-! ## Tables -/

/-- Row of `products`. -/
structure Product where
  id : Int
  name : String
  description : Option String
  price : Int
  deriving DecidableEq, Repr

/-- Row of `carts`. -/
structure Cart where
  id : Int
  session_id : String
  deriving DecidableEq, Repr

/-- Row of `cart_items`; the two reference columns are nullable. -/
structure CartItem where
  id : Int
  cart_id : Option Int
  product_id : Option Int
  quantity : Int
  deriving DecidableEq, Repr

/-- Row of `contacts`. -/
structure Contact where
  id : Int
  name : String
  email : String
  subject : String
  message : String
  deriving DecidableEq, Repr

/-- One element of the item snapshot selected by `/api/confirm-payment`:
`price` and `item_total` are exact decimals, in hundredths. -/
structure SnapshotItem where
  product_id : Int
  name : String
  price : Int
  quantity : Int
  item_total : Int
  deriving DecidableEq, Repr

/-- Row of `payments`. -/
structure Payment where
  id : Int
  payment_intent_id : String
  session_id : String
  amount : Int
  currency : String
  status : String
  customer_email : Option String
  items : Option (List SnapshotItem)
  deriving DecidableEq, Repr

/-- The relational store: the five tables and the counters behind their
`SERIAL` keys (each holds the last value handed out). -/
structure Store where
  products : List Product
  carts : List Cart
  cart_items : List CartItem
  contacts : List Contact
  payments : List Payment
  products_id_seq : Int
  carts_id_seq : Int
  cart_items_id_seq : Int
  contacts_id_seq : Int
  payments_id_seq : Int
  deriving DecidableEq, Repr

/-! ## JavaScript numbers -/

/-- Exponent of the unit in the last place of the double nearest to `x`:
52 below the binary exponent of `x`, and never below that of the subnormals. -/
def ulpExp (x : ℚ) : ℤ := max (Int.log 2 |x| - 52) (-1074)

/-- Nearest integer, ties to the even one. -/
def roundTiesEven (y : ℚ) : ℤ :=
  if y - ⌊y⌋ < 1 / 2 then ⌊y⌋
  else if 1 / 2 < y - ⌊y⌋ then ⌊y⌋ + 1
  else if ⌊y⌋ % 2 = 0 then ⌊y⌋ else ⌊y⌋ + 1

/-- The double nearest to the rational `x` (round to nearest, ties to even). -/
def toDouble (x : ℚ) : ℚ :=
  if x = 0 then 0 else roundTiesEven (x / 2 ^ ulpExp x) * 2 ^ ulpExp x

/-- JavaScript `a + b` on numbers. -/
def jsAdd (a b : ℚ) : ℚ := toDouble (a + b)

/-- JavaScript `a * b` on numbers. -/
def jsMul (a b : ℚ) : ℚ := toDouble (a * b)

/-- `parseFloat` of the text of a `DECIMAL(10, 2)` value given in hundredths. -/
def parseFloatDecimal (hundredths : Int) : ℚ := toDouble ((hundredths : ℚ) / 100)

/-- `Math.round`: the nearest integer, ties towards positive infinity. -/
def mathRound (x : ℚ) : ℤ := ⌊x + 1 / 2⌋

/-- Two decimal digits, zero padded. -/
def digits2 (n : Nat) : String := (if n < 10 then "0" else "") ++ toString n

/-- The text of a non-negative amount given in hundredths, with two fractional
digits. -/
def decimal2 (hundredths : Nat) : String :=
  toString (hundredths / 100) ++ "." ++ digits2 (hundredths % 100)

/-- `Number.prototype.toFixed(2)`: the sign, then the integer `n` for which
`n / 100` is nearest to the magnitude (the larger one on a tie) written with two
fractional digits.  From `10 ^ 21` on JavaScript switches to exponent notation,
which is not modelled (`none`). -/
def toFixed2 (x : ℚ) : Option String :=
  if 10 ^ 21 ≤ |x| then none
  else some ((if x < 0 then "-" else "") ++ decimal2 ⌊|x| * 100 + 1 / 2⌋.toNat)

/-- Exact sum of `price * quantity` over rows, in hundredths. -/
def exactCents {α : Type} (price qty : α → ℤ) (rows : List α) : ℤ :=
  (rows.map (fun r => price r * qty r)).sum

/-! ## The payment processor -/

/-- A payment intent as the processor reports it; `metadata_customer_email` is
the value of `paymentIntent.metadata?.customer_email`. -/
structure PaymentIntent where
  id : String
  client_secret : String
  amount : Int
  currency : String
  status : String
  metadata_customer_email : JsField String
  deriving DecidableEq, Repr

/-- Argument of `stripe.paymentIntents.create`; the description and the
automatic payment methods flag are constants and left out. -/
structure IntentParams where
  amount : Int
  currency : String
  metadata_session_id : JsField String
  metadata_customer_email : JsField String
  receipt_email : JsField String
  deriving DecidableEq, Repr

/-- The external payment processor: each call returns a payment intent or
throws an error with a message. -/
structure Processor where
  create : IntentParams → Except String PaymentIntent
  retrieve : JsField String → Except String PaymentIntent

/-- A call made to the processor. -/
inductive ProcessorCall where
  | create (params : IntentParams)
  | retrieve (paymentIntentId : JsField String)
  deriving DecidableEq, Repr

/-! ## Responses -/

/-- One element of `items` in the answer of `GET /api/cart/:sessionId`; `price`
is the JavaScript number `parseFloat(row.price)`. -/
structure CartLine where
  id : Int
  quantity : Int
  product_id : Int
  name : String
  price : ℚ
  description : Option String
  deriving DecidableEq, Repr

/-- What reached the `catch` block of a handler. -/
inductive Failure where
  | db (e : DbError)
  | processor (message : String)
  deriving DecidableEq, Repr

/-- The object answered by `GET /api/orders/:paymentIntentId`: the selected
columns of a `payments` row, `amount` as a JavaScript number. -/
structure Order where
  id : Int
  payment_intent_id : String
  amount : ℚ
  currency : String
  status : String
  customer_email : Option String
  items : Option (List SnapshotItem)
  deriving DecidableEq, Repr

/-- JSON body of a response. -/
inductive Body where
  /-- `{ error: "<fixed text>" }` -/
  | error (message : String)
  /-- `{ error: err.message }` -/
  | errorOf (cause : Failure)
  /-- `{ success: true, message: "<fixed text>" }` -/
  | success (message : String)
  /-- `{ items, total, count }` -/
  | cart (items : List CartLine) (total : Option String) (count : ℚ)
  /-- `{ clientSecret, paymentIntentId }` -/
  | intent (clientSecret paymentIntentId : String)
  /-- `{ success: true, payment: { ...payment, items } }` -/
  | confirmed (payment : Payment) (items : List SnapshotItem)
  /-- the order object itself -/
  | order (order : Order)
  /-- `{ success: true }` -/
  | saved
  /-- `{ success: "<fixed text>" }` -/
  | sent (message : String)
  deriving DecidableEq, Repr

/-- HTTP response: status code (200 unless `res.status` was called) and body. -/
structure Response where
  status : Nat
  body : Body
  deriving DecidableEq, Repr

/-! ## SQL statements of the cart service -/

/-- `SELECT * FROM products WHERE id = $1` -/
def selectProductsById (st : Store) (productId : NumField) :
    Except DbError (List Product) :=
  match bindInt4 productId with
  | .error e => .error e
  | .ok none => .ok []
  | .ok (some p) => .ok (st.products.filter (fun r => decide (r.id = p)))

/-- The rows of `carts` whose `session_id` equals a text value; a comparison
with `NULL` selects nothing. -/
def cartsOf (st : Store) (key : Option String) : List Cart :=
  match key with
  | none => []
  | some s => st.carts.filter (fun c => decide (c.session_id = s))

/-- `SELECT * FROM carts WHERE session_id = $1` -/
def selectCartsBySession (st : Store) (sessionId : JsField String) :
    Except DbError (List Cart) :=
  match bindText sessionId with
  | .error e => .error e
  | .ok key => .ok (cartsOf st key)

/-- `INSERT INTO carts (session_id) VALUES ($1) RETURNING *` -/
def insertCart (st : Store) (sessionId : JsField String) : Store × Except DbError Cart :=
  match bindText sessionId with
  | .error e => (st, .error e)
  | .ok text =>
    match toVarcharOpt 255 text with
    | .error e => (st, .error e)
    | .ok value =>
      match nextval st.carts_id_seq with
      | .error e => (st, .error e)
      | .ok id =>
        let st1 := { st with carts_id_seq := id }
        match value with
        | none => (st1, .error .notNullViolation)
        | some key =>
          if st.carts.any (fun c => decide (c.id = id) || decide (c.session_id = key)) then
            (st1, .error .uniqueViolation)
          else
            ({ st1 with carts := st.carts ++ [⟨id, key⟩] }, .ok ⟨id, key⟩)

/-- Helper function to get or create cart. -/
def getOrCreateCart (st : Store) (sessionId : JsField String) : Store × Except DbError Cart :=
  match selectCartsBySession st sessionId with
  | .error e => (st, .error e)
  | .ok [] => insertCart st sessionId
  | .ok (cart :: _) => (st, .ok cart)

/-- The arbiter of `ON CONFLICT (cart_id, product_id)`: the row a new
`(cartId, productId)` row would collide with. -/
def isLine (cartId : Int) (productId : Option Int) (ci : CartItem) : Bool :=
  decide (ci.cart_id = some cartId) && productId.isSome && decide (ci.product_id = productId)

/-- The upsert of `/api/cart/add`:
`INSERT INTO cart_items (cart_id, product_id, quantity) VALUES ($1, $2, $3)
 ON CONFLICT (cart_id, product_id)
 DO UPDATE SET quantity = cart_items.quantity + EXCLUDED.quantity`. -/
def upsertCartItem (st : Store) (cartId : Int) (productId quantity : NumField) :
    Store × Except DbError Unit :=
  match bindInt4 productId, bindInt4 quantity with
  | .error e, _ => (st, .error e)
  | .ok _, .error e => (st, .error e)
  | .ok pid, .ok qty =>
    match nextval st.cart_items_id_seq with
    | .error e => (st, .error e)
    | .ok id =>
      let st1 := { st with cart_items_id_seq := id }
      match qty with
      | none => (st1, .error .notNullViolation)
      | some q =>
        match st.cart_items.find? (isLine cartId pid) with
        | some old =>
          match toInt4 (old.quantity + q) with
          | .error e => (st1, .error e)
          | .ok sum =>
            ({ st1 with cart_items := st.cart_items.map (fun ci =>
                if isLine cartId pid ci then { ci with quantity := sum } else ci) }, .ok ())
        | none =>
          if st.cart_items.any (fun ci => decide (ci.id = id)) then
            (st1, .error .uniqueViolation)
          else if !(st.carts.any (fun c => decide (c.id = cartId))) then
            (st1, .error .foreignKeyViolation)
          else if !(pid.all (fun p => st.products.any (fun r => decide (r.id = p)))) then
            (st1, .error .foreignKeyViolation)
          else
            ({ st1 with cart_items := st.cart_items ++ [⟨id, some cartId, pid, q⟩] }, .ok ())

/-- The scalar subquery `(SELECT id FROM carts WHERE session_id = $1)` for the
text value read from `$1`: `NULL` when no row matches, an error when more than
one does. -/
def cartIdOfSession (st : Store) (key : Option String) : Except DbError (Option Int) :=
  match cartsOf st key with
  | [] => .ok none
  | [cart] => .ok (some cart.id)
  | _ :: _ :: _ => .error .cardinalityViolation

/-- The row filter `cart_id = (SELECT ...) AND product_id = $2`; a comparison
with `NULL` selects nothing. -/
def matchesLine (cartId productId : Option Int) (ci : CartItem) : Bool :=
  cartId.isSome && productId.isSome &&
    decide (ci.cart_id = cartId) && decide (ci.product_id = productId)

/-- `DELETE FROM cart_items
 WHERE cart_id = (SELECT id FROM carts WHERE session_id = $1) AND product_id = $2` -/
def deleteCartItem (st : Store) (sessionId : JsField String) (productId : NumField) :
    Except DbError Store :=
  match bindText sessionId, bindInt4 productId with
  | .error e, _ => .error e
  | .ok _, .error e => .error e
  | .ok key, .ok pid =>
    match cartIdOfSession st key with
    | .error e => .error e
    | .ok cid =>
      .ok { st with cart_items := st.cart_items.filter (fun ci => !matchesLine cid pid ci) }

/-- `UPDATE cart_items SET quantity = $3
 WHERE cart_id = (SELECT id FROM carts WHERE session_id = $1) AND product_id = $2` -/
def updateCartItem (st : Store) (sessionId : JsField String)
    (productId quantity : NumField) : Except DbError Store :=
  match bindText sessionId, bindInt4 productId, bindInt4 quantity with
  | .error e, _, _ => .error e
  | .ok _, .error e, _ => .error e
  | .ok _, .ok _, .error e => .error e
  | .ok key, .ok pid, .ok qty =>
    match cartIdOfSession st key with
    | .error e => .error e
    | .ok cid =>
      if st.cart_items.any (matchesLine cid pid) then
        match qty with
        | none => .error .notNullViolation
        | some q =>
          .ok { st with cart_items := st.cart_items.map (fun ci =>
                  if matchesLine cid pid ci then { ci with quantity := q } else ci) }
      else .ok st

/-! ## Handlers of the cart service -/

/-- Body of `POST /api/cart/add`, `PUT /api/cart/update` and
`DELETE /api/cart/remove`. -/
structure CartRequest where
  sessionId : JsField String
  productId : NumField
  quantity : NumField
  deriving DecidableEq, Repr

/-- The 500 answer of the cart handlers. -/
def internalError : Response := ⟨500, .error "Internal server error"⟩

/-- `app.post("/api/cart/add")`: add item to cart. -/
def addItem (st : Store) (req : CartRequest) : Store × Response :=
  let quantity := withDefault 1 req.quantity
  if !truthyStr req.sessionId || !truthyNum req.productId then
    (st, ⟨400, .error "Session ID and Product ID are required"⟩)
  else
    match selectProductsById st req.productId with
    | .error _ => (st, internalError)
    | .ok [] => (st, ⟨404, .error "Product not found"⟩)
    | .ok (_ :: _) =>
      match getOrCreateCart st req.sessionId with
      | (st1, .error _) => (st1, internalError)
      | (st1, .ok cart) =>
        match upsertCartItem st1 cart.id req.productId quantity with
        | (st2, .error _) => (st2, internalError)
        | (st2, .ok _) => (st2, ⟨200, .success "Item added to cart"⟩)

/-- `app.put("/api/cart/update")`: update cart item quantity. -/
def updateQuantity (st : Store) (req : CartRequest) : Store × Response :=
  if !truthyStr req.sessionId || !truthyNum req.productId || ltZero req.quantity then
    (st, ⟨400, .error "Invalid parameters"⟩)
  else if strictEqZero req.quantity then
    match deleteCartItem st req.sessionId req.productId with
    | .error _ => (st, internalError)
    | .ok st1 => (st1, ⟨200, .success "Cart updated"⟩)
  else
    match updateCartItem st req.sessionId req.productId req.quantity with
    | .error _ => (st, internalError)
    | .ok st1 => (st1, ⟨200, .success "Cart updated"⟩)

/-- `app.delete("/api/cart/remove")`: remove item from cart. -/
def removeItem (st : Store) (req : CartRequest) : Store × Response :=
  match deleteCartItem st req.sessionId req.productId with
  | .error _ => (st, internalError)
  | .ok st1 => (st1, ⟨200, .success "Item removed from cart"⟩)

/-! ## Cart contents and checkout -/

/-- The rows of `cart_items ci JOIN carts c ON ci.cart_id = c.id
 JOIN products p ON ci.product_id = p.id` whose `c.session_id` equals a text
value: one row per cart item, cart and product that join. -/
def joinRows (st : Store) (key : Option String) : List (CartItem × Product) :=
  st.cart_items.flatMap (fun ci =>
    (st.carts.filter (fun c =>
        decide (ci.cart_id = some c.id) && decide (some c.session_id = key))).flatMap
      (fun _ => (st.products.filter (fun r => decide (ci.product_id = some r.id))).map
        (fun r => (ci, r))))

/-- The row set shared by the three cart queries,
`... FROM cart_items ci JOIN carts c ON ci.cart_id = c.id
 JOIN products p ON ci.product_id = p.id WHERE c.session_id = $1`. -/
def cartRows (st : Store) (sessionId : JsField String) :
    Except DbError (List (CartItem × Product)) :=
  match bindText sessionId with
  | .error e => .error e
  | .ok key => .ok (joinRows st key)

/-- One row of the query of `/api/cart/:sessionId`, with
`price: parseFloat(row.price)`. -/
def cartLine (row : CartItem × Product) : CartLine :=
  ⟨row.1.id, row.1.quantity, row.2.id, row.2.name, parseFloatDecimal row.2.price,
    row.2.description⟩

/-- `app.get("/api/cart/:sessionId")`: get cart contents.  The session id is a
path segment, hence a string that is not empty; the handler writes nothing. -/
def getCart (st : Store) (sessionId : String) : Response :=
  match cartRows st (.val sessionId) with
  | .error _ => internalError
  | .ok rows =>
    let items := rows.map cartLine
    let total := items.foldl (fun sum item => jsAdd sum (jsMul item.price item.quantity)) 0
    ⟨200, .cart items (toFixed2 total)
      (items.foldl (fun sum item => jsAdd sum item.quantity) 0)⟩

/-- Body of `POST /api/create-payment-intent`. -/
structure IntentRequest where
  sessionId : JsField String
  customerEmail : JsField String
  deriving DecidableEq, Repr

/-- `amountInCents` of `/api/create-payment-intent`:
`Math.round(rows.reduce((sum, item) => sum + parseFloat(item.price) * item.quantity, 0) * 100)`. -/
def amountInCents (rows : List (CartItem × Product)) : Int :=
  mathRound (jsMul (rows.foldl (fun sum row =>
    jsAdd sum (jsMul (parseFloatDecimal row.2.price) row.1.quantity)) 0) 100)

/-- `app.post("/api/create-payment-intent")`: returns the store (it issues no
writing statement), the response and the calls made to the processor. -/
def createPaymentIntent (stripe : Processor) (st : Store) (req : IntentRequest) :
    Store × Response × List ProcessorCall :=
  if !truthyStr req.sessionId then
    (st, ⟨400, .error "Session ID is required"⟩, [])
  else
    match cartRows st req.sessionId with
    | .error e => (st, ⟨500, .errorOf (.db e)⟩, [])
    | .ok rows =>
      if rows.length = 0 then
        (st, ⟨400, .error "Cart is empty"⟩, [])
      else
        let params : IntentParams :=
          ⟨amountInCents rows, "zar", req.sessionId, req.customerEmail, req.customerEmail⟩
        match stripe.create params with
        | .error message => (st, ⟨500, .errorOf (.processor message)⟩, [.create params])
        | .ok paymentIntent =>
          (st, ⟨200, .intent paymentIntent.client_secret paymentIntent.id⟩, [.create params])

/-- Body of `POST /api/confirm-payment`. -/
structure ConfirmRequest where
  paymentIntentId : JsField String
  sessionId : JsField String
  deriving DecidableEq, Repr

/-- The columns that `/api/confirm-payment` selects from the rows of the cart
query:
`p.id AS product_id, p.name, p.price, ci.quantity, (p.price * ci.quantity) AS item_total`. -/
def snapshotOf (rows : List (CartItem × Product)) : List SnapshotItem :=
  rows.map (fun row =>
    (⟨row.2.id, row.2.name, row.2.price, row.1.quantity, row.2.price * row.1.quantity⟩ :
      SnapshotItem))

/-- The JavaScript value `x || null` of a string-valued field, as a nullable
column value. -/
def orNull : JsField String → Option String
  | .val s => if s = "" then none else some s
  | _ => none

/-- The values of the first six parameters of the insert into `payments` as the
server reads them (`$1` the intent id, `$2` the session key, `$3` the amount,
`$4` the currency, `$5` the status, `$6` the customer email) and fits them to
their columns. -/
def paymentValues (paymentIntent : PaymentIntent) (sessionId : JsField String) :
    Except DbError (String × Option String × Int × String × String × Option String) :=
  match sqlText (some paymentIntent.id), bindText sessionId, toInt4 paymentIntent.amount,
    sqlText (some paymentIntent.currency), sqlText (some paymentIntent.status),
    sqlText (orNull paymentIntent.metadata_customer_email) with
  | .error e, _, _, _, _, _ => .error e
  | .ok _, .error e, _, _, _, _ => .error e
  | .ok _, .ok _, .error e, _, _, _ => .error e
  | .ok _, .ok _, .ok _, .error e, _, _ => .error e
  | .ok _, .ok _, .ok _, .ok _, .error e, _ => .error e
  | .ok _, .ok _, .ok _, .ok _, .ok _, .error e => .error e
  | .ok _, .ok session, .ok amount, .ok _, .ok _, .ok email =>
    match toVarchar 255 paymentIntent.id, toVarcharOpt 255 session,
      toVarchar 3 paymentIntent.currency, toVarchar 50 paymentIntent.status,
      toVarcharOpt 255 email with
    | .error e, _, _, _, _ => .error e
    | .ok _, .error e, _, _, _ => .error e
    | .ok _, .ok _, .error e, _, _ => .error e
    | .ok _, .ok _, .ok _, .error e, _ => .error e
    | .ok _, .ok _, .ok _, .ok _, .error e => .error e
    | .ok intentId, .ok key, .ok currency, .ok status, .ok address =>
      .ok (intentId, key, amount, currency, status, address)

/-- `INSERT INTO payments (payment_intent_id, session_id, amount, currency,
 status, customer_email, items) VALUES ($1, $2, $3, $4, $5, $6, $7) RETURNING *` -/
def insertPayment (st : Store) (paymentIntent : PaymentIntent) (sessionId : JsField String)
    (items : List SnapshotItem) : Store × Except DbError Payment :=
  match paymentValues paymentIntent sessionId with
  | .error e => (st, .error e)
  | .ok (intentId, session, amount, currency, status, email) =>
    match nextval st.payments_id_seq with
    | .error e => (st, .error e)
    | .ok id =>
      let st1 := { st with payments_id_seq := id }
      match session with
      | none => (st1, .error .notNullViolation)
      | some key =>
        if st.payments.any (fun r =>
            decide (r.id = id) || decide (r.payment_intent_id = intentId)) then
          (st1, .error .uniqueViolation)
        else
          ({ st1 with payments := st.payments ++
              [⟨id, intentId, key, amount, currency, status, email, some items⟩] },
            .ok ⟨id, intentId, key, amount, currency, status, email, some items⟩)

/-- `DELETE FROM cart_items
 WHERE cart_id = (SELECT id FROM carts WHERE session_id = $1)` -/
def clearCart (st : Store) (sessionId : JsField String) : Except DbError Store :=
  match bindText sessionId with
  | .error e => .error e
  | .ok key =>
    match cartIdOfSession st key with
    | .error e => .error e
    | .ok cid =>
      .ok { st with cart_items := st.cart_items.filter (fun ci =>
              !(cid.isSome && decide (ci.cart_id = cid))) }

/-- `app.post("/api/confirm-payment")`: returns the store, the response and the
calls made to the processor. -/
def confirmPayment (stripe : Processor) (st : Store) (req : ConfirmRequest) :
    Store × Response × List ProcessorCall :=
  match stripe.retrieve req.paymentIntentId with
  | .error message =>
    (st, ⟨500, .errorOf (.processor message)⟩, [.retrieve req.paymentIntentId])
  | .ok paymentIntent =>
    match cartRows st req.sessionId with
    | .error e => (st, ⟨500, .errorOf (.db e)⟩, [.retrieve req.paymentIntentId])
    | .ok rows =>
      let cartItems := snapshotOf rows
      match insertPayment st paymentIntent req.sessionId cartItems with
      | (st1, .error e) => (st1, ⟨500, .errorOf (.db e)⟩, [.retrieve req.paymentIntentId])
      | (st1, .ok payment) =>
        match clearCart st1 req.sessionId with
        | .error e => (st1, ⟨500, .errorOf (.db e)⟩, [.retrieve req.paymentIntentId])
        | .ok st2 =>
          (st2, ⟨200, .confirmed payment cartItems⟩, [.retrieve req.paymentIntentId])

/-! ## Orders -/

/-- The JavaScript quotient `a / b` of two numbers, `b` not zero. -/
def jsDiv (a b : ℚ) : ℚ := toDouble (a / b)

/-- `SELECT id, payment_intent_id, amount, currency, status, customer_email,
 items, created_at FROM payments WHERE payment_intent_id = $1` -/
def selectPaymentsByIntent (st : Store) (paymentIntentId : String) :
    Except DbError (List Payment) :=
  match sqlText (some paymentIntentId) with
  | .error e => .error e
  | .ok none => .ok []
  | .ok (some i) => .ok (st.payments.filter (fun r => decide (r.payment_intent_id = i)))

/-- `app.get("/api/orders/:paymentIntentId")`.  The intent id is a path segment,
hence a string that is not empty; the handler writes nothing.  The driver hands the `JSONB` column
`items` over as the value it denotes, so the test for a string sends it on as it
is. -/
def getOrder (st : Store) (paymentIntentId : String) : Response :=
  match selectPaymentsByIntent st paymentIntentId with
  | .error e => ⟨500, .errorOf (.db e)⟩
  | .ok [] => ⟨404, .error "Order not found"⟩
  | .ok (row :: _) =>
    ⟨200, .order ⟨row.id, row.payment_intent_id, jsDiv row.amount 100, row.currency,
      row.status, row.customer_email, row.items⟩⟩

/-! ## The contact form -/

/-- Body of `POST /api/contact`. -/
structure ContactRequest where
  name : JsField String
  email : JsField String
  subject : JsField String
  message : JsField String
  deriving DecidableEq, Repr

/-- The values of the four parameters of the insert into `contacts` as the
server reads them and fits them to their columns. -/
def contactValues (name email subject message : JsField String) :
    Except DbError (Option String × Option String × Option String × Option String) :=
  match bindText name, bindText email, bindText subject, bindText message with
  | .error e, _, _, _ => .error e
  | .ok _, .error e, _, _ => .error e
  | .ok _, .ok _, .error e, _ => .error e
  | .ok _, .ok _, .ok _, .error e => .error e
  | .ok n, .ok e, .ok s, .ok m =>
    match toVarcharOpt 255 n, toVarcharOpt 255 e, toVarcharOpt 255 s with
    | .error err, _, _ => .error err
    | .ok _, .error err, _ => .error err
    | .ok _, .ok _, .error err => .error err
    | .ok n1, .ok e1, .ok s1 => .ok (n1, e1, s1, m)

/-- `INSERT INTO contacts (name, email, subject, message) VALUES ($1, $2, $3, $4)` -/
def insertContact (st : Store) (name email subject message : JsField String) :
    Store × Except DbError Unit :=
  match contactValues name email subject message with
  | .error e => (st, .error e)
  | .ok (n, e, s, m) =>
    match nextval st.contacts_id_seq with
    | .error err => (st, .error err)
    | .ok id =>
      let st1 := { st with contacts_id_seq := id }
      match n, e, s, m with
      | some n1, some e1, some s1, some m1 =>
        if st.contacts.any (fun c => decide (c.id = id)) then
          (st1, .error .uniqueViolation)
        else
          ({ st1 with contacts := st.contacts ++ [⟨id, n1, e1, s1, m1⟩] }, .ok ())
      | _, _, _, _ => (st1, .error .notNullViolation)

/-- The JSON document posted to the form relay: `{ name, _replyto: email, message }`. -/
structure RelayMessage where
  name : JsField String
  _replyto : JsField String
  message : JsField String
  deriving DecidableEq, Repr

/-- Answer of the form relay: `response.ok` and `response.text()`. -/
structure RelayResponse where
  ok : Bool
  text : String
  deriving DecidableEq, Repr

/-- The form relay reached by `fetch`: it answers, or the call throws. -/
structure Relay where
  post : RelayMessage → Except String RelayResponse

/-- The calls `res.json(body)` and `res.status(code).json(body)` on a response
object that has delivered `sent` so far: the first answer goes to the caller, a
further one throws (the headers are sent) and delivers nothing. -/
def resJson (sent : Option Response) (answer : Response) : Except Unit (Option Response) :=
  match sent with
  | none => .ok (some answer)
  | some _ => .error ()

/-- What a run of the contact handler leaves behind, the store apart: the answer
delivered to the caller, the documents posted to the relay, and whether the
handler ended with an error thrown out of its last `catch` block. -/
structure ContactOutcome where
  response : Option Response
  posted : List RelayMessage
  uncaught : Bool
  deriving DecidableEq, Repr

/-- The second `try` block of `app.post("/api/contact")`, entered with `sent`
delivered so far: returns what is delivered afterwards and whether an error left
the `catch` block. -/
def forwardContact (relay : Relay) (sent : Option Response) (document : RelayMessage) :
    Option Response × Bool :=
  let caught : Option Response × Bool :=
    match resJson sent ⟨500, .error "Failed to send message."⟩ with
    | .ok sent1 => (sent1, false)
    | .error _ => (sent, true)
  match relay.post document with
  | .error _ => caught
  | .ok response =>
    if response.ok then
      match resJson sent ⟨200, .sent "Message sent successfully."⟩ with
      | .ok sent1 => (sent1, false)
      | .error _ => caught
    else
      match resJson sent ⟨500, .error ("Formspree error: " ++ response.text)⟩ with
      | .ok sent1 => (sent1, false)
      | .error _ => caught

/-- `app.post("/api/contact")`: the contact form API. -/
def submitContact (relay : Relay) (st : Store) (req : ContactRequest) :
    Store × ContactOutcome :=
  if !truthyStr req.name || !truthyStr req.email || !truthyStr req.subject ||
      !truthyStr req.message then
    (st, ⟨some ⟨400, .error "All fields are required."⟩, [], false⟩)
  else
    match insertContact st req.name req.email req.subject req.message with
    | (st1, .error _) => (st1, ⟨some ⟨500, .error "Failed to save contact."⟩, [], false⟩)
    | (st1, .ok _) =>
      match resJson none ⟨200, .saved⟩ with
      | .error _ => (st1, ⟨some ⟨500, .error "Failed to save contact."⟩, [], false⟩)
      | .ok sent =>
        let document : RelayMessage := ⟨req.name, req.email, req.message⟩
        let after := forwardContact relay sent document
        (st1, ⟨after.1, [document], after.2⟩)

/-- The code points that `String.prototype.trim` strips: white space and line
terminators. -/
def isJsWhiteSpace (c : Char) : Bool :=
  decide (c.toNat ∈ [0x9, 0xA, 0xB, 0xC, 0xD, 0x20, 0xA0, 0x1680, 0x2028, 0x2029, 0x202F,
    0x205F, 0x3000, 0xFEFF]) || (decide (0x2000 ≤ c.toNat) && decide (c.toNat ≤ 0x200A))

/-- `String.prototype.trim`. -/
def jsTrim (s : String) : String :=
  ⟨((s.data.dropWhile isJsWhiteSpace).reverse.dropWhile isJsWhiteSpace).reverse⟩

/-- A value that `trim` empties: it is empty or holds white space only. -/
def isBlank (s : String) : Bool := s.data.all isJsWhiteSpace

/-- The submit handler of the contact form in `contact.js`: the body it posts to
`/api/contact` for the values of the four inputs. -/
def contactFormRequest (name email subject message : String) : ContactRequest :=
  ⟨.val (jsTrim name), .val (jsTrim email), .val (jsTrim subject), .val (jsTrim message)⟩

/-! ## Schema set-up -/

/-- A table of the catalog: its name and the names of its columns. -/
structure Table where
  name : String
  columns : List String
  deriving DecidableEq, Repr

/-- The database as the set-up sees it: the tables that exist, and the rows and
the key counter of `products` (no rows while the table does not exist). -/
structure Database where
  tables : List Table
  products : List Product
  products_id_seq : Int
  deriving DecidableEq, Repr

/-- What a statement of the set-up can raise. -/
inductive SchemaError where
  | undefinedTable (name : String)
  | row (e : DbError)
  deriving DecidableEq, Repr

/-- Whether a table of that name exists. -/
def hasTable (db : Database) (name : String) : Bool :=
  db.tables.any (fun t => decide (t.name = name))

/-- `CREATE TABLE IF NOT EXISTS name (columns)`; `references` lists the tables
named in `REFERENCES` clauses, which must exist. -/
def createTableIfNotExists (db : Database) (name : String) (columns references : List String) :
    Except SchemaError Database :=
  if hasTable db name then .ok db
  else
    match references.find? (fun r => !hasTable db r) with
    | some r => .error (.undefinedTable r)
    | none => .ok { db with tables := db.tables ++ [⟨name, columns⟩] }

/-- `ADD COLUMN IF NOT EXISTS c`, once per column of `columns`. -/
def addColumnsIfNotExist (t : Table) (columns : List String) : Table :=
  ⟨t.name, columns.foldl (fun cs c => if cs.contains c then cs else cs ++ [c]) t.columns⟩

/-- `ALTER TABLE name ADD COLUMN IF NOT EXISTS c1 ..., ADD COLUMN IF NOT EXISTS c2 ...` -/
def alterTableAddColumnsIfNotExists (db : Database) (name : String) (columns : List String) :
    Except SchemaError Database :=
  if hasTable db name then
    .ok { db with tables := db.tables.map (fun t =>
            if t.name = name then addColumnsIfNotExist t columns else t) }
  else .error (.undefinedTable name)

/-- `SELECT COUNT(*) FROM products`, read with `parseInt`. -/
def countProducts (db : Database) : Except SchemaError Nat :=
  if hasTable db "products" then .ok db.products.length
  else .error (.undefinedTable "products")

/-- `INSERT INTO products (name, description, price) VALUES ($1, $2, $3)`, the
price in hundredths: a `DECIMAL(10, 2)` holds magnitudes below `10 ^ 8`. -/
def insertProduct (db : Database) (name description : String) (price : Int) :
    Database × Except SchemaError Unit :=
  if !hasTable db "products" then (db, .error (.undefinedTable "products"))
  else
    match sqlText (some name), sqlText (some description) with
    | .error e, _ => (db, .error (.row e))
    | .ok _, .error e => (db, .error (.row e))
    | .ok _, .ok text =>
      match toVarchar 255 name with
      | .error e => (db, .error (.row e))
      | .ok n =>
        if 10 ^ 10 ≤ |price| then (db, .error (.row .numericValueOutOfRange))
        else
          match nextval db.products_id_seq with
          | .error e => (db, .error (.row e))
          | .ok id =>
            let db1 := { db with products_id_seq := id }
            if db.products.any (fun r => decide (r.id = id)) then
              (db1, .error (.row .uniqueViolation))
            else ({ db1 with products := db.products ++ [⟨id, n, text, price⟩] }, .ok ())

/-- The sample products of `initializeDatabase`, prices in hundredths. -/
def sampleProducts : List (String × String × Int) :=
  [("Design", "Professional design services for your business", 200000),
   ("Professional Sound Hire", "High-quality audio equipment rental", 200000),
   ("AI & Machine Learning", "Custom AI solutions and consulting", 250000),
   ("Cyber Security", "Comprehensive security assessment and protection", 700000),
   ("Photography", "Professional photography services", 200000),
   ("Placement & Project Management", "Expert project management services", 250000),
   ("Technical Support Services", "24/7 technical support and maintenance", 150000),
   ("Videography", "Professional video production services", 200000),
   ("Domain & Hosting", "Web hosting and domain registration", 300000),
   ("Marketing", "Digital marketing and brand promotion", 100000),
   ("Development", "Custom software development solutions", 500000),
   ("Email Services", "Professional email hosting and management", 50000)]

/-- The loop `for (const [name, description, price] of products)`: one insert
per entry, left at the first error. -/
def insertProducts (db : Database) : List (String × String × Int) → Database
  | [] => db
  | (name, description, price) :: rest =>
    match insertProduct db name description price with
    | (db1, .error _) => db1
    | (db1, .ok _) => insertProducts db1 rest

/-- `initializeDatabase`: the statements run in the order of the source; the
first error ends the run (the `catch` block logs it) and what ran before it
stays. -/
def initializeDatabase (db : Database) : Database :=
  match createTableIfNotExists db "products"
      ["id", "name", "description", "price", "created_at"] [] with
  | .error _ => db
  | .ok db1 =>
  match createTableIfNotExists db1 "carts" ["id", "session_id", "created_at"] [] with
  | .error _ => db1
  | .ok db2 =>
  match createTableIfNotExists db2 "cart_items"
      ["id", "cart_id", "product_id", "quantity", "created_at"] ["carts", "products"] with
  | .error _ => db2
  | .ok db3 =>
  match createTableIfNotExists db3 "contacts"
      ["id", "name", "email", "subject", "message", "created_at"] [] with
  | .error _ => db3
  | .ok db4 =>
  match alterTableAddColumnsIfNotExists db4 "payments" ["customer_email", "items"] with
  | .error _ => db4
  | .ok db5 =>
  match createTableIfNotExists db5 "payments"
      ["id", "payment_intent_id", "session_id", "amount", "currency", "status", "created_at"]
      [] with
  | .error _ => db5
  | .ok db6 =>
  match countProducts db6 with
  | .error _ => db6
  | .ok count => if count = 0 then insertProducts db6 sampleProducts else db6

/-! ## Well-formed stores -/

/-- The constraints declared by `initializeDatabase` that the cart and checkout
handlers rely on, together with the freshness of the `SERIAL` counters. -/
structure Store.WF (st : Store) : Prop where
  /-- `products.id` is a primary key -/
  products_pkey : (st.products.map (fun r => r.id)).Nodup
  /-- `products.id SERIAL`: positive values of type `INTEGER` -/
  products_id_serial : ∀ r ∈ st.products, 0 < r.id ∧ r.id ≤ int4Max
  /-- `carts.id` is a primary key -/
  carts_pkey : (st.carts.map (fun c => c.id)).Nodup
  /-- `carts.session_id` is `UNIQUE` -/
  carts_session_id_key : (st.carts.map (fun c => c.session_id)).Nodup
  /-- a stored `session_id` is a text value: it holds no U+0000 -/
  carts_session_id_text : ∀ c ∈ st.carts, hasNul c.session_id = false
  /-- `cart_items.id` is a primary key -/
  cart_items_pkey : (st.cart_items.map (fun ci => ci.id)).Nodup
  /-- `UNIQUE(cart_id, product_id)`; rows holding a `NULL` never collide -/
  cart_items_cart_id_product_id_key : st.cart_items.Pairwise (fun a b =>
    a.cart_id = none ∨ a.product_id = none ∨
      a.cart_id ≠ b.cart_id ∨ a.product_id ≠ b.product_id)
  /-- the handlers store no `NULL` reference in `cart_items` -/
  cart_items_refs_present :
    ∀ ci ∈ st.cart_items, ci.cart_id ≠ none ∧ ci.product_id ≠ none
  /-- `cart_id INTEGER REFERENCES carts(id)` -/
  cart_items_cart_id_fkey :
    ∀ ci ∈ st.cart_items, ∀ c, ci.cart_id = some c → c ∈ st.carts.map (fun r => r.id)
  /-- `product_id INTEGER REFERENCES products(id)` -/
  cart_items_product_id_fkey :
    ∀ ci ∈ st.cart_items, ∀ p, ci.product_id = some p → p ∈ st.products.map (fun r => r.id)
  /-- `payments.id` is a primary key -/
  payments_pkey : (st.payments.map (fun r => r.id)).Nodup
  /-- `payments.payment_intent_id` is `UNIQUE` -/
  payments_payment_intent_id_key : (st.payments.map (fun r => r.payment_intent_id)).Nodup
  /-- the counter of `carts.id` is ahead of no stored key -/
  carts_id_fresh : ∀ c ∈ st.carts, c.id ≤ st.carts_id_seq
  /-- the counter of `cart_items.id` is ahead of no stored key -/
  cart_items_id_fresh : ∀ ci ∈ st.cart_items, ci.id ≤ st.cart_items_id_seq
  /-- the counter of `payments.id` is ahead of no stored key -/
  payments_id_fresh : ∀ r ∈ st.payments, r.id ≤ st.payments_id_seq

/-- The line items of the cart of session `s`: the row set of
`cart_items ci JOIN carts c ON ci.cart_id = c.id WHERE c.session_id = s`. -/
def linesOf (st : Store) (s : String) : List CartItem :=
  st.cart_items.filter (fun ci =>
    st.carts.any (fun c => decide (ci.cart_id = some c.id) && decide (c.session_id = s)))

/-- The line items of session `s` for product `p`. -/
def lineOf (st : Store) (s : String) (p : Int) : List CartItem :=
  (linesOf st s).filter (fun ci => decide (ci.product_id = some p))

/-- The store with the line items of session `s` for product `p` deleted. -/
def withoutLine (st : Store) (s : String) (p : Int) : Store :=
  { st with cart_items := st.cart_items.filter (fun ci => !decide (ci ∈ lineOf st s p)) }

/-- The store with the quantity of every line item of session `s` for product
`p` overwritten by `q`. -/
def withLineQuantity (st : Store) (s : String) (p q : Int) : Store :=
  { st with cart_items := st.cart_items.map (fun ci =>
      if ci ∈ lineOf st s p then { ci with quantity := q } else ci) }

/-- The store with every line item of session `s` deleted. -/
def withoutCart (st : Store) (s : String) : Store :=
  { st with cart_items := st.cart_items.filter (fun ci => !decide (ci ∈ linesOf st s)) }

/-- The values the processor reports for an intent fit the columns of
`payments` they are stored in. -/
def PaymentIntent.fits (paymentIntent : PaymentIntent) : Prop :=
  isInt4 paymentIntent.amount ∧ textFits 255 paymentIntent.id ∧
    textFits 3 paymentIntent.currency ∧ textFits 50 paymentIntent.status ∧
    ∀ e, orNull paymentIntent.metadata_customer_email = some e → textFits 255 e

/-- The `payments` row written for an intent, a session and a snapshot. -/
def paymentRow (st : Store) (paymentIntent : PaymentIntent) (s : String)
    (items : List SnapshotItem) : Payment :=
  ⟨st.payments_id_seq + 1, paymentIntent.id, s, paymentIntent.amount, paymentIntent.currency,
    paymentIntent.status, orNull paymentIntent.metadata_customer_email, some items⟩

/-- Exact total of the rows of a cart query, in hundredths. -/
def totalCents (rows : List (CartItem × Product)) : Int :=
  exactCents (fun row => row.2.price) (fun row => row.1.quantity) rows

/-- Exact number of units in the rows of a cart query. -/
def totalCount (rows : List (CartItem × Product)) : Int :=
  (rows.map (fun row => row.1.quantity)).sum

/-- The `total` field of a cart answer. -/
def Response.total (r : Response) : Option String :=
  match r.body with
  | .cart _ total _ => total
  | _ => none

/-- A cart of 2147483647 units of a product priced 99999999.99. -/
def bulkStore : Store :=
  { products := [⟨1, "Design", none, 9999999999⟩],
    carts := [⟨1, "s1"⟩], cart_items := [⟨1, some 1, some 1, 2147483647⟩],
    contacts := [], payments := [],
    products_id_seq := 1, carts_id_seq := 1, cart_items_id_seq := 1,
    contacts_id_seq := 0, payments_id_seq := 0 }

/-- A cart holding quantity -3 of a product priced 0.10 and quantity 1 of a
product priced 0.30: its exact total is zero. -/
def signedStore : Store :=
  { products := [⟨1, "A", none, 10⟩, ⟨2, "B", none, 30⟩],
    carts := [⟨1, "s1"⟩],
    cart_items := [⟨1, some 1, some 1, -3⟩, ⟨2, some 1, some 2, 1⟩],
    contacts := [], payments := [],
    products_id_seq := 2, carts_id_seq := 1, cart_items_id_seq := 2,
    contacts_id_seq := 0, payments_id_seq := 0 }

/-- Every line item holds a positive quantity. -/
def Store.QuantitiesPositive (st : Store) : Prop := ∀ ci ∈ st.cart_items, 0 < ci.quantity

/-- A database without tables. -/
def emptyDatabase : Database := ⟨[], [], 0⟩

/-- A database holding only a `payments` table of the seven columns of its
`CREATE TABLE` statement. -/
def paymentsOnlyDatabase : Database :=
  ⟨[⟨"payments",
      ["id", "payment_intent_id", "session_id", "amount", "currency", "status", "created_at"]⟩],
    [], 0⟩

/-- A relay that answers every post with a failure status. -/
def failingRelay : Relay := ⟨fun _ => .ok ⟨false, "service unavailable"⟩⟩

/-- A relay that cannot be reached. -/
def unreachableRelay : Relay := ⟨fun _ => .error "fetch failed"⟩

/-- A processor that reports every intent as canceled, with a customer email in
its metadata. -/
def canceledProcessor : Processor where
  create := fun _ => .error "unused"
  retrieve := fun _ =>
    .ok ⟨"pi_1", "pi_1_secret", 400000, "zar", "canceled", .val "ann@example.com"⟩

/-- A key of three characters, the second of which is U+0000. -/
def nulKey : String := String.mk ['a', Char.ofNat 0, 'b']

/-- A session key of 256 characters. -/
def longKey : String := String.mk (List.replicate 256 'a')

/-- A processor that knows the single intent `pi_1`. -/
def demoProcessor : Processor where
  create := fun params =>
    .ok ⟨"pi_1", "pi_1_secret", params.amount, params.currency, "requires_payment_method",
      params.metadata_customer_email⟩
  retrieve := fun paymentIntentId =>
    if paymentIntentId = .val "pi_1" then
      .ok ⟨"pi_1", "pi_1_secret", 400000, "zar", "succeeded", .undefined⟩
    else .error "No such payment_intent"

/-- A catalog of one product and nothing else. -/
def demoStore : Store :=
  { products := [⟨1, "Design", some "Professional design services for your business", 200000⟩],
    carts := [], cart_items := [], contacts := [], payments := [],
    products_id_seq := 1, carts_id_seq := 0, cart_items_id_seq := 0,
    contacts_id_seq := 0, payments_id_seq := 0 }

/-- The demo catalog, session `s1` holding quantity 2 of the product, and intent
`pi_1` already recorded. -/
def recordedStore : Store :=
  { products := demoStore.products,
    carts := [⟨1, "s1"⟩], cart_items := [⟨1, some 1, some 1, 2⟩], contacts := [],
    payments := [⟨1, "pi_1", "s1", 400000, "zar", "succeeded", none, some []⟩],
    products_id_seq := 1, carts_id_seq := 1, cart_items_id_seq := 1,
    contacts_id_seq := 0, payments_id_seq := 1 }

/-! ## Coercions and lookups -/

theorem bindInt4_val {n : Int} (h : isInt4 n) : bindInt4 (.val n) = .ok (some n) := by
  simp [bindInt4, toInt4, h, Except.map]

theorem bindInt4_val_error {n : Int} (h : ¬ isInt4 n) :
    bindInt4 (.val n) = .error .numericValueOutOfRange := by
  simp [bindInt4, toInt4, h, Except.map]

theorem toVarchar_of_length_le {n : Nat} {s : String} (h : s.length ≤ n) :
    toVarchar n s = .ok s := by
  simp [toVarchar, h]

theorem bindInt4_str {n : Int} (h : isInt4 n) : bindInt4 (.str n) = .ok (some n) := by
  simp [bindInt4, toInt4, h, Except.map]

theorem bindInt4_str_error {n : Int} (h : ¬ isInt4 n) :
    bindInt4 (.str n) = .error .numericValueOutOfRange := by
  simp [bindInt4, toInt4, h, Except.map]

theorem toVarcharOpt_of_length_le {n : Nat} {s : String} (h : s.length ≤ n) :
    toVarcharOpt n (some s) = .ok (some s) := by
  simp [toVarcharOpt, toVarchar_of_length_le h, Except.map]

theorem sqlText_of_not_hasNul {s : String} (h : hasNul s = false) :
    sqlText (some s) = .ok (some s) := by
  simp [sqlText, h]

theorem sqlText_of_hasNul {s : String} (h : hasNul s = true) :
    sqlText (some s) = .error .characterNotInRepertoire := by
  simp [sqlText, h]

/-- A text value the server accepts is the value sent. -/
theorem sqlText_ok {v w : Option String} (h : sqlText v = .ok w) : w = v := by
  cases v with
  | none =>
    simp only [sqlText, Except.ok.injEq] at h
    exact h.symm
  | some s =>
    by_cases hn : hasNul s = true
    · simp [sqlText, hn] at h
    · simp only [sqlText, hn, Bool.false_eq_true, if_false, Except.ok.injEq] at h
      exact h.symm

theorem hasNul_take {s : String} (h : hasNul s = false) (n : Nat) :
    hasNul (s.take n) = false := by
  unfold hasNul at h ⊢
  rw [Bool.eq_false_iff] at h ⊢
  intro hc
  apply h
  rw [List.contains_iff_exists_mem_beq] at hc ⊢
  obtain ⟨c, hc1, hc2⟩ := hc
  rw [String.data_take] at hc1
  exact ⟨c, List.mem_of_mem_take hc1, hc2⟩

/-- Fitting a text value to a `VARCHAR(n)` column brings no U+0000 in. -/
theorem toVarchar_hasNul {n : Nat} {s k : String} (h : toVarchar n s = .ok k)
    (hs : hasNul s = false) : hasNul k = false := by
  unfold toVarchar at h
  split at h
  · simp only [Except.ok.injEq] at h
    rw [← h]
    exact hs
  · split at h
    · simp only [Except.ok.injEq] at h
      rw [← h]
      exact hasNul_take hs n
    · simp at h

/-- A text value the server has read holds no U+0000. -/
theorem sqlText_some_ok {v : Option String} {s : String} (h : sqlText v = .ok (some s)) :
    hasNul s = false := by
  cases v with
  | none => simp [sqlText] at h
  | some t =>
    by_cases hn : hasNul t = true
    · simp [sqlText, hn] at h
    · simp only [sqlText, hn, Bool.false_eq_true, if_false, Except.ok.injEq,
        Option.some.injEq] at h
      rw [← h]
      simpa using hn

theorem bindText_some_ok {f : JsField String} {s : String} (h : bindText f = .ok (some s)) :
    hasNul s = false := by
  cases f with
  | undefined => simp [bindText] at h
  | null => simp [bindText] at h
  | val t => exact @sqlText_some_ok (some t) s h

theorem bindText_val {s : String} (h : hasNul s = false) :
    bindText (.val s) = .ok (some s) :=
  sqlText_of_not_hasNul h

theorem bindText_val_error {s : String} (h : hasNul s = true) :
    bindText (.val s) = .error .characterNotInRepertoire :=
  sqlText_of_hasNul h

theorem nextval_of_lt {n : Int} (h : n < int4Max) : nextval n = .ok (n + 1) := by
  simp [nextval, h]

theorem nextval_ok {n id : Int} (h : nextval n = .ok id) : id = n + 1 ∧ n < int4Max := by
  unfold nextval at h
  split at h
  · simp only [Except.ok.injEq] at h
    exact ⟨h.symm, by assumption⟩
  · simp at h

theorem selectCartsBySession_val {st : Store} {s : String} (h : hasNul s = false) :
    selectCartsBySession st (.val s) = .ok (cartsOf st (some s)) := by
  simp [selectCartsBySession, bindText_val h]

theorem cartRows_val {st : Store} {s : String} (h : hasNul s = false) :
    cartRows st (.val s) = .ok (joinRows st (some s)) := by
  simp [cartRows, bindText_val h]

/-- A cart query that returns rows was sent a key without U+0000 and returns
the joined rows of that key. -/
theorem cartRows_ok_val {st : Store} {s : String} {rows : List (CartItem × Product)}
    (h : cartRows st (.val s) = .ok rows) :
    hasNul s = false ∧ rows = joinRows st (some s) := by
  by_cases hn : hasNul s = true
  · simp [cartRows, bindText_val_error hn] at h
  · have hn2 : hasNul s = false := by simpa using hn
    rw [cartRows_val hn2] at h
    simp only [Except.ok.injEq] at h
    exact ⟨hn2, h.symm⟩

theorem mem_cartsOf {st : Store} {s : String} {c : Cart} :
    c ∈ cartsOf st (some s) ↔ c ∈ st.carts ∧ c.session_id = s := by
  simp [cartsOf]

/-- Under the `UNIQUE` constraint on `session_id` a session has at most one cart. -/
theorem cart_unique {st : Store} (hwf : st.WF) {c d : Cart} (hc : c ∈ st.carts)
    (hd : d ∈ st.carts) (h : c.session_id = d.session_id) : c = d :=
  List.inj_on_of_nodup_map hwf.carts_session_id_key hc hd h

theorem cartsOf_cases {st : Store} (hwf : st.WF) (s : String) :
    cartsOf st (some s) = [] ∨ ∃ c, cartsOf st (some s) = [c] := by
  have hnd : (cartsOf st (some s)).Nodup := by
    simp only [cartsOf]
    exact (List.Nodup.of_map _ hwf.carts_session_id_key).filter _
  match h : cartsOf st (some s) with
  | [] => exact Or.inl rfl
  | [c] => exact Or.inr ⟨c, rfl⟩
  | c :: d :: rest =>
    exfalso
    have hc : c ∈ cartsOf st (some s) := by simp [h]
    have hd : d ∈ cartsOf st (some s) := by simp [h]
    rw [mem_cartsOf] at hc hd
    have hcd : c = d := cart_unique hwf hc.1 hd.1 (hc.2.trans hd.2.symm)
    rw [h] at hnd
    simp [hcd] at hnd

/-- With the cart of a session at hand, its line items are the rows that
reference it. -/
theorem linesOf_eq_filter {st : Store} (hwf : st.WF) {c : Cart} (hc : c ∈ st.carts) :
    linesOf st c.session_id =
      st.cart_items.filter (fun ci => decide (ci.cart_id = some c.id)) := by
  unfold linesOf
  apply List.filter_congr
  intro ci _
  by_cases h : ci.cart_id = some c.id
  · simp only [h, decide_True]
    rw [List.any_eq_true]
    exact ⟨c, hc, by simp⟩
  · simp only [h, decide_False]
    rw [Bool.eq_false_iff]
    intro hany
    rw [List.any_eq_true] at hany
    obtain ⟨d, hd, hd2⟩ := hany
    simp only [Bool.and_eq_true, decide_eq_true_eq] at hd2
    have := cart_unique hwf hd hc hd2.2
    subst this
    exact h hd2.1

theorem lineOf_eq_filter {st : Store} (hwf : st.WF) {c : Cart} (hc : c ∈ st.carts) (p : Int) :
    lineOf st c.session_id p = st.cart_items.filter (isLine c.id (some p)) := by
  unfold lineOf
  rw [linesOf_eq_filter hwf hc, List.filter_filter]
  apply List.filter_congr
  intro ci _
  simp [isLine, Bool.and_comm]

/-- A session without a cart has no line items. -/
theorem linesOf_eq_nil_of_no_cart {st : Store} {s : String}
    (h : ∀ c ∈ st.carts, c.session_id ≠ s) : linesOf st s = [] := by
  unfold linesOf
  rw [List.filter_eq_nil_iff]
  intro ci _ hany
  rw [List.any_eq_true] at hany
  obtain ⟨d, hd, hd2⟩ := hany
  simp only [Bool.and_eq_true, decide_eq_true_eq] at hd2
  exact h d hd hd2.2

/-- A session that has line items has a stored key, which holds no U+0000. -/
theorem hasNul_of_mem_linesOf {st : Store} (hwf : st.WF) {s : String} {ci : CartItem}
    (h : ci ∈ linesOf st s) : hasNul s = false := by
  unfold linesOf at h
  rw [List.mem_filter, List.any_eq_true] at h
  obtain ⟨_, c, hc, hc2⟩ := h
  simp only [Bool.and_eq_true, decide_eq_true_eq] at hc2
  rw [← hc2.2]
  exact hwf.carts_session_id_text c hc

/-! ## The statements preserve the declared constraints -/

theorem insertCart_WF {st : Store} (hwf : st.WF) (sessionId : JsField String) :
    (insertCart st sessionId).1.WF := by
  have hseq : ({ st with carts_id_seq := st.carts_id_seq + 1 } : Store).WF := by
    refine { hwf with carts_id_fresh := ?_ }
    intro c hc
    have := hwf.carts_id_fresh c hc
    show c.id ≤ st.carts_id_seq + 1
    omega
  unfold insertCart
  cases hbind : bindText sessionId with
  | error e => exact hwf
  | ok text =>
    simp only
    cases hfit : toVarcharOpt 255 text with
    | error e => exact hwf
    | ok value =>
      simp only
      cases hnext : nextval st.carts_id_seq with
      | error e => exact hwf
      | ok id =>
        obtain ⟨hid1, _⟩ := nextval_ok hnext
        subst hid1
        simp only
        cases value with
        | none => exact hseq
        | some key =>
          simp only
          split
          · exact hseq
          · rename_i hany
            simp only [List.any_eq_true, Bool.or_eq_true, decide_eq_true_eq, not_exists,
              not_and, not_or] at hany
            have hkey : hasNul key = false := by
              cases text with
              | none => simp [toVarcharOpt] at hfit
              | some t =>
                have ht := bindText_some_ok hbind
                cases hv : toVarchar 255 t with
                | error e => simp [toVarcharOpt, hv, Except.map] at hfit
                | ok k =>
                  simp only [toVarcharOpt, hv, Except.map, Except.ok.injEq,
                    Option.some.injEq] at hfit
                  rw [← hfit]
                  exact toVarchar_hasNul hv ht
            refine { hwf with
              carts_pkey := ?_, carts_session_id_key := ?_, carts_session_id_text := ?_,
              cart_items_cart_id_fkey := ?_, carts_id_fresh := ?_ }
            · show ((st.carts ++ [(⟨st.carts_id_seq + 1, key⟩ : Cart)]).map
                (fun c => c.id)).Nodup
              rw [List.map_append, List.nodup_append]
              refine ⟨hwf.carts_pkey, by simp, ?_⟩
              intro a ha hb
              simp only [List.map_cons, List.map_nil, List.mem_singleton] at hb
              rw [List.mem_map] at ha
              obtain ⟨c, hc, rfl⟩ := ha
              exact (hany c hc).1 hb
            · show ((st.carts ++ [(⟨st.carts_id_seq + 1, key⟩ : Cart)]).map
                (fun c => c.session_id)).Nodup
              rw [List.map_append, List.nodup_append]
              refine ⟨hwf.carts_session_id_key, by simp, ?_⟩
              intro a ha hb
              simp only [List.map_cons, List.map_nil, List.mem_singleton] at hb
              rw [List.mem_map] at ha
              obtain ⟨c, hc, rfl⟩ := ha
              exact (hany c hc).2 hb
            · intro c hc
              have hc2 : c ∈ st.carts ++ [(⟨st.carts_id_seq + 1, key⟩ : Cart)] := hc
              rw [List.mem_append, List.mem_singleton] at hc2
              rcases hc2 with h | h
              · exact hwf.carts_session_id_text c h
              · subst h
                exact hkey
            · intro ci hci c hc
              show c ∈ (st.carts ++ [(⟨st.carts_id_seq + 1, key⟩ : Cart)]).map (fun r => r.id)
              rw [List.map_append]
              exact List.mem_append_left _ (hwf.cart_items_cart_id_fkey ci hci c hc)
            · intro c hc
              show c.id ≤ st.carts_id_seq + 1
              have hc2 : c ∈ st.carts ++ [(⟨st.carts_id_seq + 1, key⟩ : Cart)] := hc
              rw [List.mem_append, List.mem_singleton] at hc2
              rcases hc2 with h | h
              · have := hwf.carts_id_fresh c h
                omega
              · subst h
                exact le_refl _

/-- Advancing the counter of `cart_items.id` keeps the constraints. -/
theorem WF_advance_cart_items_seq {st : Store} (hwf : st.WF) {k : Int}
    (hk : st.cart_items_id_seq ≤ k) : ({ st with cart_items_id_seq := k } : Store).WF := by
  refine { hwf with cart_items_id_fresh := ?_ }
  intro ci hci
  have := hwf.cart_items_id_fresh ci hci
  show ci.id ≤ k
  omega

/-- Overwriting the quantity of selected rows keeps the constraints. -/
theorem WF_setQuantity {st : Store} (hwf : st.WF) (P : CartItem → Bool) (q k : Int)
    (hk : st.cart_items_id_seq ≤ k) :
    ({ st with
        cart_items_id_seq := k
        cart_items := st.cart_items.map (fun ci =>
          if P ci then { ci with quantity := q } else ci) } : Store).WF := by
  have hid : ∀ ci : CartItem, (if P ci then { ci with quantity := q } else ci).id = ci.id := by
    intro ci; split <;> rfl
  have hcart : ∀ ci : CartItem,
      (if P ci then { ci with quantity := q } else ci).cart_id = ci.cart_id := by
    intro ci; split <;> rfl
  have hprod : ∀ ci : CartItem,
      (if P ci then { ci with quantity := q } else ci).product_id = ci.product_id := by
    intro ci; split <;> rfl
  refine { hwf with
    cart_items_pkey := ?_, cart_items_cart_id_product_id_key := ?_,
    cart_items_refs_present := ?_,
    cart_items_cart_id_fkey := ?_, cart_items_product_id_fkey := ?_,
    cart_items_id_fresh := ?_ }
  · show ((st.cart_items.map (fun ci =>
      if P ci then { ci with quantity := q } else ci)).map (fun ci => ci.id)).Nodup
    rw [List.map_map]
    have : ((fun ci : CartItem => ci.id) ∘ fun ci =>
        if P ci then { ci with quantity := q } else ci) = fun ci => ci.id := by
      funext ci; exact hid ci
    rw [this]
    exact hwf.cart_items_pkey
  · show (st.cart_items.map (fun ci =>
      if P ci then { ci with quantity := q } else ci)).Pairwise _
    rw [List.pairwise_map]
    refine hwf.cart_items_cart_id_product_id_key.imp ?_
    intro a b hab
    rw [hcart a, hcart b, hprod a, hprod b]
    exact hab
  · intro ci hci
    have hci2 : ci ∈ st.cart_items.map (fun ci =>
      if P ci then { ci with quantity := q } else ci) := hci
    rw [List.mem_map] at hci2
    obtain ⟨a, ha, rfl⟩ := hci2
    rw [hcart a, hprod a]
    exact hwf.cart_items_refs_present a ha
  · intro ci hci c hc
    have hci2 : ci ∈ st.cart_items.map (fun ci =>
      if P ci then { ci with quantity := q } else ci) := hci
    rw [List.mem_map] at hci2
    obtain ⟨a, ha, rfl⟩ := hci2
    rw [hcart a] at hc
    exact hwf.cart_items_cart_id_fkey a ha c hc
  · intro ci hci p hp
    have hci2 : ci ∈ st.cart_items.map (fun ci =>
      if P ci then { ci with quantity := q } else ci) := hci
    rw [List.mem_map] at hci2
    obtain ⟨a, ha, rfl⟩ := hci2
    rw [hprod a] at hp
    exact hwf.cart_items_product_id_fkey a ha p hp
  · intro ci hci
    have hci2 : ci ∈ st.cart_items.map (fun ci =>
      if P ci then { ci with quantity := q } else ci) := hci
    rw [List.mem_map] at hci2
    obtain ⟨a, ha, rfl⟩ := hci2
    rw [hid a]
    have := hwf.cart_items_id_fresh a ha
    show a.id ≤ k
    omega

/-- Appending a line item that passed the checks of the insert keeps the
constraints. -/
theorem WF_appendCartItem {st : Store} (hwf : st.WF) (cartId p q : Int)
    (hconf : st.cart_items.find? (isLine cartId (some p)) = none)
    (hcart : cartId ∈ st.carts.map (fun c => c.id))
    (hprod : p ∈ st.products.map (fun r => r.id)) :
    ({ st with
        cart_items_id_seq := st.cart_items_id_seq + 1
        cart_items := st.cart_items ++
          [(⟨st.cart_items_id_seq + 1, some cartId, some p, q⟩ : CartItem)] } : Store).WF := by
  rw [List.find?_eq_none] at hconf
  have hmem : ∀ ci, ci ∈ ({ st with
        cart_items_id_seq := st.cart_items_id_seq + 1
        cart_items := st.cart_items ++
          [(⟨st.cart_items_id_seq + 1, some cartId, some p, q⟩ : CartItem)] } : Store).cart_items →
      ci ∈ st.cart_items ∨ ci = ⟨st.cart_items_id_seq + 1, some cartId, some p, q⟩ := by
    intro ci hci
    have hci2 : ci ∈ st.cart_items ++
      [(⟨st.cart_items_id_seq + 1, some cartId, some p, q⟩ : CartItem)] := hci
    rw [List.mem_append, List.mem_singleton] at hci2
    exact hci2
  refine { hwf with
    cart_items_pkey := ?_, cart_items_cart_id_product_id_key := ?_,
    cart_items_refs_present := ?_,
    cart_items_cart_id_fkey := ?_, cart_items_product_id_fkey := ?_,
    cart_items_id_fresh := ?_ }
  · show ((st.cart_items ++ [(⟨st.cart_items_id_seq + 1, some cartId, some p, q⟩ : CartItem)]).map
      (fun ci => ci.id)).Nodup
    rw [List.map_append, List.nodup_append]
    refine ⟨hwf.cart_items_pkey, by simp, ?_⟩
    intro a ha hb
    simp only [List.map_cons, List.map_nil, List.mem_singleton] at hb
    rw [List.mem_map] at ha
    obtain ⟨ci, hci, rfl⟩ := ha
    have := hwf.cart_items_id_fresh ci hci
    omega
  · show (st.cart_items ++
      [(⟨st.cart_items_id_seq + 1, some cartId, some p, q⟩ : CartItem)]).Pairwise _
    rw [List.pairwise_append]
    refine ⟨hwf.cart_items_cart_id_product_id_key, List.pairwise_singleton _ _, ?_⟩
    intro a ha b hb
    rw [List.mem_singleton] at hb
    subst hb
    have hna := hconf a ha
    simp only [isLine, Bool.and_eq_true, decide_eq_true_eq, not_and] at hna
    by_cases h1 : a.cart_id = some cartId
    · have h3 : ¬ a.product_id = some p := hna ⟨h1, by simp⟩
      exact Or.inr (Or.inr (Or.inr h3))
    · exact Or.inr (Or.inr (Or.inl h1))
  · intro ci hci
    rcases hmem ci hci with h | h
    · exact hwf.cart_items_refs_present ci h
    · subst h
      simp
  · intro ci hci c hc
    rcases hmem ci hci with h | h
    · exact hwf.cart_items_cart_id_fkey ci h c hc
    · subst h
      simp only [Option.some.injEq] at hc
      subst hc
      exact hcart
  · intro ci hci r hr
    rcases hmem ci hci with h | h
    · exact hwf.cart_items_product_id_fkey ci h r hr
    · subst h
      simp only [Option.some.injEq] at hr
      subst hr
      exact hprod
  · intro ci hci
    show ci.id ≤ st.cart_items_id_seq + 1
    rcases hmem ci hci with h | h
    · have := hwf.cart_items_id_fresh ci h
      omega
    · subst h
      exact le_refl _

/-- A present product id that the server reads is an `INTEGER`. -/
theorem bindInt4_ok_of_truthy {x : NumField} {pid : Option Int} (hp : truthyNum x = true)
    (h : bindInt4 x = .ok pid) : ∃ p, pid = some p ∧ isInt4 p := by
  cases x with
  | undefined => simp [truthyNum] at hp
  | null => simp [truthyNum] at hp
  | val n =>
    by_cases h4 : isInt4 n
    · rw [bindInt4_val h4] at h
      simp only [Except.ok.injEq] at h
      exact ⟨n, h.symm, h4⟩
    · rw [bindInt4_val_error h4] at h
      simp at h
  | str n =>
    by_cases h4 : isInt4 n
    · rw [bindInt4_str h4] at h
      simp only [Except.ok.injEq] at h
      exact ⟨n, h.symm, h4⟩
    · rw [bindInt4_str_error h4] at h
      simp at h

theorem upsertCartItem_WF {st : Store} (hwf : st.WF) (cartId : Int)
    {productId : NumField} (hp : truthyNum productId = true) (quantity : NumField) :
    (upsertCartItem st cartId productId quantity).1.WF := by
  have hseq := WF_advance_cart_items_seq hwf
    (show st.cart_items_id_seq ≤ st.cart_items_id_seq + 1 by omega)
  unfold upsertCartItem
  split
  · exact hwf
  · exact hwf
  · rename_i pid qty hpid _
    obtain ⟨p, rfl, _⟩ := bindInt4_ok_of_truthy hp hpid
    split
    · exact hwf
    · rename_i id hid
      obtain ⟨hid1, _⟩ := nextval_ok hid
      subst hid1
      simp only
      split
      · exact hseq
      · split
        · split
          · exact hseq
          · rename_i sum _
            exact WF_setQuantity hwf _ sum _ (by omega)
        · rename_i hnone
          split
          · exact hseq
          · split
            · exact hseq
            · split
              · exact hseq
              · rename_i h1 h2 h3
                refine WF_appendCartItem hwf cartId p _ hnone ?_ ?_
                · simp only [Bool.not_eq_true, Bool.not_eq_false, List.any_eq_true,
                    decide_eq_true_eq] at h2
                  obtain ⟨c, hc, rfl⟩ := by simpa using h2
                  exact List.mem_map_of_mem _ hc
                · simp only [Option.all_some, Bool.not_eq_true, Bool.not_eq_false,
                    List.any_eq_true, decide_eq_true_eq] at h3
                  obtain ⟨r, hr, rfl⟩ := by simpa using h3
                  exact List.mem_map_of_mem _ hr

theorem getOrCreateCart_WF {st : Store} (hwf : st.WF) (sessionId : JsField String) :
    (getOrCreateCart st sessionId).1.WF := by
  unfold getOrCreateCart
  split
  · exact hwf
  · exact insertCart_WF hwf sessionId
  · exact hwf

theorem addItem_WF {st : Store} (hwf : st.WF) (req : CartRequest) :
    (addItem st req).1.WF := by
  unfold addItem
  simp only
  split
  · exact hwf
  · rename_i htruthy
    have hp : truthyNum req.productId = true := by
      simp only [Bool.or_eq_true, Bool.not_eq_true', not_or, Bool.not_eq_false] at htruthy
      exact htruthy.2
    split
    · exact hwf
    · exact hwf
    · split
      · rename_i st1 _ h
        have := getOrCreateCart_WF hwf req.sessionId
        rw [h] at this
        exact this
      · rename_i st1 cart h
        have h1 : st1.WF := by
          have := getOrCreateCart_WF hwf req.sessionId
          rw [h] at this
          exact this
        split
        · rename_i st2 _ h2
          have := upsertCartItem_WF h1 cart.id hp (withDefault 1 req.quantity)
          rw [h2] at this
          exact this
        · rename_i st2 _ h2
          have := upsertCartItem_WF h1 cart.id hp (withDefault 1 req.quantity)
          rw [h2] at this
          exact this

/-! ## What each statement of `/api/cart/add` does on a well-formed store -/

theorem find?_eq_head?_filter {α : Type} (P : α → Bool) (l : List α) :
    l.find? P = (l.filter P).head? := by
  induction l with
  | nil => rfl
  | cons a l ih =>
    by_cases h : P a
    · simp [List.find?_cons, List.filter_cons, h]
    · rw [List.find?_cons, List.filter_cons]
      simp only [h, Bool.false_eq_true, if_false]
      exact ih

/-- A product of the catalog has a non-zero identifier of type `INTEGER`. -/
theorem product_id_valid {st : Store} (hwf : st.WF) {p : Int}
    (hp : ∃ r ∈ st.products, r.id = p) : p ≠ 0 ∧ isInt4 p := by
  obtain ⟨r, hr, rfl⟩ := hp
  have := hwf.products_id_serial r hr
  refine ⟨by omega, ?_, this.2⟩
  unfold int4Min
  omega

theorem selectProductsById_of_mem {st : Store} (hwf : st.WF) {p : Int}
    (hp : ∃ r ∈ st.products, r.id = p) :
    ∃ r rs, selectProductsById st (.val p) = .ok (r :: rs) := by
  have hv := product_id_valid hwf hp
  obtain ⟨r, hr, hrp⟩ := hp
  have hmem : r ∈ st.products.filter (fun r => decide (r.id = p)) := by
    simp [List.mem_filter, hr, hrp]
  unfold selectProductsById
  rw [bindInt4_val hv.2]
  simp only
  cases hf : st.products.filter (fun r => decide (r.id = p)) with
  | nil => rw [hf] at hmem; simp at hmem
  | cons a as => exact ⟨a, as, rfl⟩

theorem selectProductsById_of_not_mem {st : Store} {p : Int} (hp4 : isInt4 p)
    (hp : ∀ r ∈ st.products, r.id ≠ p) : selectProductsById st (.val p) = .ok [] := by
  unfold selectProductsById
  rw [bindInt4_val hp4]
  simp only
  congr 1
  rw [List.filter_eq_nil_iff]
  intro r hr
  simpa using hp r hr

theorem selectProductsById_str (st : Store) (p : Int) :
    selectProductsById st (.str p) = selectProductsById st (.val p) := rfl

/-- A session key that holds U+0000 makes the lookup of the cart fail, and
nothing is written. -/
theorem getOrCreateCart_nul {st : Store} {s : String} (hnul : hasNul s = true) :
    getOrCreateCart st (.val s) = (st, .error .characterNotInRepertoire) := by
  unfold getOrCreateCart selectCartsBySession
  rw [bindText_val_error hnul]

theorem getOrCreateCart_existing {st : Store} {s : String} {c : Cart} {cs : List Cart}
    (hnul : hasNul s = false) (h : cartsOf st (some s) = c :: cs) :
    getOrCreateCart st (.val s) = (st, .ok c) := by
  unfold getOrCreateCart
  rw [selectCartsBySession_val hnul, h]

theorem getOrCreateCart_new {st : Store} (hwf : st.WF) {s : String} (hnul : hasNul s = false)
    (hlen : s.length ≤ 255) (hseq : st.carts_id_seq < int4Max)
    (h : cartsOf st (some s) = []) :
    getOrCreateCart st (.val s) =
      ({ st with
          carts_id_seq := st.carts_id_seq + 1
          carts := st.carts ++ [(⟨st.carts_id_seq + 1, s⟩ : Cart)] },
        .ok ⟨st.carts_id_seq + 1, s⟩) := by
  have hno : ∀ c ∈ st.carts, c.session_id ≠ s := by
    intro c hc hcs
    have : c ∈ cartsOf st (some s) := mem_cartsOf.2 ⟨hc, hcs⟩
    rw [h] at this
    simp at this
  have hany : st.carts.any (fun c =>
      decide (c.id = st.carts_id_seq + 1) || decide (c.session_id = s)) = false := by
    rw [Bool.eq_false_iff]
    intro hany
    rw [List.any_eq_true] at hany
    obtain ⟨c, hc, hc2⟩ := hany
    simp only [Bool.or_eq_true, decide_eq_true_eq] at hc2
    rcases hc2 with h1 | h1
    · have := hwf.carts_id_fresh c hc
      omega
    · exact hno c hc h1
  unfold getOrCreateCart
  rw [selectCartsBySession_val hnul, h]
  simp only [insertCart, bindText_val hnul, toVarcharOpt_of_length_le hlen,
    nextval_of_lt hseq, hany]
  rfl

theorem upsertCartItem_insert {st : Store} (hwf : st.WF) {cartId p q : Int}
    (hp4 : isInt4 p) (hq : isInt4 q) (hseq : st.cart_items_id_seq < int4Max)
    (hnone : st.cart_items.find? (isLine cartId (some p)) = none)
    (hcart : ∃ c ∈ st.carts, c.id = cartId) (hprod : ∃ r ∈ st.products, r.id = p) :
    upsertCartItem st cartId (.val p) (.val q) =
      ({ st with
          cart_items_id_seq := st.cart_items_id_seq + 1
          cart_items := st.cart_items ++
            [(⟨st.cart_items_id_seq + 1, some cartId, some p, q⟩ : CartItem)] }, .ok ()) := by
  have h1 : st.cart_items.any (fun ci => decide (ci.id = st.cart_items_id_seq + 1)) = false := by
    rw [Bool.eq_false_iff]
    intro hany
    rw [List.any_eq_true] at hany
    obtain ⟨ci, hci, hci2⟩ := hany
    simp only [decide_eq_true_eq] at hci2
    have := hwf.cart_items_id_fresh ci hci
    omega
  have h2 : st.carts.any (fun c => decide (c.id = cartId)) = true := by
    rw [List.any_eq_true]
    obtain ⟨c, hc, hc2⟩ := hcart
    exact ⟨c, hc, by simp [hc2]⟩
  have h3 : st.products.any (fun r => decide (r.id = p)) = true := by
    rw [List.any_eq_true]
    obtain ⟨r, hr, hr2⟩ := hprod
    exact ⟨r, hr, by simp [hr2]⟩
  unfold upsertCartItem
  rw [bindInt4_val hp4, bindInt4_val hq]
  simp only [nextval_of_lt hseq, hnone, h1, h2, h3, Option.all_some]
  rfl

theorem upsertCartItem_update {st : Store} {cartId p q : Int} {old : CartItem}
    (hp4 : isInt4 p) (hq : isInt4 q) (hseq : st.cart_items_id_seq < int4Max)
    (hold : st.cart_items.find? (isLine cartId (some p)) = some old)
    (hsum : isInt4 (old.quantity + q)) :
    upsertCartItem st cartId (.val p) (.val q) =
      ({ st with
          cart_items_id_seq := st.cart_items_id_seq + 1
          cart_items := st.cart_items.map (fun ci =>
            if isLine cartId (some p) ci then { ci with quantity := old.quantity + q }
            else ci) }, .ok ()) := by
  unfold upsertCartItem
  rw [bindInt4_val hp4, bindInt4_val hq]
  simp only [nextval_of_lt hseq, hold, toInt4, hsum, if_true]

/-- On a well-formed store no line item references a cart identifier that the
counter has not handed out yet. -/
theorem no_line_of_fresh_cart {st : Store} (hwf : st.WF) (pid : Option Int) :
    st.cart_items.find? (isLine (st.carts_id_seq + 1) pid) = none := by
  rw [List.find?_eq_none]
  intro ci hci hline
  simp only [isLine, Bool.and_eq_true, decide_eq_true_eq] at hline
  have hmem := hwf.cart_items_cart_id_fkey ci hci _ hline.1.1
  rw [List.mem_map] at hmem
  obtain ⟨c, hc, hcid⟩ := hmem
  have := hwf.carts_id_fresh c hc
  omega

/-- The 200 answer of `/api/cart/add`. -/
theorem addItem_eq_of_steps {st st1 st2 : Store} {s : String} {p q : Int} {cart : Cart}
    {r : Product} {rs : List Product} (hs : s ≠ "") (hp0 : p ≠ 0)
    (hsel : selectProductsById st (.val p) = .ok (r :: rs))
    (hg : getOrCreateCart st (.val s) = (st1, .ok cart))
    (hu : upsertCartItem st1 cart.id (.val p) (.val q) = (st2, .ok ())) :
    addItem st ⟨.val s, .val p, .val q⟩ = (st2, ⟨200, .success "Item added to cart"⟩) := by
  simp only [addItem, withDefault, truthyStr, truthyNum, hs, hp0, hsel, hg, hu, ne_eq,
    not_false_eq_true, decide_True, Bool.not_true, Bool.or_self, Bool.false_eq_true,
    if_false]

/-- First `add` of a product to a session: one line item with the given
quantity appears. -/
theorem addItem_fresh_line {st : Store} (hwf : st.WF) {s : String} {p q : Int}
    (hs : s ≠ "") (hnul : hasNul s = false) (hlen : s.length ≤ 255)
    (hcseq : st.carts_id_seq < int4Max) (hiseq : st.cart_items_id_seq < int4Max)
    (hp : ∃ r ∈ st.products, r.id = p)
    (hq : isInt4 q) (hnone : lineOf st s p = []) :
    ∃ st1 row, addItem st ⟨.val s, .val p, .val q⟩ =
        (st1, ⟨200, .success "Item added to cart"⟩) ∧
      st1.products = st.products ∧ lineOf st1 s p = [row] ∧ row.quantity = q ∧
      st1.cart_items_id_seq = st.cart_items_id_seq + 1 := by
  obtain ⟨hp0, hp4⟩ := product_id_valid hwf hp
  obtain ⟨r, rs, hsel⟩ := selectProductsById_of_mem hwf hp
  have hwf2 := addItem_WF hwf ⟨.val s, .val p, .val q⟩
  rcases cartsOf_cases hwf s with h | ⟨c, h⟩
  · have hg := getOrCreateCart_new hwf hnul hlen hcseq h
    have hwf1 : ({ st with
          carts_id_seq := st.carts_id_seq + 1
          carts := st.carts ++ [(⟨st.carts_id_seq + 1, s⟩ : Cart)] } : Store).WF := by
      have := getOrCreateCart_WF hwf (.val s)
      rw [hg] at this
      exact this
    have hu := @upsertCartItem_insert _ hwf1 (st.carts_id_seq + 1) p q hp4 hq hiseq
      (no_line_of_fresh_cart hwf (some p))
      ⟨⟨st.carts_id_seq + 1, s⟩, by simp, rfl⟩ hp
    have hadd := addItem_eq_of_steps hs hp0 hsel hg hu
    rw [hadd] at hwf2
    refine ⟨_, ⟨st.cart_items_id_seq + 1, some (st.carts_id_seq + 1), some p, q⟩, hadd, rfl,
      ?_, rfl, rfl⟩
    have hl := lineOf_eq_filter hwf2 (c := ⟨st.carts_id_seq + 1, s⟩) (by simp) p
    simp only at hl
    rw [hl, List.filter_append]
    have h0 : st.cart_items.filter (isLine (st.carts_id_seq + 1) (some p)) = [] := by
      rw [List.filter_eq_nil_iff]
      exact List.find?_eq_none.1 (no_line_of_fresh_cart hwf (some p))
    rw [h0]
    simp [isLine]
  · have hc : c ∈ st.carts ∧ c.session_id = s :=
      mem_cartsOf.1 (by rw [h]; simp)
    have hg := getOrCreateCart_existing hnul h
    have hl0 := lineOf_eq_filter hwf hc.1 p
    rw [hc.2, hnone] at hl0
    have hfind : st.cart_items.find? (isLine c.id (some p)) = none := by
      rw [find?_eq_head?_filter, ← hl0]
      rfl
    have hu := upsertCartItem_insert hwf hp4 hq hiseq hfind ⟨c, hc.1, rfl⟩ hp
    have hadd := addItem_eq_of_steps hs hp0 hsel hg hu
    rw [hadd] at hwf2
    refine ⟨_, ⟨st.cart_items_id_seq + 1, some c.id, some p, q⟩, hadd, rfl, ?_, rfl, rfl⟩
    have hl := lineOf_eq_filter hwf2 (c := c) hc.1 p
    rw [hc.2] at hl
    rw [hl]
    show List.filter (isLine c.id (some p)) (st.cart_items ++ _) = _
    rw [List.filter_append, ← hl0]
    simp [isLine]

/-- A later `add` of a product already in the cart: the quantity of its line
item grows by the given quantity, unless the sum leaves the `INTEGER` range. -/
theorem addItem_existing_line {st : Store} (hwf : st.WF) {s : String} {p q : Int}
    (hs : s ≠ "") (hnul : hasNul s = false) (hiseq : st.cart_items_id_seq < int4Max)
    (hp : ∃ r ∈ st.products, r.id = p)
    (hq : isInt4 q) {old : CartItem} (hold : lineOf st s p = [old])
    (hsum : isInt4 (old.quantity + q)) :
    ∃ st1, addItem st ⟨.val s, .val p, .val q⟩ =
        (st1, ⟨200, .success "Item added to cart"⟩) ∧
      st1.products = st.products ∧
      lineOf st1 s p = [{ old with quantity := old.quantity + q }] := by
  obtain ⟨hp0, hp4⟩ := product_id_valid hwf hp
  obtain ⟨r, rs, hsel⟩ := selectProductsById_of_mem hwf hp
  have hwf2 := addItem_WF hwf ⟨.val s, .val p, .val q⟩
  rcases cartsOf_cases hwf s with h | ⟨c, h⟩
  · exfalso
    have hno : ∀ c ∈ st.carts, c.session_id ≠ s := by
      intro c hc hcs
      have : c ∈ cartsOf st (some s) := mem_cartsOf.2 ⟨hc, hcs⟩
      rw [h] at this
      simp at this
    have := linesOf_eq_nil_of_no_cart hno
    simp [lineOf, this] at hold
  · have hc : c ∈ st.carts ∧ c.session_id = s :=
      mem_cartsOf.1 (by rw [h]; simp)
    have hg := getOrCreateCart_existing hnul h
    have hl0 := lineOf_eq_filter hwf hc.1 p
    rw [hc.2, hold] at hl0
    have hfind : st.cart_items.find? (isLine c.id (some p)) = some old := by
      rw [find?_eq_head?_filter, ← hl0]
      rfl
    have hu := @upsertCartItem_update st c.id p q old hp4 hq hiseq hfind hsum
    have hadd := addItem_eq_of_steps hs hp0 hsel hg hu
    rw [hadd] at hwf2
    refine ⟨_, hadd, rfl, ?_⟩
    have hl := lineOf_eq_filter hwf2 (c := c) hc.1 p
    rw [hc.2] at hl
    rw [hl]
    show List.filter (isLine c.id (some p)) (st.cart_items.map _) = _
    rw [List.filter_map]
    have hcomp : (isLine c.id (some p) ∘ fun ci : CartItem =>
        if isLine c.id (some p) ci then { ci with quantity := old.quantity + q } else ci) =
        isLine c.id (some p) := by
      funext ci
      simp only [Function.comp]
      split
      · rename_i hci
        rw [hci]
        simpa [isLine] using hci
      · rfl
    rw [hcomp, ← hl0]
    have hisold : isLine c.id (some p) old = true := List.find?_some hfind
    simp [hisold]

/-! ## The scalar subquery and the row filter of `update` and `remove` -/

theorem cartIdOfSession_spec {st : Store} (hwf : st.WF) (s : String) :
    (cartIdOfSession st (some s) = .ok none ∧ ∀ c ∈ st.carts, c.session_id ≠ s) ∨
      ∃ c ∈ st.carts, c.session_id = s ∧ cartIdOfSession st (some s) = .ok (some c.id) := by
  rcases cartsOf_cases hwf s with h | ⟨c, h⟩
  · left
    refine ⟨by unfold cartIdOfSession; rw [h], ?_⟩
    intro c hc hcs
    have : c ∈ cartsOf st (some s) := mem_cartsOf.2 ⟨hc, hcs⟩
    rw [h] at this
    simp at this
  · right
    have hc : c ∈ st.carts ∧ c.session_id = s :=
      mem_cartsOf.1 (by rw [h]; simp)
    exact ⟨c, hc.1, hc.2, by unfold cartIdOfSession; rw [h]⟩

/-- The row filter of `update` and `remove` selects exactly the line items of
the session for the product. -/
theorem matchesLine_eq_mem_lineOf {st : Store} (hwf : st.WF) {s : String} {p : Int}
    {cid : Option Int} (hcid : cartIdOfSession st (some s) = .ok cid) {ci : CartItem}
    (hci : ci ∈ st.cart_items) :
    matchesLine cid (some p) ci = decide (ci ∈ lineOf st s p) := by
  rcases cartIdOfSession_spec hwf s with ⟨h, hno⟩ | ⟨c, hc, hcs, h⟩
  · rw [h] at hcid
    cases hcid
    have : lineOf st s p = [] := by simp [lineOf, linesOf_eq_nil_of_no_cart hno]
    simp [matchesLine, this]
  · rw [h] at hcid
    cases hcid
    have hl := lineOf_eq_filter hwf hc p
    rw [hcs] at hl
    rw [hl]
    by_cases hm : isLine c.id (some p) ci = true
    · have : ci ∈ List.filter (isLine c.id (some p)) st.cart_items :=
        List.mem_filter.2 ⟨hci, hm⟩
      simp only [this, decide_True]
      simpa [matchesLine, isLine] using hm
    · have : ci ∉ List.filter (isLine c.id (some p)) st.cart_items := by
        intro hmem
        exact hm (List.mem_filter.1 hmem).2
      simp only [this, decide_False]
      simpa [matchesLine, isLine] using hm

theorem deleteCartItem_eq {st : Store} (hwf : st.WF) {s : String} (hnul : hasNul s = false)
    {p : Int} (hp4 : isInt4 p) :
    deleteCartItem st (.val s) (.val p) = .ok (withoutLine st s p) := by
  have hcases : ∃ cid, cartIdOfSession st (some s) = .ok cid := by
    rcases cartIdOfSession_spec hwf s with ⟨h, _⟩ | ⟨c, _, _, h⟩
    · exact ⟨_, h⟩
    · exact ⟨_, h⟩
  obtain ⟨cid, hcid⟩ := hcases
  unfold deleteCartItem withoutLine
  rw [bindText_val hnul, bindInt4_val hp4]
  simp only [hcid]
  congr 2
  apply List.filter_congr
  intro ci hci
  rw [matchesLine_eq_mem_lineOf hwf hcid hci]

theorem withoutLine_eq_self {st : Store} {s : String} {p : Int} (h : lineOf st s p = []) :
    withoutLine st s p = st := by
  unfold withoutLine
  rw [h]
  simp

theorem lineOf_withoutLine {st : Store} (s : String) (p : Int) :
    lineOf (withoutLine st s p) s p = [] := by
  unfold lineOf
  rw [List.filter_eq_nil_iff]
  intro ci hci hp
  have hci2 : ci ∈ (st.cart_items.filter (fun ci => !decide (ci ∈ lineOf st s p))).filter
      (fun ci => st.carts.any (fun c =>
        decide (ci.cart_id = some c.id) && decide (c.session_id = s))) := hci
  rw [List.mem_filter, List.mem_filter] at hci2
  obtain ⟨⟨hmem, hnot⟩, hany⟩ := hci2
  simp only [Bool.not_eq_true', decide_eq_false_iff_not] at hnot
  apply hnot
  unfold lineOf linesOf
  rw [List.mem_filter, List.mem_filter]
  exact ⟨⟨hmem, hany⟩, hp⟩

theorem updateCartItem_eq {st : Store} (hwf : st.WF) {s : String} (hnul : hasNul s = false)
    {p q : Int} (hp4 : isInt4 p) (hq4 : isInt4 q) :
    updateCartItem st (.val s) (.val p) (.val q) = .ok (withLineQuantity st s p q) := by
  have hcases : ∃ cid, cartIdOfSession st (some s) = .ok cid := by
    rcases cartIdOfSession_spec hwf s with ⟨h, _⟩ | ⟨c, _, _, h⟩
    · exact ⟨_, h⟩
    · exact ⟨_, h⟩
  obtain ⟨cid, hcid⟩ := hcases
  have hmap : st.cart_items.map (fun ci =>
      if matchesLine cid (some p) ci then { ci with quantity := q } else ci) =
      st.cart_items.map (fun ci =>
      if ci ∈ lineOf st s p then { ci with quantity := q } else ci) := by
    apply List.map_congr_left
    intro ci hci
    rw [matchesLine_eq_mem_lineOf hwf hcid hci]
    simp
  unfold updateCartItem withLineQuantity
  rw [bindText_val hnul, bindInt4_val hp4, bindInt4_val hq4]
  simp only [hcid]
  split
  · rw [hmap]
  · rename_i hany
    congr 1
    have hnone : ∀ ci ∈ st.cart_items, ci ∉ lineOf st s p := by
      intro ci hci hmem
      apply hany
      rw [List.any_eq_true]
      refine ⟨ci, hci, ?_⟩
      rw [matchesLine_eq_mem_lineOf hwf hcid hci]
      simpa using hmem
    have : st.cart_items.map (fun ci =>
        if ci ∈ lineOf st s p then { ci with quantity := q } else ci) = st.cart_items := by
      conv_rhs => rw [← List.map_id st.cart_items]
      apply List.map_congr_left
      intro ci hci
      simp [hnone ci hci]
    rw [this]

/-- Deleting rows of `cart_items` keeps the constraints. -/
theorem WF_filter_cart_items {st : Store} (hwf : st.WF) (P : CartItem → Bool) :
    ({ st with cart_items := st.cart_items.filter P } : Store).WF := by
  have hsub : ∀ ci, ci ∈ ({ st with cart_items := st.cart_items.filter P } : Store).cart_items →
      ci ∈ st.cart_items := by
    intro ci hci
    have hci2 : ci ∈ st.cart_items.filter P := hci
    exact (List.mem_filter.1 hci2).1
  refine { hwf with
    cart_items_pkey := ?_, cart_items_cart_id_product_id_key := ?_,
    cart_items_refs_present := ?_,
    cart_items_cart_id_fkey := ?_, cart_items_product_id_fkey := ?_,
    cart_items_id_fresh := ?_ }
  · show ((st.cart_items.filter P).map (fun ci => ci.id)).Nodup
    exact hwf.cart_items_pkey.sublist ((List.filter_sublist st.cart_items).map _)
  · show (st.cart_items.filter P).Pairwise _
    exact hwf.cart_items_cart_id_product_id_key.sublist (List.filter_sublist st.cart_items)
  · intro ci hci
    exact hwf.cart_items_refs_present ci (hsub ci hci)
  · intro ci hci c hc
    exact hwf.cart_items_cart_id_fkey ci (hsub ci hci) c hc
  · intro ci hci r hr
    exact hwf.cart_items_product_id_fkey ci (hsub ci hci) r hr
  · intro ci hci
    exact hwf.cart_items_id_fresh ci (hsub ci hci)

/-- A delete that succeeds leaves the store with some of its line items
filtered out. -/
theorem deleteCartItem_ok {st st1 : Store} {sessionId : JsField String}
    {productId : NumField} (h : deleteCartItem st sessionId productId = .ok st1) :
    ∃ P : CartItem → Bool, st1 = { st with cart_items := st.cart_items.filter P } := by
  unfold deleteCartItem at h
  split at h
  · simp at h
  · simp at h
  · split at h
    · simp at h
    · simp only [Except.ok.injEq] at h
      exact ⟨_, h.symm⟩

/-- An update that succeeds leaves the store as it was or overwrites the
quantity of some line items with the integer read from the parameter. -/
theorem updateCartItem_ok {st st1 : Store} {sessionId : JsField String}
    {productId quantity : NumField}
    (h : updateCartItem st sessionId productId quantity = .ok st1) :
    st1 = st ∨ ∃ (P : CartItem → Bool) (q : Int), bindInt4 quantity = .ok (some q) ∧
      st1 = { st with cart_items := st.cart_items.map (fun ci =>
        if P ci then { ci with quantity := q } else ci) } := by
  unfold updateCartItem at h
  split at h
  · simp at h
  · simp at h
  · simp at h
  · rename_i key pid qty _ _ hq
    split at h
    · simp at h
    · split at h
      · split at h
        · simp at h
        · simp only [Except.ok.injEq] at h
          exact Or.inr ⟨_, _, hq, h.symm⟩
      · simp only [Except.ok.injEq] at h
        exact Or.inl h.symm

/-- Clearing a cart that succeeds leaves the store with some of its line items
filtered out. -/
theorem clearCart_ok {st st1 : Store} {sessionId : JsField String}
    (h : clearCart st sessionId = .ok st1) :
    ∃ P : CartItem → Bool, st1 = { st with cart_items := st.cart_items.filter P } := by
  unfold clearCart at h
  split at h
  · simp at h
  · split at h
    · simp at h
    · simp only [Except.ok.injEq] at h
      exact ⟨_, h.symm⟩

theorem deleteCartItem_WF {st st1 : Store} (hwf : st.WF) {sessionId : JsField String}
    {productId : NumField} (h : deleteCartItem st sessionId productId = .ok st1) :
    st1.WF := by
  obtain ⟨P, rfl⟩ := deleteCartItem_ok h
  exact WF_filter_cart_items hwf _

theorem updateCartItem_WF {st st1 : Store} (hwf : st.WF) {sessionId : JsField String}
    {productId quantity : NumField}
    (h : updateCartItem st sessionId productId quantity = .ok st1) : st1.WF := by
  rcases updateCartItem_ok h with rfl | ⟨P, q, _, rfl⟩
  · exact hwf
  · exact WF_setQuantity hwf _ _ _ (le_refl _)

theorem clearCart_WF {st st1 : Store} (hwf : st.WF) {sessionId : JsField String}
    (h : clearCart st sessionId = .ok st1) : st1.WF := by
  obtain ⟨P, rfl⟩ := clearCart_ok h
  exact WF_filter_cart_items hwf _

/-- `PUT /api/cart/update` keeps the constraints. -/
theorem updateQuantity_WF {st : Store} (hwf : st.WF) (req : CartRequest) :
    (updateQuantity st req).1.WF := by
  unfold updateQuantity
  split
  · exact hwf
  · split
    · split
      · exact hwf
      · rename_i h
        exact deleteCartItem_WF hwf h
    · split
      · exact hwf
      · rename_i h
        exact updateCartItem_WF hwf h

/-- `DELETE /api/cart/remove` keeps the constraints. -/
theorem removeItem_WF {st : Store} (hwf : st.WF) (req : CartRequest) :
    (removeItem st req).1.WF := by
  unfold removeItem
  split
  · exact hwf
  · rename_i h
    exact deleteCartItem_WF hwf h

/-! ## The rows of the cart queries -/

theorem filter_eq_singleton {α : Type} (P : α → Bool) {l : List α} (hnd : l.Nodup) {a : α}
    (ha : a ∈ l) (hP : P a = true) (huniq : ∀ b ∈ l, P b = true → b = a) :
    l.filter P = [a] := by
  induction l with
  | nil => simp at ha
  | cons x xs ih =>
    rw [List.nodup_cons] at hnd
    by_cases hx : x = a
    · subst hx
      have hrest : xs.filter P = [] := by
        rw [List.filter_eq_nil_iff]
        intro b hb hPb
        have := huniq b (List.mem_cons_of_mem _ hb) hPb
        subst this
        exact hnd.1 hb
      rw [List.filter_cons, if_pos hP, hrest]
    · have hPx : ¬ P x = true := fun h => hx (huniq x (List.mem_cons_self _ _) h)
      have hmem : a ∈ xs := by
        rcases List.mem_cons.1 ha with h | h
        · exact absurd h.symm hx
        · exact h
      rw [List.filter_cons, if_neg hPx]
      exact ih hnd.2 hmem (fun b hb => huniq b (List.mem_cons_of_mem _ hb))

theorem flatMap_map_fst_eq_filter {α β : Type} (P : α → Bool) (g : α → List (α × β))
    (l : List α)
    (h : ∀ a ∈ l, (g a).map Prod.fst = if P a then [a] else []) :
    (l.flatMap g).map Prod.fst = l.filter P := by
  induction l with
  | nil => rfl
  | cons x xs ih =>
    rw [List.flatMap_cons, List.map_append, ih (fun a ha => h a (List.mem_cons_of_mem _ ha)),
      h x (List.mem_cons_self _ _), List.filter_cons]
    by_cases hx : P x = true
    · simp [hx]
    · simp [hx]

/-- Every row of the cart queries joins a line item of the session with a
product of the catalog that it references. -/
theorem mem_joinRows {st : Store} {s : String} {row : CartItem × Product}
    (h : row ∈ joinRows st (some s)) :
    row.1 ∈ linesOf st s ∧ row.2 ∈ st.products ∧ row.1.product_id = some row.2.id := by
  unfold joinRows at h
  simp only [List.mem_flatMap, List.mem_filter, List.mem_map, Bool.and_eq_true,
    decide_eq_true_eq, Option.some.injEq] at h
  obtain ⟨ci, hci, c, ⟨hc, hcid, hcs⟩, r, ⟨hr, hrid⟩, rfl⟩ := h
  refine ⟨?_, hr, hrid⟩
  unfold linesOf
  rw [List.mem_filter, List.any_eq_true]
  exact ⟨hci, c, hc, by simp [hcid, hcs]⟩

theorem joinRows_eq_nil {st : Store} {s : String} (h : linesOf st s = []) :
    joinRows st (some s) = [] := by
  rw [List.eq_nil_iff_forall_not_mem]
  intro row hrow
  have := (mem_joinRows hrow).1
  rw [h] at this
  simp at this

/-- On a well-formed store the cart queries return one row per line item of
the session, in the order of the line items. -/
theorem joinRows_map_fst {st : Store} (hwf : st.WF) (s : String) :
    (joinRows st (some s)).map Prod.fst = linesOf st s := by
  unfold joinRows linesOf
  apply flatMap_map_fst_eq_filter
  intro ci hci
  split
  · rename_i hany
    rw [List.any_eq_true] at hany
    obtain ⟨c, hc, hc2⟩ := hany
    simp only [Bool.and_eq_true, decide_eq_true_eq] at hc2
    have hcarts : st.carts.filter (fun c =>
        decide (ci.cart_id = some c.id) && decide (some c.session_id = some s)) =
        [c] := by
      apply filter_eq_singleton _ (List.Nodup.of_map _ hwf.carts_pkey) hc
      · simp [hc2.1, hc2.2]
      · intro d hd hd2
        simp only [Bool.and_eq_true, decide_eq_true_eq, Option.some.injEq] at hd2
        exact cart_unique hwf hd hc (hd2.2.trans hc2.2.symm)
    obtain ⟨_, hpres⟩ := hwf.cart_items_refs_present ci hci
    obtain ⟨p, hp⟩ := Option.ne_none_iff_exists'.1 hpres
    have hpm := hwf.cart_items_product_id_fkey ci hci p hp
    rw [List.mem_map] at hpm
    obtain ⟨r, hr, hrp⟩ := hpm
    have hprods : st.products.filter (fun r => decide (ci.product_id = some r.id)) = [r] := by
      apply filter_eq_singleton _ (List.Nodup.of_map _ hwf.products_pkey) hr
      · simp [hp, hrp]
      · intro d hd hd2
        simp only [decide_eq_true_eq, hp, Option.some.injEq] at hd2
        exact List.inj_on_of_nodup_map hwf.products_pkey hd hr (hd2.symm.trans hrp.symm)
    rw [hcarts, hprods]
    simp
  · rename_i hany
    have hcarts : st.carts.filter (fun c =>
        decide (ci.cart_id = some c.id) && decide (some c.session_id = some s)) =
        [] := by
      rw [List.filter_eq_nil_iff]
      intro c hc hc2
      apply hany
      rw [List.any_eq_true]
      refine ⟨c, hc, ?_⟩
      simpa using hc2
    rw [hcarts]
    simp

/-! ## The statements of `/api/confirm-payment` -/

/-- The values the insert into `payments` stores are the values sent, cut to
their columns. -/
theorem paymentValues_ok {paymentIntent : PaymentIntent} {sessionId : JsField String}
    {intentId currency status : String} {session email : Option String} {amount : Int}
    (h : paymentValues paymentIntent sessionId =
      .ok (intentId, session, amount, currency, status, email)) :
    toVarchar 255 paymentIntent.id = .ok intentId ∧ toInt4 paymentIntent.amount = .ok amount := by
  unfold paymentValues at h
  split at h
  · simp at h
  · simp at h
  · simp at h
  · simp at h
  · simp at h
  · simp at h
  · rename_i hamount _ _ _
    split at h
    · simp at h
    · simp at h
    · simp at h
    · simp at h
    · simp at h
    · rename_i hid _ _ _ _
      simp only [Except.ok.injEq, Prod.mk.injEq] at h
      obtain ⟨h1, _, h3, _⟩ := h
      rw [← h1, ← h3]
      exact ⟨hid, hamount⟩

/-- A successful insert appends the returned row, which carries the snapshot,
and meets no stored row with the same intent id. -/
theorem insertPayment_ok {st st1 : Store} {paymentIntent : PaymentIntent}
    {sessionId : JsField String} {items : List SnapshotItem} {payment : Payment}
    (h : insertPayment st paymentIntent sessionId items = (st1, .ok payment)) :
    st1 = { st with
        payments_id_seq := st.payments_id_seq + 1
        payments := st.payments ++ [payment] } ∧
      payment.items = some items ∧
      toVarchar 255 paymentIntent.id = .ok payment.payment_intent_id ∧
      ∀ r ∈ st.payments, r.payment_intent_id ≠ payment.payment_intent_id := by
  unfold insertPayment at h
  split at h
  · simp at h
  · rename_i intentId session amount currency status email hvalues
    split at h
    · simp at h
    · rename_i id hid
      obtain ⟨hid1, _⟩ := nextval_ok hid
      subst hid1
      simp only at h
      split at h
      · simp at h
      · split at h
        · simp at h
        · rename_i hany
          simp only [Prod.mk.injEq, Except.ok.injEq] at h
          obtain ⟨h1, h2⟩ := h
          subst h2
          refine ⟨h1.symm, rfl, (paymentValues_ok hvalues).1, ?_⟩
          intro r hr hrid
          apply hany
          rw [List.any_eq_true]
          exact ⟨r, hr, by simp [hrid]⟩

/-- A failing insert into `payments` leaves the store as it was, the key counter
of `payments` apart, which does not go back. -/
theorem insertPayment_error_frame {st st1 : Store} {paymentIntent : PaymentIntent}
    {sessionId : JsField String} {items : List SnapshotItem} {e : DbError}
    (h : insertPayment st paymentIntent sessionId items = (st1, .error e)) :
    st1 = { st with payments_id_seq := st1.payments_id_seq } ∧
      st.payments_id_seq ≤ st1.payments_id_seq := by
  unfold insertPayment at h
  split at h
  · simp only [Prod.mk.injEq] at h
    rw [← h.1]
    exact ⟨rfl, le_refl _⟩
  · split at h
    · simp only [Prod.mk.injEq] at h
      rw [← h.1]
      exact ⟨rfl, le_refl _⟩
    · rename_i id hid
      obtain ⟨hid1, _⟩ := nextval_ok hid
      subst hid1
      simp only at h
      split at h
      · simp only [Prod.mk.injEq] at h
        rw [← h.1]
        exact ⟨rfl, by show st.payments_id_seq ≤ st.payments_id_seq + 1; omega⟩
      · split at h
        · simp only [Prod.mk.injEq] at h
          rw [← h.1]
          exact ⟨rfl, by show st.payments_id_seq ≤ st.payments_id_seq + 1; omega⟩
        · simp at h

/-- A failing insert changes no table. -/
theorem insertPayment_error {st st1 : Store} {paymentIntent : PaymentIntent}
    {sessionId : JsField String} {items : List SnapshotItem} {e : DbError}
    (h : insertPayment st paymentIntent sessionId items = (st1, .error e)) :
    st1.payments = st.payments ∧ st1.cart_items = st.cart_items ∧ st1.carts = st.carts ∧
      st1.products = st.products := by
  rw [(insertPayment_error_frame h).1]
  exact ⟨rfl, rfl, rfl, rfl⟩

theorem insertPayment_WF {st : Store} (hwf : st.WF) (paymentIntent : PaymentIntent)
    (sessionId : JsField String) (items : List SnapshotItem) :
    (insertPayment st paymentIntent sessionId items).1.WF := by
  cases hres : insertPayment st paymentIntent sessionId items with
  | mk st1 res =>
    cases res with
    | error e =>
      have hseq := insertPayment_error_frame hres
      show st1.WF
      rw [hseq.1]
      refine { hwf with payments_id_fresh := ?_ }
      intro r hr
      have := hwf.payments_id_fresh r hr
      have := hseq.2
      show r.id ≤ st1.payments_id_seq
      omega
    | ok payment =>
      obtain ⟨h1, _, _, hnew⟩ := insertPayment_ok hres
      have hid : payment.id = st.payments_id_seq + 1 := by
        unfold insertPayment at hres
        split at hres
        · simp at hres
        · split at hres
          · simp at hres
          · rename_i id hid
            obtain ⟨hid1, _⟩ := nextval_ok hid
            subst hid1
            simp only at hres
            split at hres
            · simp at hres
            · split at hres
              · simp at hres
              · simp only [Prod.mk.injEq, Except.ok.injEq] at hres
                rw [← hres.2]
      show st1.WF
      rw [h1]
      refine { hwf with
        payments_pkey := ?_, payments_payment_intent_id_key := ?_, payments_id_fresh := ?_ }
      · show ((st.payments ++ [payment]).map (fun r => r.id)).Nodup
        rw [List.map_append, List.nodup_append]
        refine ⟨hwf.payments_pkey, by simp, ?_⟩
        intro a ha hb
        simp only [List.map_cons, List.map_nil, List.mem_singleton] at hb
        rw [List.mem_map] at ha
        obtain ⟨r, hr, rfl⟩ := ha
        have := hwf.payments_id_fresh r hr
        omega
      · show ((st.payments ++ [payment]).map (fun r => r.payment_intent_id)).Nodup
        rw [List.map_append, List.nodup_append]
        refine ⟨hwf.payments_payment_intent_id_key, by simp, ?_⟩
        intro a ha hb
        simp only [List.map_cons, List.map_nil, List.mem_singleton] at hb
        rw [List.mem_map] at ha
        obtain ⟨r, hr, rfl⟩ := ha
        exact hnew r hr hb
      · intro r hr
        have hr2 : r ∈ st.payments ++ [payment] := hr
        show r.id ≤ st.payments_id_seq + 1
        rw [List.mem_append, List.mem_singleton] at hr2
        rcases hr2 with h | h
        · have := hwf.payments_id_fresh r h
          omega
        · subst h
          omega

/-- Values that fit the columns are stored as they are sent. -/
theorem paymentValues_fits {paymentIntent : PaymentIntent} (hfit : paymentIntent.fits)
    {s : String} (hs : textFits 255 s) :
    paymentValues paymentIntent (.val s) =
      .ok (paymentIntent.id, some s, paymentIntent.amount, paymentIntent.currency,
        paymentIntent.status, orNull paymentIntent.metadata_customer_email) := by
  obtain ⟨h1, h2, h3, h4, h5⟩ := hfit
  have hemail : sqlText (orNull paymentIntent.metadata_customer_email) =
      .ok (orNull paymentIntent.metadata_customer_email) ∧
      toVarcharOpt 255 (orNull paymentIntent.metadata_customer_email) =
      .ok (orNull paymentIntent.metadata_customer_email) := by
    cases he : orNull paymentIntent.metadata_customer_email with
    | none => exact ⟨rfl, rfl⟩
    | some e =>
      exact ⟨sqlText_of_not_hasNul (h5 e he).2, toVarcharOpt_of_length_le (h5 e he).1⟩
  unfold paymentValues
  simp only [sqlText_of_not_hasNul h2.2, sqlText_of_not_hasNul h3.2,
    sqlText_of_not_hasNul h4.2, bindText_val hs.2, hemail.1, hemail.2, toInt4, h1, if_true,
    toVarchar_of_length_le h2.1, toVarchar_of_length_le h3.1, toVarchar_of_length_le h4.1,
    toVarcharOpt_of_length_le hs.1]

/-- With values that fit the columns, a key sequence that is not exhausted and
an intent id not yet recorded, the insert succeeds. -/
theorem insertPayment_fresh {st : Store} (hwf : st.WF) {paymentIntent : PaymentIntent}
    (hfit : paymentIntent.fits) {s : String} (hs : textFits 255 s)
    (hseq : st.payments_id_seq < int4Max)
    (hnew : ∀ r ∈ st.payments, r.payment_intent_id ≠ paymentIntent.id)
    (items : List SnapshotItem) :
    insertPayment st paymentIntent (.val s) items =
      ({ st with
          payments_id_seq := st.payments_id_seq + 1
          payments := st.payments ++ [paymentRow st paymentIntent s items] },
        .ok (paymentRow st paymentIntent s items)) := by
  have hany : st.payments.any (fun r =>
      decide (r.id = st.payments_id_seq + 1) ||
        decide (r.payment_intent_id = paymentIntent.id)) = false := by
    rw [Bool.eq_false_iff]
    intro hany
    rw [List.any_eq_true] at hany
    obtain ⟨r, hr, hr2⟩ := hany
    simp only [Bool.or_eq_true, decide_eq_true_eq] at hr2
    rcases hr2 with h | h
    · have := hwf.payments_id_fresh r hr
      omega
    · exact hnew r hr h
  unfold insertPayment paymentRow
  simp only [paymentValues_fits hfit hs, nextval_of_lt hseq, hany, Bool.false_eq_true,
    if_false]

/-- With values that fit the columns, a key sequence that is not exhausted and
an intent id already recorded, the insert raises the unique violation. -/
theorem insertPayment_recorded {st : Store} {paymentIntent : PaymentIntent}
    (hfit : paymentIntent.fits) {s : String} (hs : textFits 255 s)
    (hseq : st.payments_id_seq < int4Max)
    (hrec : ∃ r ∈ st.payments, r.payment_intent_id = paymentIntent.id)
    (items : List SnapshotItem) :
    insertPayment st paymentIntent (.val s) items =
      ({ st with payments_id_seq := st.payments_id_seq + 1 }, .error .uniqueViolation) := by
  have hany : st.payments.any (fun r =>
      decide (r.id = st.payments_id_seq + 1) ||
        decide (r.payment_intent_id = paymentIntent.id)) = true := by
    rw [List.any_eq_true]
    obtain ⟨r, hr, hr2⟩ := hrec
    exact ⟨r, hr, by simp [hr2]⟩
  unfold insertPayment
  simp only [paymentValues_fits hfit hs, nextval_of_lt hseq, hany, if_true]

theorem clearCart_eq {st : Store} (hwf : st.WF) {s : String} (hnul : hasNul s = false) :
    clearCart st (.val s) = .ok (withoutCart st s) := by
  unfold clearCart withoutCart
  rw [bindText_val hnul]
  rcases cartIdOfSession_spec hwf s with ⟨h, hno⟩ | ⟨c, hc, hcs, h⟩
  · simp only [h]
    congr 2
    apply List.filter_congr
    intro ci _
    simp [linesOf_eq_nil_of_no_cart hno]
  · simp only [h]
    congr 2
    apply List.filter_congr
    intro ci hci
    have hl := linesOf_eq_filter hwf hc
    rw [hcs] at hl
    rw [hl]
    simp [List.mem_filter, hci]

theorem linesOf_withoutCart (st : Store) (s : String) : linesOf (withoutCart st s) s = [] := by
  unfold linesOf
  rw [List.filter_eq_nil_iff]
  intro ci hci hany
  have hci2 : ci ∈ st.cart_items.filter (fun ci => !decide (ci ∈ linesOf st s)) := hci
  rw [List.mem_filter] at hci2
  obtain ⟨hmem, hnot⟩ := hci2
  simp only [Bool.not_eq_true', decide_eq_false_iff_not] at hnot
  apply hnot
  unfold linesOf
  rw [List.mem_filter]
  exact ⟨hmem, hany⟩

/-- `POST /api/confirm-payment` keeps the constraints. -/
theorem confirmPayment_WF {stripe : Processor} {st : Store} (hwf : st.WF)
    (req : ConfirmRequest) : (confirmPayment stripe st req).1.WF := by
  unfold confirmPayment
  split
  · exact hwf
  · rename_i paymentIntent _
    split
    · exact hwf
    · rename_i rows _
      simp only
      have hwf1 := insertPayment_WF hwf paymentIntent req.sessionId (snapshotOf rows)
      split
      · rename_i st1 e hins
        rw [hins] at hwf1
        exact hwf1
      · rename_i st1 payment hins
        rw [hins] at hwf1
        split
        · exact hwf1
        · rename_i h
          exact clearCart_WF hwf1 h

theorem clearCart_tables {st st2 : Store} {sessionId : JsField String}
    (h : clearCart st sessionId = .ok st2) :
    st2.payments = st.payments ∧ st2.carts = st.carts ∧ st2.products = st.products := by
  obtain ⟨P, rfl⟩ := clearCart_ok h
  exact ⟨rfl, rfl, rfl⟩

/-! ## Rounding to doubles -/

theorem roundTiesEven_error (y : ℚ) : |(roundTiesEven y : ℚ) - y| ≤ 1 / 2 := by
  have h1 := Int.floor_le y
  have h2 := Int.lt_floor_add_one y
  unfold roundTiesEven
  rw [abs_le]
  split_ifs with ha hb hc
  · constructor <;> linarith
  · push_cast; constructor <;> linarith
  · constructor <;> linarith
  · push_cast; constructor <;> linarith

theorem roundTiesEven_nonneg {y : ℚ} (hy : 0 ≤ y) : 0 ≤ roundTiesEven y := by
  have h0 : 0 ≤ ⌊y⌋ := Int.floor_nonneg.2 hy
  unfold roundTiesEven
  split_ifs <;> omega

theorem roundTiesEven_intCast (m : ℤ) : roundTiesEven (m : ℚ) = m := by
  unfold roundTiesEven
  simp

theorem roundTiesEven_eq {y : ℚ} {m : ℤ} (h1 : (m : ℚ) - 1 / 2 < y) (h2 : y < m + 1 / 2) :
    roundTiesEven y = m := by
  have he := roundTiesEven_error y
  rw [abs_le] at he
  have h3 : ((roundTiesEven y : ℤ) : ℚ) < ((m + 1 : ℤ) : ℚ) := by push_cast; linarith
  have h4 : ((m - 1 : ℤ) : ℚ) < ((roundTiesEven y : ℤ) : ℚ) := by push_cast; linarith
  have h5 := Int.cast_lt.1 h3
  have h6 := Int.cast_lt.1 h4
  omega

theorem two_zpow_pos (e : ℤ) : (0 : ℚ) < 2 ^ e := zpow_pos (by norm_num) e

theorem toDouble_nonneg {x : ℚ} (hx : 0 ≤ x) : 0 ≤ toDouble x := by
  unfold toDouble
  split_ifs
  · exact le_refl _
  · apply mul_nonneg
    · exact_mod_cast roundTiesEven_nonneg (div_nonneg hx (two_zpow_pos _).le)
    · exact (two_zpow_pos _).le

theorem toDouble_error_ulp (x : ℚ) : |toDouble x - x| ≤ 2 ^ ulpExp x / 2 := by
  unfold toDouble
  split_ifs with h0
  · subst h0
    simp only [sub_self, abs_zero]
    exact div_nonneg (two_zpow_pos _).le (by norm_num)
  · have hpos := two_zpow_pos (ulpExp x)
    have he := roundTiesEven_error (x / 2 ^ ulpExp x)
    have : (roundTiesEven (x / 2 ^ ulpExp x) : ℚ) * 2 ^ ulpExp x - x =
        ((roundTiesEven (x / 2 ^ ulpExp x) : ℚ) - x / 2 ^ ulpExp x) * 2 ^ ulpExp x := by
      field_simp
    rw [this, abs_mul, abs_of_pos hpos]
    calc |(roundTiesEven (x / 2 ^ ulpExp x) : ℚ) - x / 2 ^ ulpExp x| * 2 ^ ulpExp x
        ≤ 1 / 2 * 2 ^ ulpExp x := mul_le_mul_of_nonneg_right he hpos.le
      _ = 2 ^ ulpExp x / 2 := by ring

theorem two_zpow_ulpExp_le {x : ℚ} (hx : x ≠ 0) :
    (2 : ℚ) ^ ulpExp x ≤ max (|x| * 2 ^ (-52 : ℤ)) (2 ^ (-1074 : ℤ)) := by
  have hpos : 0 < |x| := abs_pos.2 hx
  have hlog : (2 : ℚ) ^ Int.log 2 |x| ≤ |x| := by
    have := Int.zpow_log_le_self (b := 2) (by norm_num) hpos
    exact_mod_cast this
  unfold ulpExp
  rcases le_total (Int.log 2 |x| - 52) (-1074) with h | h
  · rw [max_eq_right h]
    exact le_max_right _ _
  · rw [max_eq_left h]
    refine le_trans ?_ (le_max_left _ _)
    rw [sub_eq_add_neg, zpow_add₀ (by norm_num : (2 : ℚ) ≠ 0)]
    exact mul_le_mul_of_nonneg_right hlog (two_zpow_pos _).le

/-- Rounding to a double moves a number by at most half a unit in the last
place. -/
theorem toDouble_error (x : ℚ) :
    |toDouble x - x| ≤ max (|x| * 2 ^ (-53 : ℤ)) (2 ^ (-1075 : ℤ)) := by
  by_cases hx : x = 0
  · subst hx
    simp [toDouble]
  · refine le_trans (toDouble_error_ulp x) ?_
    have h := two_zpow_ulpExp_le hx
    have h53 : (2 : ℚ) ^ (-53 : ℤ) = 2 ^ (-52 : ℤ) / 2 := by
      rw [show (-53 : ℤ) = -52 - 1 by norm_num, zpow_sub_one₀ (by norm_num : (2 : ℚ) ≠ 0)]
      ring
    have h1075 : (2 : ℚ) ^ (-1075 : ℤ) = 2 ^ (-1074 : ℤ) / 2 := by
      rw [show (-1075 : ℤ) = -1074 - 1 by norm_num, zpow_sub_one₀ (by norm_num : (2 : ℚ) ≠ 0)]
      ring
    rw [h53, h1075]
    rcases le_max_iff.1 h with h' | h'
    · refine le_trans ?_ (le_max_left _ _)
      rw [← mul_div_assoc]
      exact div_le_div_of_nonneg_right h' (by norm_num)
    · refine le_trans ?_ (le_max_right _ _)
      exact div_le_div_of_nonneg_right h' (by norm_num)

theorem toDouble_error_abs (x : ℚ) : |toDouble x - x| ≤ (|x| + 1) / 2 ^ 53 := by
  refine le_trans (toDouble_error x) ?_
  have h53 : (2 : ℚ) ^ (-53 : ℤ) = 1 / 2 ^ 53 := by
    rw [zpow_neg, one_div]; norm_cast
  have hle : (2 : ℚ) ^ (-1075 : ℤ) ≤ 2 ^ (-53 : ℤ) :=
    zpow_le_zpow_right₀ (by norm_num) (by norm_num)
  have hx := abs_nonneg x
  have hpos : (0 : ℚ) < 1 / 2 ^ 53 := by positivity
  rw [h53] at hle ⊢
  apply max_le
  · rw [add_div, mul_one_div]
    linarith
  · rw [add_div]
    have : 0 ≤ |x| / 2 ^ 53 := by positivity
    linarith

theorem toDouble_error_rel {x : ℚ} (hx : 1 / 100 ≤ |x|) : |toDouble x - x| ≤ |x| / 2 ^ 53 := by
  refine le_trans (toDouble_error x) ?_
  have h53 : (2 : ℚ) ^ (-53 : ℤ) = 1 / 2 ^ 53 := by
    rw [zpow_neg, one_div]; norm_cast
  have h1075 : (2 : ℚ) ^ (-1075 : ℤ) = 2 ^ (-1022 : ℤ) * 2 ^ (-53 : ℤ) := by
    rw [← zpow_add₀ (by norm_num : (2 : ℚ) ≠ 0)]; norm_num
  have hsmall : (2 : ℚ) ^ (-1022 : ℤ) ≤ 1 / 100 := by
    have h7 : (2 : ℚ) ^ (-1022 : ℤ) ≤ 2 ^ (-7 : ℤ) :=
      zpow_le_zpow_right₀ (by norm_num) (by norm_num)
    have : (2 : ℚ) ^ (-7 : ℤ) ≤ 1 / 100 := by norm_num
    linarith
  have hpos : (0 : ℚ) < 1 / 2 ^ 53 := by positivity
  rw [h1075, h53]
  apply max_le
  · rw [mul_one_div]
  · rw [← mul_one_div |x|]
    exact mul_le_mul_of_nonneg_right (le_trans hsmall hx) hpos.le


/-- Integers below `2 ^ 53` in magnitude are doubles. -/
theorem toDouble_intCast {n : ℤ} (h : |n| < 2 ^ 53) : toDouble (n : ℚ) = n := by
  by_cases hn : n = 0
  · subst hn
    simp [toDouble]
  · have hq : (n : ℚ) ≠ 0 := by exact_mod_cast hn
    have hpos : (0 : ℚ) < |(n : ℚ)| := abs_pos.2 hq
    have h1 : (1 : ℚ) ≤ |(n : ℚ)| := by
      have : (1 : ℤ) ≤ |n| := Int.one_le_abs hn
      exact_mod_cast this
    have hlo : 0 ≤ Int.log 2 |(n : ℚ)| := by
      rw [← Int.zpow_le_iff_le_log (by norm_num) hpos]
      simpa using h1
    have hhi : Int.log 2 |(n : ℚ)| < 53 := by
      rw [← Int.lt_zpow_iff_log_lt (by norm_num) hpos]
      have : |(n : ℚ)| < 2 ^ 53 := by exact_mod_cast h
      rw [show ((53 : ℤ)) = ((53 : ℕ) : ℤ) by norm_num, zpow_natCast]
      exact_mod_cast this
    have he : ulpExp (n : ℚ) = Int.log 2 |(n : ℚ)| - 52 := by
      unfold ulpExp
      exact max_eq_left (by omega)
    obtain ⟨d, hd⟩ := Int.eq_ofNat_of_zero_le (show 0 ≤ 52 - Int.log 2 |(n : ℚ)| by omega)
    have he2 : ulpExp (n : ℚ) = -(d : ℤ) := by rw [he]; omega
    have hdiv : (n : ℚ) / 2 ^ (-(d : ℤ)) = ((n * 2 ^ d : ℤ) : ℚ) := by
      rw [zpow_neg, zpow_natCast, div_inv_eq_mul]
      push_cast
      ring
    unfold toDouble
    rw [if_neg hq, he2, hdiv, roundTiesEven_intCast, zpow_neg, zpow_natCast]
    push_cast
    field_simp

/-- Error of one line total, `parseFloat(price) * quantity`, for a price given
in hundredths. -/
theorem lineTotal_error {p q : ℤ} (hp : 0 ≤ p) (hq : 0 ≤ q) :
    |jsMul (parseFloatDecimal p) q - (p * q : ℤ) / 100| ≤
        (3 * ((p * q : ℤ) / 100) + 1) / 2 ^ 53 ∧
      0 ≤ jsMul (parseFloatDecimal p) q := by
  have hpq : (0 : ℚ) ≤ p := by exact_mod_cast hp
  have hqq : (0 : ℚ) ≤ q := by exact_mod_cast hq
  have hx0 : (0 : ℚ) ≤ (p : ℚ) / 100 := by positivity
  have hxhat0 : 0 ≤ parseFloatDecimal p := toDouble_nonneg hx0
  refine ⟨?_, toDouble_nonneg (mul_nonneg hxhat0 hqq)⟩
  have hrel : |parseFloatDecimal p - (p : ℚ) / 100| ≤ ((p : ℚ) / 100) / 2 ^ 53 := by
    by_cases hp0 : p = 0
    · subst hp0
      simp [parseFloatDecimal, toDouble]
    · have h1 : (1 : ℚ) ≤ p := by
        have : (1 : ℤ) ≤ p := by omega
        exact_mod_cast this
      have hx : 1 / 100 ≤ |(p : ℚ) / 100| := by
        rw [abs_of_nonneg hx0]
        linarith
      have := toDouble_error_rel hx
      rwa [abs_of_nonneg hx0] at this
  have hy : |parseFloatDecimal p * q - (p * q : ℤ) / 100| ≤
      ((p * q : ℤ) / 100 : ℚ) / 2 ^ 53 := by
    have : parseFloatDecimal p * q - ((p * q : ℤ) : ℚ) / 100 =
        (parseFloatDecimal p - (p : ℚ) / 100) * q := by push_cast; ring
    rw [this, abs_mul, abs_of_nonneg hqq]
    calc |parseFloatDecimal p - (p : ℚ) / 100| * q
        ≤ ((p : ℚ) / 100) / 2 ^ 53 * q := mul_le_mul_of_nonneg_right hrel hqq
      _ = ((p * q : ℤ) / 100 : ℚ) / 2 ^ 53 := by push_cast; ring
  have ht0 : (0 : ℚ) ≤ ((p * q : ℤ) : ℚ) / 100 := by
    have : (0 : ℤ) ≤ p * q := mul_nonneg hp hq
    have : (0 : ℚ) ≤ ((p * q : ℤ) : ℚ) := by exact_mod_cast this
    positivity
  have hfl := toDouble_error_abs (parseFloatDecimal p * q)
  have hyabs : |parseFloatDecimal p * q| ≤ 2 * (((p * q : ℤ) : ℚ) / 100) := by
    have h1 := abs_le.1 hy
    have h53 : ((p * q : ℤ) / 100 : ℚ) / 2 ^ 53 ≤ ((p * q : ℤ) : ℚ) / 100 :=
      div_le_self ht0 (by norm_num)
    rw [abs_le]
    constructor <;> linarith
  unfold jsMul
  have htri : |toDouble (parseFloatDecimal p * q) - ((p * q : ℤ) : ℚ) / 100| ≤
      |toDouble (parseFloatDecimal p * q) - parseFloatDecimal p * q| +
        |parseFloatDecimal p * q - ((p * q : ℤ) : ℚ) / 100| := by
    have := abs_add (toDouble (parseFloatDecimal p * q) - parseFloatDecimal p * q)
      (parseFloatDecimal p * q - ((p * q : ℤ) : ℚ) / 100)
    simpa using this
  have hfl2 : |toDouble (parseFloatDecimal p * q) - parseFloatDecimal p * q| ≤
      (2 * (((p * q : ℤ) : ℚ) / 100) + 1) / 2 ^ 53 :=
    le_trans hfl (div_le_div_of_nonneg_right (by linarith) (by norm_num))
  calc |toDouble (parseFloatDecimal p * q) - ((p * q : ℤ) : ℚ) / 100|
      ≤ _ := htri
    _ ≤ (2 * (((p * q : ℤ) : ℚ) / 100) + 1) / 2 ^ 53 + ((p * q : ℤ) / 100 : ℚ) / 2 ^ 53 :=
        add_le_add hfl2 hy
    _ = (3 * ((p * q : ℤ) / 100) + 1) / 2 ^ 53 := by ring


theorem exactCents_nonneg {α : Type} (price qty : α → ℤ) (rows : List α)
    (hnn : ∀ r ∈ rows, 0 ≤ price r ∧ 0 ≤ qty r) : 0 ≤ exactCents price qty rows := by
  unfold exactCents
  apply List.sum_nonneg
  intro x hx
  rw [List.mem_map] at hx
  obtain ⟨r, hr, rfl⟩ := hx
  exact mul_nonneg (hnn r hr).1 (hnn r hr).2

/-- Accumulated error of the running total of `reduce`, started from a
non-negative accumulator `a` that approximates `A` within `ε`. -/
theorem foldl_total_error {α : Type} (price qty : α → ℤ) (B : ℚ) (rows : List α) :
    ∀ (a A ε : ℚ), (∀ r ∈ rows, 0 ≤ price r ∧ 0 ≤ qty r) → 0 ≤ a → 0 ≤ A →
      |a - A| ≤ ε → A + (exactCents price qty rows : ℚ) / 100 ≤ B →
      ε + rows.length * ((4 * B + 4) / 2 ^ 53) ≤ 1 →
      |rows.foldl (fun sum r => jsAdd sum (jsMul (parseFloatDecimal (price r)) (qty r))) a -
          (A + (exactCents price qty rows : ℚ) / 100)| ≤
        ε + rows.length * ((4 * B + 4) / 2 ^ 53) ∧
      0 ≤ rows.foldl (fun sum r => jsAdd sum (jsMul (parseFloatDecimal (price r)) (qty r))) a := by
  induction rows with
  | nil =>
    intro a A ε _ ha _ hε _ _
    simpa [exactCents] using ⟨hε, ha⟩
  | cons r rs ih =>
    intro a A ε hnn ha hA hε hB hsmall
    have hr := hnn r (List.mem_cons_self _ _)
    have hrs : ∀ x ∈ rs, 0 ≤ price x ∧ 0 ≤ qty x := fun x hx => hnn x (List.mem_cons_of_mem _ hx)
    have hcents : (exactCents price qty (r :: rs) : ℚ) =
        ((price r * qty r : ℤ) : ℚ) + (exactCents price qty rs : ℚ) := by
      simp [exactCents]
    have hrest0 : (0 : ℚ) ≤ (exactCents price qty rs : ℚ) := by
      exact_mod_cast exactCents_nonneg price qty rs hrs
    have ht0 : (0 : ℚ) ≤ ((price r * qty r : ℤ) : ℚ) := by
      exact_mod_cast mul_nonneg hr.1 hr.2
    obtain ⟨hline, hline0⟩ := lineTotal_error hr.1 hr.2
    rw [hcents] at hB
    have hε0 : 0 ≤ ε := le_trans (abs_nonneg _) hε
    have hB0 : 0 ≤ B := by
      have : (0 : ℚ) ≤ ((price r * qty r : ℤ) : ℚ) / 100 := by positivity
      have : (0 : ℚ) ≤ (exactCents price qty rs : ℚ) / 100 := by positivity
      linarith
    have hδ0 : 0 ≤ (4 * B + 4) / 2 ^ 53 := by positivity
    have hlen : ((r :: rs).length : ℚ) = (rs.length : ℚ) + 1 := by simp
    rw [hlen] at hsmall ⊢
    have hlen0 : (0 : ℚ) ≤ (rs.length : ℚ) := by positivity
    have hmul0 : 0 ≤ (rs.length : ℚ) * ((4 * B + 4) / 2 ^ 53) := mul_nonneg hlen0 hδ0
    have hδ1 : (4 * B + 4) / 2 ^ 53 ≤ 1 := by nlinarith
    have hε1 : ε ≤ 1 := by nlinarith
    have htB : ((price r * qty r : ℤ) : ℚ) / 100 ≤ B := by
      have : (0 : ℚ) ≤ (exactCents price qty rs : ℚ) / 100 := by positivity
      linarith
    -- the line total as computed
    set that := jsMul (parseFloatDecimal (price r)) (qty r) with hthat
    have hline2 : |that - ((price r * qty r : ℤ) : ℚ) / 100| ≤ (3 * B + 1) / 2 ^ 53 :=
      le_trans hline (div_le_div_of_nonneg_right (by linarith) (by norm_num))
    have h3B : (3 * B + 1) / 2 ^ 53 ≤ (4 * B + 4) / 2 ^ 53 :=
      div_le_div_of_nonneg_right (by linarith) (by norm_num)
    have hz0 : 0 ≤ a + that := add_nonneg ha hline0
    have hzerr : |a + that - (A + ((price r * qty r : ℤ) : ℚ) / 100)| ≤
        ε + (3 * B + 1) / 2 ^ 53 := by
      have := abs_add (a - A) (that - ((price r * qty r : ℤ) : ℚ) / 100)
      have heq : a + that - (A + ((price r * qty r : ℤ) : ℚ) / 100) =
          (a - A) + (that - ((price r * qty r : ℤ) : ℚ) / 100) := by ring
      rw [heq]
      linarith
    have hzabs : |a + that| ≤ B + 2 := by
      rw [abs_of_nonneg hz0]
      have := (abs_le.1 hzerr).2
      have : (0 : ℚ) ≤ (exactCents price qty rs : ℚ) / 100 := by positivity
      linarith
    have hfl : |toDouble (a + that) - (a + that)| ≤ (B + 3) / 2 ^ 53 :=
      le_trans (toDouble_error_abs _) (div_le_div_of_nonneg_right (by linarith) (by norm_num))
    have hstep : |jsAdd a that - (A + ((price r * qty r : ℤ) : ℚ) / 100)| ≤
        ε + (4 * B + 4) / 2 ^ 53 := by
      unfold jsAdd
      have := abs_add (toDouble (a + that) - (a + that))
        (a + that - (A + ((price r * qty r : ℤ) : ℚ) / 100))
      have heq : toDouble (a + that) - (A + ((price r * qty r : ℤ) : ℚ) / 100) =
          (toDouble (a + that) - (a + that)) +
            (a + that - (A + ((price r * qty r : ℤ) : ℚ) / 100)) := by ring
      rw [heq]
      have hsum : (B + 3) / 2 ^ 53 + (ε + (3 * B + 1) / 2 ^ 53) = ε + (4 * B + 4) / 2 ^ 53 := by
        ring
      linarith
    have hstep0 : 0 ≤ jsAdd a that := toDouble_nonneg hz0
    have hA' : 0 ≤ A + ((price r * qty r : ℤ) : ℚ) / 100 := by positivity
    have := ih (jsAdd a that) (A + ((price r * qty r : ℤ) : ℚ) / 100)
      (ε + (4 * B + 4) / 2 ^ 53) hrs hstep0 hA' hstep (by linarith) (by linarith)
    rw [List.foldl_cons, hcents]
    constructor
    · have h1 := this.1
      have heq : A + ((price r * qty r : ℤ) : ℚ) / 100 + (exactCents price qty rs : ℚ) / 100 =
          A + (((price r * qty r : ℤ) : ℚ) + (exactCents price qty rs : ℚ)) / 100 := by ring
      rw [heq] at h1
      linarith
    · exact this.2


/-- The running total of `reduce` is within a quarter of a hundredth of the
exact total when the number of rows times the total is moderate. -/
theorem total_close {α : Type} (price qty : α → ℤ) (rows : List α)
    (hnn : ∀ r ∈ rows, 0 ≤ price r ∧ 0 ≤ qty r)
    (hbound : ((rows.length : ℤ) + 1) * (4 * exactCents price qty rows + 400) ≤ 2 ^ 51) :
    |rows.foldl (fun sum r => jsAdd sum (jsMul (parseFloatDecimal (price r)) (qty r))) 0 * 100 -
        (exactCents price qty rows : ℚ)| ≤
      (rows.length : ℚ) * (4 * exactCents price qty rows + 400) / 2 ^ 53 ∧
    0 ≤ rows.foldl (fun sum r => jsAdd sum (jsMul (parseFloatDecimal (price r)) (qty r))) 0 := by
  have hT0 : (0 : ℚ) ≤ (exactCents price qty rows : ℚ) := by
    exact_mod_cast exactCents_nonneg price qty rows hnn
  have hb : ((rows.length : ℚ) + 1) * (4 * (exactCents price qty rows : ℚ) + 400) ≤ 2 ^ 51 := by
    exact_mod_cast hbound
  have hlen0 : (0 : ℚ) ≤ (rows.length : ℚ) := by positivity
  have hδ : (4 * ((exactCents price qty rows : ℚ) / 100) + 4) / 2 ^ 53 =
      (4 * (exactCents price qty rows : ℚ) + 400) / 2 ^ 53 / 100 := by ring
  have hnδ : (rows.length : ℚ) * ((4 * (exactCents price qty rows : ℚ) + 400) / 2 ^ 53) ≤
      1 / 4 := by
    rw [← mul_div_assoc, div_le_iff₀ (by norm_num)]
    nlinarith
  have hsmall : (0 : ℚ) + rows.length *
      ((4 * ((exactCents price qty rows : ℚ) / 100) + 4) / 2 ^ 53) ≤ 1 := by
    rw [hδ, zero_add, ← mul_div_assoc, div_le_iff₀ (by norm_num)]
    linarith
  obtain ⟨h1, h2⟩ := foldl_total_error price qty ((exactCents price qty rows : ℚ) / 100) rows
    0 0 0 hnn (le_refl _) (le_refl _) (by simp) (by simp) hsmall
  refine ⟨?_, h2⟩
  rw [zero_add, zero_add, hδ] at h1
  have heq : rows.foldl (fun sum r =>
        jsAdd sum (jsMul (parseFloatDecimal (price r)) (qty r))) 0 * 100 -
      (exactCents price qty rows : ℚ) =
      (rows.foldl (fun sum r => jsAdd sum (jsMul (parseFloatDecimal (price r)) (qty r))) 0 -
        (exactCents price qty rows : ℚ) / 100) * 100 := by ring
  rw [heq, abs_mul, abs_of_pos (by norm_num : (0 : ℚ) < 100)]
  calc _ ≤ (rows.length : ℚ) * ((4 * (exactCents price qty rows : ℚ) + 400) / 2 ^ 53 / 100) * 100 :=
        mul_le_mul_of_nonneg_right h1 (by norm_num)
    _ = (rows.length : ℚ) * (4 * exactCents price qty rows + 400) / 2 ^ 53 := by ring

theorem floor_add_half_eq {y : ℚ} {m : ℤ} (h : |y - m| ≤ 1 / 4) : ⌊y + 1 / 2⌋ = m := by
  rw [Int.floor_eq_iff]
  have := abs_le.1 h
  constructor <;> linarith

/-- `toFixed(2)` of a non-negative number within a quarter of a hundredth of
`m` hundredths prints `m` hundredths. -/
theorem toFixed2_eq {x : ℚ} {m : ℤ} (hx : 0 ≤ x) (hlt : x < 10 ^ 21)
    (h : |x * 100 - m| ≤ 1 / 4) : toFixed2 x = some (decimal2 m.toNat) := by
  have hlt2 : ¬ (10 : ℚ) ^ 21 ≤ |x| := by
    rw [abs_of_nonneg hx, not_le]
    exact hlt
  have hneg : ¬ x < 0 := not_lt.2 hx
  unfold toFixed2
  rw [if_neg hlt2, if_neg hneg, abs_of_nonneg hx, floor_add_half_eq h]
  simp

/-- `amountInCents`: the rounded hundredfold of the running total is the exact
total in hundredths. -/
theorem amount_eq {α : Type} (price qty : α → ℤ) (rows : List α)
    (hnn : ∀ r ∈ rows, 0 ≤ price r ∧ 0 ≤ qty r)
    (hbound : ((rows.length : ℤ) + 1) * (4 * exactCents price qty rows + 400) ≤ 2 ^ 51) :
    mathRound (jsMul
      (rows.foldl (fun sum r => jsAdd sum (jsMul (parseFloatDecimal (price r)) (qty r))) 0) 100) =
      exactCents price qty rows := by
  obtain ⟨h1, h2⟩ := total_close price qty rows hnn hbound
  have hT0 : (0 : ℚ) ≤ (exactCents price qty rows : ℚ) := by
    exact_mod_cast exactCents_nonneg price qty rows hnn
  have hb : ((rows.length : ℚ) + 1) * (4 * (exactCents price qty rows : ℚ) + 400) ≤ 2 ^ 51 := by
    exact_mod_cast hbound
  have hlen0 : (0 : ℚ) ≤ (rows.length : ℚ) := by positivity
  set total := rows.foldl (fun sum r =>
    jsAdd sum (jsMul (parseFloatDecimal (price r)) (qty r))) 0 with htotal
  have hnδ : (rows.length : ℚ) * (4 * exactCents price qty rows + 400) / 2 ^ 53 ≤ 1 / 4 := by
    rw [div_le_iff₀ (by norm_num)]
    nlinarith
  have hy0 : 0 ≤ total * 100 := by positivity
  have hyabs : |total * 100| ≤ (exactCents price qty rows : ℚ) + 1 := by
    rw [abs_of_nonneg hy0]
    have := (abs_le.1 h1).2
    linarith
  have hfl : |toDouble (total * 100) - total * 100| ≤
      ((exactCents price qty rows : ℚ) + 2) / 2 ^ 53 :=
    le_trans (toDouble_error_abs _) (div_le_div_of_nonneg_right (by linarith) (by norm_num))
  unfold mathRound jsMul
  apply floor_add_half_eq
  have := abs_add (toDouble (total * 100) - total * 100)
    (total * 100 - (exactCents price qty rows : ℚ))
  have heq : toDouble (total * 100) - (exactCents price qty rows : ℚ) =
      (toDouble (total * 100) - total * 100) +
        (total * 100 - (exactCents price qty rows : ℚ)) := by ring
  rw [heq]
  have hsum : ((exactCents price qty rows : ℚ) + 2) / 2 ^ 53 +
      (rows.length : ℚ) * (4 * exactCents price qty rows + 400) / 2 ^ 53 ≤ 1 / 4 := by
    rw [← add_div, div_le_iff₀ (by norm_num)]
    nlinarith
  linarith

/-- The running count of `reduce` is exact below `2 ^ 53`. -/
theorem foldl_count {α : Type} (qty : α → ℤ) (rows : List α) :
    ∀ (A : ℤ), (∀ r ∈ rows, 0 ≤ qty r) → 0 ≤ A → A + (rows.map qty).sum < 2 ^ 53 →
      rows.foldl (fun sum r => jsAdd sum (qty r)) (A : ℚ) = ((A + (rows.map qty).sum : ℤ) : ℚ) := by
  induction rows with
  | nil => intro A _ _ _; simp
  | cons r rs ih =>
    intro A hnn hA hlt
    have hr := hnn r (List.mem_cons_self _ _)
    have hrs : ∀ x ∈ rs, 0 ≤ qty x := fun x hx => hnn x (List.mem_cons_of_mem _ hx)
    have hrest : 0 ≤ (rs.map qty).sum := by
      apply List.sum_nonneg
      intro x hx
      rw [List.mem_map] at hx
      obtain ⟨y, hy, rfl⟩ := hx
      exact hrs y hy
    simp only [List.map_cons, List.sum_cons] at hlt
    have hstep : jsAdd (A : ℚ) (qty r) = ((A + qty r : ℤ) : ℚ) := by
      unfold jsAdd
      rw [← Int.cast_add]
      apply toDouble_intCast
      rw [abs_of_nonneg (by omega)]
      omega
    rw [List.foldl_cons, hstep, ih (A + qty r) hrs (by omega) (by omega)]
    simp only [List.map_cons, List.sum_cons]
    congr 1
    ring

/-- The double nearest to `x`, from its binary exponent `k` and the rounded
significand `m`, scaled to 53 bits. -/
theorem toDouble_eq_of_round {x : ℚ} (k m : ℤ) (hk1 : (2 : ℚ) ^ k ≤ |x|)
    (hk2 : |x| < 2 ^ (k + 1)) (hk3 : -1022 ≤ k)
    (hm : roundTiesEven (x / 2 ^ (k - 52)) = m) : toDouble x = m * 2 ^ (k - 52) := by
  have hpos : (0 : ℚ) < |x| := lt_of_lt_of_le (two_zpow_pos k) hk1
  have hx : x ≠ 0 := abs_pos.1 hpos
  have hlog : Int.log 2 |x| = k := by
    apply le_antisymm
    · have : Int.log 2 |x| < k + 1 := by
        rw [← Int.lt_zpow_iff_log_lt (by norm_num) hpos]
        exact_mod_cast hk2
      omega
    · rw [← Int.zpow_le_iff_le_log (by norm_num) hpos]
      exact_mod_cast hk1
  have he : ulpExp x = k - 52 := by
    unfold ulpExp
    rw [hlog]
    exact max_eq_left (by omega)
  unfold toDouble
  rw [if_neg hx, he, hm]

/-- The same, away from a tie. -/
theorem toDouble_eq {x : ℚ} (k m : ℤ) (hk1 : (2 : ℚ) ^ k ≤ |x|) (hk2 : |x| < 2 ^ (k + 1))
    (hk3 : -1022 ≤ k) (hm1 : (m : ℚ) - 1 / 2 < x / 2 ^ (k - 52))
    (hm2 : x / 2 ^ (k - 52) < m + 1 / 2) : toDouble x = m * 2 ^ (k - 52) :=
  toDouble_eq_of_round k m hk1 hk2 hk3 (roundTiesEven_eq hm1 hm2)

/-- `parseFloat("99999999.99")` -/
theorem parseFloatDecimal_bulk :
    parseFloatDecimal 9999999999 = 6710886399328911 / 67108864 := by
  unfold parseFloatDecimal
  rw [toDouble_eq 26 6710886399328911 (by norm_num [abs_of_pos]) (by norm_num [abs_of_pos])
    (by norm_num) (by norm_num) (by norm_num)]
  norm_num

/-- `parseFloat("99999999.99") * 2147483647` -/
theorem jsMul_bulk :
    jsMul (6710886399328911 / 67108864) (2147483647 : ℤ) = 214748364678525152 := by
  unfold jsMul
  rw [toDouble_eq 57 6710886396203911 (by norm_num [abs_of_pos]) (by norm_num [abs_of_pos])
    (by norm_num) (by norm_num) (by norm_num)]
  norm_num

/-- `0 + parseFloat("99999999.99") * 2147483647` -/
theorem jsAdd_bulk : jsAdd 0 214748364678525152 = 214748364678525152 := by
  unfold jsAdd
  rw [toDouble_eq 57 6710886396203911 (by norm_num [abs_of_pos]) (by norm_num [abs_of_pos])
    (by norm_num) (by norm_num) (by norm_num)]
  norm_num

/-- `(parseFloat("99999999.99") * 2147483647) * 100` -/
theorem jsMul_bulk_hundred :
    jsMul 214748364678525152 100 = 21474836467852513280 := by
  unfold jsMul
  rw [toDouble_eq 64 5242879997034305 (by norm_num [abs_of_pos]) (by norm_num [abs_of_pos])
    (by norm_num) (by norm_num) (by norm_num)]
  norm_num

/-- The running total of a cart query with a single row. -/
theorem getCart_total_singleton {st : Store} {s : String} {row : CartItem × Product}
    (h : cartRows st (.val s) = .ok [row]) :
    (getCart st s).total =
      toFixed2 (jsAdd 0 (jsMul (parseFloatDecimal row.2.price) row.1.quantity)) := by
  unfold getCart Response.total
  rw [h]
  rfl

theorem amountInCents_singleton (row : CartItem × Product) :
    amountInCents [row] =
      mathRound (jsMul (jsAdd 0 (jsMul (parseFloatDecimal row.2.price) row.1.quantity)) 100) :=
  rfl

/-- With a session key and a non-empty cart the handler makes one call to the
processor, for `amountInCents`. -/
theorem createPaymentIntent_calls (stripe : Processor) (st : Store) {s : String}
    (email : JsField String) (hs : s ≠ "") (hnul : hasNul s = false)
    (hrows : joinRows st (some s) ≠ []) :
    (createPaymentIntent stripe st ⟨.val s, email⟩).2.2 =
      [.create ⟨amountInCents (joinRows st (some s)), "zar", .val s, email, email⟩] := by
  have hlen : (joinRows st (some s)).length ≠ 0 := by
    intro h
    exact hrows (List.length_eq_zero.1 h)
  unfold createPaymentIntent
  simp only [truthyStr, hs, ne_eq, not_false_eq_true, decide_True, Bool.not_true,
    Bool.false_eq_true, if_false, cartRows_val hnul, hlen]
  split <;> rfl

theorem joinRows_bulk :
    joinRows bulkStore (some "s1") =
      [(⟨1, some 1, some 1, 2147483647⟩, ⟨1, "Design", none, 9999999999⟩)] := by
  decide

theorem cartRows_bulk :
    cartRows bulkStore (.val "s1") =
      .ok [(⟨1, some 1, some 1, 2147483647⟩, ⟨1, "Design", none, 9999999999⟩)] := by
  rw [cartRows_val (by decide), joinRows_bulk]

/-- The running total of a cart query with two rows. -/
theorem getCart_total_pair {st : Store} {s : String} {row1 row2 : CartItem × Product}
    (h : cartRows st (.val s) = .ok [row1, row2]) :
    (getCart st s).total =
      toFixed2 (jsAdd (jsAdd 0 (jsMul (parseFloatDecimal row1.2.price) row1.1.quantity))
        (jsMul (parseFloatDecimal row2.2.price) row2.1.quantity)) := by
  unfold getCart Response.total
  rw [h]
  rfl

/-- With a negative quantity the printed total can be "-0.00" although the
exact total is zero: `0 + 0.10 * -3 + 0.30 * 1` is `-2 ^ -54` in doubles. -/
theorem getCart_negative_zero :
    (getCart signedStore "s1").total = some "-0.00" ∧
    totalCents (joinRows signedStore (some "s1")) = 0 := by
  refine ⟨?_, by decide⟩
  have hjoin : joinRows signedStore (some "s1") =
      [(⟨1, some 1, some 1, -3⟩, ⟨1, "A", none, 10⟩),
       (⟨2, some 1, some 2, 1⟩, ⟨2, "B", none, 30⟩)] := by decide
  have hrows : cartRows signedStore (.val "s1") =
      .ok [(⟨1, some 1, some 1, -3⟩, ⟨1, "A", none, 10⟩),
       (⟨2, some 1, some 2, 1⟩, ⟨2, "B", none, 30⟩)] := by
    rw [cartRows_val (by decide), hjoin]
  have h1 : parseFloatDecimal 10 = 3602879701896397 / 36028797018963968 := by
    unfold parseFloatDecimal
    rw [toDouble_eq (-4) 7205759403792794 (by norm_num [abs_of_pos])
      (by norm_num [abs_of_pos]) (by norm_num) (by norm_num) (by norm_num)]
    norm_num
  have h2 : jsMul (3602879701896397 / 36028797018963968) ((-3 : ℤ) : ℚ) =
      -1351079888211149 / 4503599627370496 := by
    unfold jsMul
    rw [toDouble_eq_of_round (-2) (-5404319552844596) (by norm_num [abs_of_neg])
      (by norm_num [abs_of_neg]) (by norm_num) (by norm_num [roundTiesEven])]
    norm_num
  have h3 : jsAdd 0 (-1351079888211149 / 4503599627370496) =
      -1351079888211149 / 4503599627370496 := by
    unfold jsAdd
    rw [toDouble_eq (-2) (-5404319552844596) (by norm_num [abs_of_neg])
      (by norm_num [abs_of_neg]) (by norm_num) (by norm_num) (by norm_num)]
    norm_num
  have h4 : parseFloatDecimal 30 = 5404319552844595 / 18014398509481984 := by
    unfold parseFloatDecimal
    rw [toDouble_eq (-2) 5404319552844595 (by norm_num [abs_of_pos])
      (by norm_num [abs_of_pos]) (by norm_num) (by norm_num) (by norm_num)]
    norm_num
  have h5 : jsMul (5404319552844595 / 18014398509481984) ((1 : ℤ) : ℚ) =
      5404319552844595 / 18014398509481984 := by
    unfold jsMul
    rw [toDouble_eq (-2) 5404319552844595 (by norm_num [abs_of_pos])
      (by norm_num [abs_of_pos]) (by norm_num) (by norm_num) (by norm_num)]
    norm_num
  have h6 : jsAdd (-1351079888211149 / 4503599627370496)
      (5404319552844595 / 18014398509481984) = -1 / 18014398509481984 := by
    unfold jsAdd
    rw [toDouble_eq (-54) (-4503599627370496) (by norm_num [abs_of_neg])
      (by norm_num [abs_of_neg]) (by norm_num) (by norm_num) (by norm_num)]
    norm_num
  have h7 : toFixed2 (-1 / 18014398509481984) = some ("-" ++ decimal2 (0 : ℤ).toNat) := by
    have hfloor : ⌊|(-1 / 18014398509481984 : ℚ)| * 100 + 1 / 2⌋ = 0 :=
      floor_add_half_eq (by norm_num [abs_of_neg, abs_of_pos])
    unfold toFixed2
    rw [if_neg (by norm_num [abs_of_neg]), if_pos (by norm_num), hfloor]
  rw [getCart_total_pair hrows, h1, h2, h3, h4, h5, h6, h7]
  decide

theorem digits2_length (n : Nat) : (digits2 (n % 100)).length = 2 := by
  have h : ∀ m < 100, (digits2 m).length = 2 := by decide
  exact h (n % 100) (Nat.mod_lt n (by norm_num))

/-! ## The claims -/

/-- A one-product catalog satisfies the declared constraints. -/
theorem demoStore_WF : demoStore.WF := by
  constructor <;> decide

/-- C1, as stated, fails: on a one-product catalog, adding quantity 2147483647
and then quantity 1 of the product for the same session leaves one line item
whose quantity is 2147483647, not the sum; the second call answers 500. -/
theorem addItem_twice_overflow :
    lineOf demoStore "s1" 1 = [] ∧
    (addItem demoStore ⟨.val "s1", .val 1, .val 2147483647⟩).2.status = 200 ∧
    (addItem (addItem demoStore ⟨.val "s1", .val 1, .val 2147483647⟩).1
      ⟨.val "s1", .val 1, .val 1⟩).2.status = 500 ∧
    (lineOf (addItem (addItem demoStore ⟨.val "s1", .val 1, .val 2147483647⟩).1
      ⟨.val "s1", .val 1, .val 1⟩).1 "s1" 1).map (fun ci => ci.quantity) ≠ [2147483647 + 1] := by
  decide

/-- A product id sent as a string of digits is handled by `/api/cart/add` like
the number it spells, zero apart (the string "0" is truthy). -/
theorem addItem_str (st : Store) (sessionId : JsField String) {p : Int} (hp0 : p ≠ 0)
    (quantity : NumField) :
    addItem st ⟨sessionId, .str p, quantity⟩ = addItem st ⟨sessionId, .val p, quantity⟩ := by
  unfold addItem
  simp only [truthyNum, hp0, ne_eq, not_false_eq_true, decide_True]
  rfl

/-- C1 (amended): on a well-formed store, for a non-empty session key without
U+0000 that fits the `session_id` column, a product of the catalog, its id sent
as a number or as a string of digits, and quantities `q1`, `q2` of type
`INTEGER` whose sum is of type `INTEGER` too, with a value left in the key
sequence of `carts` and two in that of `cart_items`, two successive calls of
`POST /api/cart/add`, starting without a line item for the product, both answer
200 and leave exactly one line item for the session and product, of quantity
`q1 + q2`. -/
theorem addItem_twice_accumulates (st : Store) (s : String) (p q1 q2 : Int)
    (productId : NumField) (hwf : st.WF) (hs : s ≠ "") (hfit : textFits 255 s)
    (hcseq : st.carts_id_seq < int4Max) (hiseq : st.cart_items_id_seq + 1 < int4Max)
    (hp : ∃ r ∈ st.products, r.id = p)
    (hpid : productId = .val p ∨ productId = .str p) (hq1 : isInt4 q1) (hq2 : isInt4 q2)
    (hsum : isInt4 (q1 + q2)) (hnone : lineOf st s p = []) :
    (addItem st ⟨.val s, productId, .val q1⟩).2 = ⟨200, .success "Item added to cart"⟩ ∧
    (addItem (addItem st ⟨.val s, productId, .val q1⟩).1 ⟨.val s, productId, .val q2⟩).2 =
      ⟨200, .success "Item added to cart"⟩ ∧
    (lineOf (addItem (addItem st ⟨.val s, productId, .val q1⟩).1
      ⟨.val s, productId, .val q2⟩).1 s p).map (fun ci => ci.quantity) = [q1 + q2] := by
  have key : (addItem st ⟨.val s, .val p, .val q1⟩).2 =
        ⟨200, .success "Item added to cart"⟩ ∧
      (addItem (addItem st ⟨.val s, .val p, .val q1⟩).1 ⟨.val s, .val p, .val q2⟩).2 =
        ⟨200, .success "Item added to cart"⟩ ∧
      (lineOf (addItem (addItem st ⟨.val s, .val p, .val q1⟩).1
        ⟨.val s, .val p, .val q2⟩).1 s p).map (fun ci => ci.quantity) = [q1 + q2] := by
    obtain ⟨st1, row, h1, hprod, hline, hrow, hseq1⟩ :=
      addItem_fresh_line hwf hs hfit.2 hfit.1 hcseq (by omega) hp hq1 hnone
    have hwf1 : st1.WF := by
      have := addItem_WF hwf ⟨.val s, .val p, .val q1⟩
      rw [h1] at this
      exact this
    have hp1 : ∃ r ∈ st1.products, r.id = p := by rw [hprod]; exact hp
    obtain ⟨st2, h2, _, hline2⟩ :=
      addItem_existing_line hwf1 hs hfit.2 (by rw [hseq1]; exact hiseq) hp1 hq2 hline
        (by rw [hrow]; exact hsum)
    rw [h1]
    simp only
    rw [h2]
    simp only [hline2, List.map_cons, List.map_nil, hrow, true_and]
  rcases hpid with h | h
  · rw [h]
    exact key
  · rw [h, addItem_str st (.val s) (product_id_valid hwf hp).1,
      addItem_str _ (.val s) (product_id_valid hwf hp).1]
    exact key

/-- Witness of C1 (amended): quantities 2 and 3 on a one-product catalog, the
product id sent as the string "1". -/
theorem addItem_twice_accumulates_witness :
    (lineOf (addItem (addItem demoStore ⟨.val "s1", .str 1, .val 2⟩).1
      ⟨.val "s1", .str 1, .val 3⟩).1 "s1" 1).map (fun ci => ci.quantity) = [2 + 3] :=
  (addItem_twice_accumulates demoStore "s1" 1 2 3 (.str 1) demoStore_WF (by decide)
    (by decide) (by decide) (by decide) (by decide) (Or.inr rfl) (by decide) (by decide)
    (by decide) (by decide)).2.2

/-- C7, as stated, fails: a product id that is present and matches no product,
but lies outside the range of `INTEGER`, is answered with 500 rather than 404
(the lookup in `products` raises a database error); the store is left as it
was. -/
theorem addItem_out_of_range_id :
    (∀ r ∈ demoStore.products, r.id ≠ 2147483648) ∧
    addItem demoStore ⟨.val "s1", .val 2147483648, .undefined⟩ =
      (demoStore, ⟨500, .error "Internal server error"⟩) := by
  decide

/-- C7 (amended): `POST /api/cart/add` answers 400 when the session key or the
product id is absent (falsy), and 404 when both are present and the product id
lies in the range of `INTEGER` and matches no product of the catalog; in both
cases the store, hence every cart and line item, is left as it was. -/
theorem addItem_rejects (st : Store) (req : CartRequest)
    (h : truthyStr req.sessionId = false ∨ truthyNum req.productId = false ∨
      ∃ p, (req.productId = .val p ∨ req.productId = .str p) ∧ isInt4 p ∧
        ∀ r ∈ st.products, r.id ≠ p) :
    addItem st req =
      (st, if truthyStr req.sessionId = false ∨ truthyNum req.productId = false
        then ⟨400, .error "Session ID and Product ID are required"⟩
        else ⟨404, .error "Product not found"⟩) := by
  by_cases habs : truthyStr req.sessionId = false ∨ truthyNum req.productId = false
  · rw [if_pos habs]
    unfold addItem
    rcases habs with h1 | h1 <;> simp [h1]
  · rw [if_neg habs]
    rcases h with h1 | h1 | ⟨p, hp, hp4, hno⟩
    · exact absurd (Or.inl h1) habs
    · exact absurd (Or.inr h1) habs
    · simp only [not_or, Bool.not_eq_false] at habs
      unfold addItem
      simp only [habs.1, habs.2, Bool.not_true, Bool.or_self, Bool.false_eq_true, if_false]
      rcases hp with hp | hp
      · rw [hp, selectProductsById_of_not_mem hp4 hno]
      · rw [hp, selectProductsById_str, selectProductsById_of_not_mem hp4 hno]

/-- Witness of C7 (amended): an unknown product id on a one-product catalog. -/
theorem addItem_rejects_witness :
    addItem demoStore ⟨.val "s1", .val 7, .undefined⟩ =
      (demoStore, ⟨404, .error "Product not found"⟩) :=
  addItem_rejects demoStore ⟨.val "s1", .val 7, .undefined⟩
    (Or.inr (Or.inr ⟨7, Or.inl rfl, by decide, by decide⟩))

/-- C8, as stated, fails: `PUT /api/cart/update` with quantity 0 does not
succeed for every session key and product when the line item is absent.  On the
one-product catalog, where no session has a line item, it answers 400 for the
empty session key and 500 for a product id outside the range of `INTEGER`; and
`DELETE /api/cart/remove` answers 500 for that product id and for a session key
that holds U+0000. -/
theorem zero_update_not_accepted :
    demoStore.cart_items = [] ∧
    updateQuantity demoStore ⟨.val "", .val 1, .val 0⟩ =
      (demoStore, ⟨400, .error "Invalid parameters"⟩) ∧
    updateQuantity demoStore ⟨.val "s1", .val 2147483648, .val 0⟩ =
      (demoStore, ⟨500, .error "Internal server error"⟩) ∧
    removeItem demoStore ⟨.val "s1", .val 2147483648, .undefined⟩ =
      (demoStore, ⟨500, .error "Internal server error"⟩) ∧
    removeItem demoStore ⟨.val nulKey, .val 1, .undefined⟩ =
      (demoStore, ⟨500, .error "Internal server error"⟩) := by
  decide

/-- C8 (amended): on a well-formed store, for a session key `s` without U+0000
and a product id `p` in the range of `INTEGER`, sent as a number or as a string
of digits, whether or not `p` is in the catalog: `DELETE /api/cart/remove`
answers 200, and so does `PUT /api/cart/update` with the number 0 as quantity
when the session key is not empty and the product id is not the number 0; both
delete exactly the line item of the session for the product: no such line item
remains, every other row of `cart_items` and the `carts` table are kept, and
the store is unchanged when there was no such line item (in particular when the
session has no cart). -/
theorem zero_update_and_remove (st : Store) (s : String) (p : Int)
    (productId q : NumField) (hwf : st.WF) (hnul : hasNul s = false) (hp4 : isInt4 p)
    (hpid : productId = .val p ∨ productId = .str p) :
    (s ≠ "" → truthyNum productId = true →
      updateQuantity st ⟨.val s, productId, .val 0⟩ =
        (withoutLine st s p, ⟨200, .success "Cart updated"⟩)) ∧
    removeItem st ⟨.val s, productId, q⟩ =
      (withoutLine st s p, ⟨200, .success "Item removed from cart"⟩) ∧
    lineOf (withoutLine st s p) s p = [] ∧
    (withoutLine st s p).cart_items =
      st.cart_items.filter (fun ci => !decide (ci ∈ lineOf st s p)) ∧
    (withoutLine st s p).carts = st.carts ∧
    (lineOf st s p = [] → withoutLine st s p = st) := by
  have hdel : deleteCartItem st (.val s) productId = .ok (withoutLine st s p) := by
    rcases hpid with h | h
    · rw [h]
      exact deleteCartItem_eq hwf hnul hp4
    · rw [h]
      exact deleteCartItem_eq hwf hnul hp4
  refine ⟨?_, ?_, lineOf_withoutLine s p, rfl, rfl, withoutLine_eq_self⟩
  · intro hs hp0
    unfold updateQuantity
    simp only [truthyStr, ltZero, strictEqZero, hs, hp0, ne_eq, not_false_eq_true,
      decide_True, Bool.not_true, Bool.or_self, lt_self_iff_false, decide_False,
      Bool.false_eq_true, if_false, if_true, hdel]
  · unfold removeItem
    simp only [hdel]

/-- Witness of C8 (amended): session `s1` holds quantity 2 of product 1; the
update with quantity 0 leaves it without line items. -/
theorem zero_update_and_remove_witness :
    lineOf (addItem demoStore ⟨.val "s1", .val 1, .val 2⟩).1 "s1" 1 =
      [⟨1, some 1, some 1, 2⟩] ∧
    (updateQuantity (addItem demoStore ⟨.val "s1", .val 1, .val 2⟩).1
      ⟨.val "s1", .val 1, .val 0⟩).1.cart_items = [] := by
  refine ⟨by decide, ?_⟩
  rw [(zero_update_and_remove (addItem demoStore ⟨.val "s1", .val 1, .val 2⟩).1 "s1" 1
    (.val 1) .undefined (addItem_WF demoStore_WF _) (by decide) (by decide)
    (Or.inl rfl)).1 (by decide) (by decide)]
  decide

/-- C9, as stated, fails: a positive quantity outside the range of `INTEGER` is
not stored; the `UPDATE` raises a database error, the handler answers 500 and
the line item keeps its quantity. -/
theorem updateQuantity_out_of_range :
    lineOf (addItem demoStore ⟨.val "s1", .val 1, .val 2⟩).1 "s1" 1 =
      [⟨1, some 1, some 1, 2⟩] ∧
    updateQuantity (addItem demoStore ⟨.val "s1", .val 1, .val 2⟩).1
        ⟨.val "s1", .val 1, .val 2147483648⟩ =
      ((addItem demoStore ⟨.val "s1", .val 1, .val 2⟩).1,
        ⟨500, .error "Internal server error"⟩) := by
  decide

/-- C9 (amended): on a well-formed store, for a non-empty session key whose cart
holds the line item `old` for product `p`, whatever its quantity, and a positive
quantity `q` in the range of `INTEGER`, `PUT /api/cart/update` answers 200,
replaces the quantity of that line item by `q`, and leaves every other row
alone. -/
theorem updateQuantity_replaces (st : Store) (s : String) (p q : Int) (old : CartItem)
    (hwf : st.WF) (hs : s ≠ "") (hold : lineOf st s p = [old]) (hq : 0 < q)
    (hq4 : isInt4 q) :
    updateQuantity st ⟨.val s, .val p, .val q⟩ =
      ({ st with cart_items := st.cart_items.map (fun ci =>
          if ci = old then { old with quantity := q } else ci) },
        ⟨200, .success "Cart updated"⟩) := by
  have hmem : old ∈ lineOf st s p := by rw [hold]; simp
  have hmem2 := hmem
  unfold lineOf linesOf at hmem2
  rw [List.mem_filter, List.mem_filter] at hmem2
  obtain ⟨⟨hitem, _⟩, hprod⟩ := hmem2
  simp only [decide_eq_true_eq] at hprod
  have hpmem := hwf.cart_items_product_id_fkey old hitem p hprod
  rw [List.mem_map] at hpmem
  obtain ⟨r, hr, hrp⟩ := hpmem
  obtain ⟨hp0, hp4⟩ := product_id_valid hwf ⟨r, hr, hrp⟩
  have hnul : hasNul s = false :=
    hasNul_of_mem_linesOf hwf (List.mem_filter.1 hmem).1
  have hq0 : ¬ q < 0 := by omega
  have hq1 : q ≠ 0 := by omega
  unfold updateQuantity
  simp only [truthyStr, truthyNum, ltZero, strictEqZero, hs, hp0, hq0, hq1, ne_eq,
    not_false_eq_true, decide_True, Bool.not_true, Bool.or_self, decide_False,
    Bool.false_eq_true, if_false, updateCartItem_eq hwf hnul hp4 hq4]
  unfold withLineQuantity
  congr 2
  apply List.map_congr_left
  intro ci _
  rw [hold]
  by_cases hc : ci = old
  · subst hc; simp
  · simp [hc]

/-- Witness of C9 (amended): a line item of quantity 2 set to quantity 7. -/
theorem updateQuantity_replaces_witness :
    updateQuantity (addItem demoStore ⟨.val "s1", .val 1, .val 2⟩).1
        ⟨.val "s1", .val 1, .val 7⟩ =
      ({ (addItem demoStore ⟨.val "s1", .val 1, .val 2⟩).1 with
          cart_items := [⟨1, some 1, some 1, 7⟩] }, ⟨200, .success "Cart updated"⟩) :=
  updateQuantity_replaces (addItem demoStore ⟨.val "s1", .val 1, .val 2⟩).1 "s1" 1 7
    ⟨1, some 1, some 1, 2⟩ (addItem_WF demoStore_WF _) (by decide) (by decide) (by decide)
    (by decide)

/-- C10: for every negative quantity, whatever the other fields and the store,
`PUT /api/cart/update` answers 400 and leaves the store as it was. -/
theorem updateQuantity_negative (st : Store) (sessionId : JsField String)
    (productId : NumField) (q : Int) (hq : q < 0) :
    updateQuantity st ⟨sessionId, productId, .val q⟩ =
      (st, ⟨400, .error "Invalid parameters"⟩) := by
  unfold updateQuantity
  simp [ltZero, hq]

/-- Witness of C10: quantity -1. -/
theorem updateQuantity_negative_witness :
    updateQuantity demoStore ⟨.val "s1", .val 1, .val (-1)⟩ =
      (demoStore, ⟨400, .error "Invalid parameters"⟩) :=
  updateQuantity_negative demoStore (.val "s1") (.val 1) (-1) (by decide)

/-- The one-product catalog after session `s1` added quantity 2 of the product. -/
theorem demoCart_WF : (addItem demoStore ⟨.val "s1", .val 1, .val 2⟩).1.WF :=
  addItem_WF demoStore_WF _

/-- C6, as stated, fails: for a session key that is present, has no line items
and holds U+0000, `POST /api/create-payment-intent` answers 500 with the message
of the database error, not 400 "Cart is empty": the cart query raises when the
server reads the key. -/
theorem createPaymentIntent_nul_key :
    truthyStr (.val nulKey) = true ∧ linesOf demoStore nulKey = [] ∧
    createPaymentIntent demoProcessor demoStore ⟨.val nulKey, .undefined⟩ =
      (demoStore, ⟨500, .errorOf (.db .characterNotInRepertoire)⟩, []) := by
  decide

/-- C6 (amended): `POST /api/create-payment-intent` returns the store as it
received it, whatever the input and the processor; it answers 400 without a call
to the processor when the session key is absent (falsy), and 400 "Cart is empty"
without a call to the processor when the session key holds no U+0000 and the
session has no line items. -/
theorem createPaymentIntent_guards (stripe : Processor) (st : Store) (req : IntentRequest) :
    (createPaymentIntent stripe st req).1 = st ∧
    (truthyStr req.sessionId = false →
      createPaymentIntent stripe st req = (st, ⟨400, .error "Session ID is required"⟩, [])) ∧
    (∀ s, req.sessionId = .val s → s ≠ "" → hasNul s = false → linesOf st s = [] →
      createPaymentIntent stripe st req = (st, ⟨400, .error "Cart is empty"⟩, [])) := by
  refine ⟨?_, ?_, ?_⟩
  · unfold createPaymentIntent
    split
    · rfl
    · split
      · rfl
      · simp only
        split
        · rfl
        · split <;> rfl
  · intro h
    unfold createPaymentIntent
    simp [h]
  · intro s hs hne hnul hnone
    unfold createPaymentIntent
    simp [hs, truthyStr, hne, cartRows_val hnul, joinRows_eq_nil hnone]

/-- Witness of C6 (amended): a session that never added anything. -/
theorem createPaymentIntent_guards_witness :
    createPaymentIntent demoProcessor demoStore ⟨.val "s1", .undefined⟩ =
      (demoStore, ⟨400, .error "Cart is empty"⟩, []) :=
  (createPaymentIntent_guards demoProcessor demoStore ⟨.val "s1", .undefined⟩).2.2 "s1" rfl
    (by decide) (by decide) (by decide)

/-- C3: on a well-formed store, after `POST /api/confirm-payment` answered 200
for session key `s`, the session has no line item left, the `carts` table is as
before, and the one new `payments` row, returned in the response, carries the
snapshot of the line items the session held before the call: one entry per
line item, with its product id and quantity, the name and price of that product
and `item_total = price * quantity`. -/
theorem confirmPayment_snapshot_and_clear (stripe : Processor) (st : Store)
    (i : JsField String) (s : String) (hwf : st.WF)
    (hok : (confirmPayment stripe st ⟨i, .val s⟩).2.1.status = 200) :
    linesOf (confirmPayment stripe st ⟨i, .val s⟩).1 s = [] ∧
    (confirmPayment stripe st ⟨i, .val s⟩).1.carts = st.carts ∧
    (∃ payment,
      (confirmPayment stripe st ⟨i, .val s⟩).1.payments = st.payments ++ [payment] ∧
      payment.items = some (snapshotOf (joinRows st (some s))) ∧
      (confirmPayment stripe st ⟨i, .val s⟩).2.1.body =
        .confirmed payment (snapshotOf (joinRows st (some s)))) ∧
    (snapshotOf (joinRows st (some s))).map (fun it => (some it.product_id, it.quantity)) =
      (linesOf st s).map (fun ci => (ci.product_id, ci.quantity)) ∧
    ∀ it ∈ snapshotOf (joinRows st (some s)), it.item_total = it.price * it.quantity ∧
      ∃ r ∈ st.products, r.id = it.product_id ∧ r.name = it.name ∧ r.price = it.price := by
  have hsnap : (snapshotOf (joinRows st (some s))).map
        (fun it => (some it.product_id, it.quantity)) =
      (linesOf st s).map (fun ci => (ci.product_id, ci.quantity)) := by
    rw [← joinRows_map_fst hwf s]
    unfold snapshotOf
    rw [List.map_map, List.map_map]
    apply List.map_congr_left
    intro row hrow
    simp [(mem_joinRows hrow).2.2]
  have hitems : ∀ it ∈ snapshotOf (joinRows st (some s)),
      it.item_total = it.price * it.quantity ∧
      ∃ r ∈ st.products, r.id = it.product_id ∧ r.name = it.name ∧ r.price = it.price := by
    intro it hit
    unfold snapshotOf at hit
    rw [List.mem_map] at hit
    obtain ⟨row, hrow, rfl⟩ := hit
    exact ⟨rfl, row.2, (mem_joinRows hrow).2.1, rfl, rfl, rfl⟩
  refine ⟨?_, ?_, ?_, hsnap, hitems⟩ <;>
  · unfold confirmPayment at hok ⊢
    cases hret : stripe.retrieve i with
    | error message => simp [hret] at hok
    | ok paymentIntent =>
      rw [hret] at hok
      simp only at hok ⊢
      cases hrows : cartRows st (.val s) with
      | error e => simp [hrows] at hok
      | ok rows =>
        obtain ⟨hnul, hrows2⟩ := cartRows_ok_val hrows
        subst hrows2
        rw [hrows] at hok
        simp only at hok ⊢
        cases hins : insertPayment st paymentIntent (.val s)
            (snapshotOf (joinRows st (some s))) with
        | mk st1 res =>
          rw [hins] at hok
          cases res with
          | error e => simp at hok
          | ok payment =>
            have hwf1 : st1.WF := by
              have := insertPayment_WF hwf paymentIntent (.val s)
                (snapshotOf (joinRows st (some s)))
              rw [hins] at this
              exact this
            obtain ⟨h1, h2, _, _⟩ := insertPayment_ok hins
            simp only [clearCart_eq hwf1 hnul]
            first
              | exact linesOf_withoutCart st1 s
              | (subst h1; rfl)
              | exact ⟨payment, by subst h1; rfl, h2, rfl⟩

/-- Witness of C3: session `s1` holds quantity 2 of the product and confirms
intent `pi_1`. -/
theorem confirmPayment_snapshot_and_clear_witness :
    linesOf (confirmPayment demoProcessor (addItem demoStore ⟨.val "s1", .val 1, .val 2⟩).1
      ⟨.val "pi_1", .val "s1"⟩).1 "s1" = [] :=
  (confirmPayment_snapshot_and_clear demoProcessor
    (addItem demoStore ⟨.val "s1", .val 1, .val 2⟩).1 (.val "pi_1") "s1" demoCart_WF
    (by decide)).1

/-- Every call of `/api/confirm-payment` for an intent id that is already
recorded leaves `payments` as it was. -/
theorem confirmPayment_recorded {stripe : Processor} {st : Store} {req : ConfirmRequest}
    {i : String} (hlen : i.length ≤ 255)
    (hret : ∀ paymentIntent, stripe.retrieve req.paymentIntentId = .ok paymentIntent →
      paymentIntent.id = i)
    (hrec : ∃ r ∈ st.payments, r.payment_intent_id = i) :
    (confirmPayment stripe st req).1.payments = st.payments := by
  unfold confirmPayment
  cases hr : stripe.retrieve req.paymentIntentId with
  | error message => rfl
  | ok paymentIntent =>
    simp only
    cases hrows : cartRows st req.sessionId with
    | error e => rfl
    | ok rows =>
      simp only
      cases hins : insertPayment st paymentIntent req.sessionId (snapshotOf rows) with
      | mk st1 res =>
        cases res with
        | error e => exact (insertPayment_error hins).1
        | ok payment =>
          exfalso
          obtain ⟨_, _, h3, h4⟩ := insertPayment_ok hins
          rw [hret paymentIntent hr, toVarchar_of_length_le hlen] at h3
          simp only [Except.ok.injEq] at h3
          obtain ⟨r, hr1, hr2⟩ := hrec
          exact h4 r hr1 (hr2.trans h3)

/-- The 200 answer of `/api/confirm-payment`: with values that fit, a session
key that fits, a key sequence that is not exhausted and an intent not yet
recorded, the row is appended and the cart of the session emptied. -/
theorem confirmPayment_fresh {stripe : Processor} {st : Store} {i : JsField String}
    {s : String} {paymentIntent : PaymentIntent} (hwf : st.WF)
    (hret : stripe.retrieve i = .ok paymentIntent) (hfit : paymentIntent.fits)
    (hs : textFits 255 s) (hseq : st.payments_id_seq < int4Max)
    (hnew : ∀ r ∈ st.payments, r.payment_intent_id ≠ paymentIntent.id) :
    confirmPayment stripe st ⟨i, .val s⟩ =
      (withoutCart { st with
          payments_id_seq := st.payments_id_seq + 1
          payments := st.payments ++
            [paymentRow st paymentIntent s (snapshotOf (joinRows st (some s)))] } s,
        ⟨200, .confirmed (paymentRow st paymentIntent s (snapshotOf (joinRows st (some s))))
          (snapshotOf (joinRows st (some s)))⟩, [.retrieve i]) := by
  have hins := insertPayment_fresh hwf hfit hs hseq hnew (snapshotOf (joinRows st (some s)))
  have hwf1 := insertPayment_WF hwf paymentIntent (.val s) (snapshotOf (joinRows st (some s)))
  rw [hins] at hwf1
  unfold confirmPayment
  simp only [hret, cartRows_val hs.2, hins, clearCart_eq hwf1 hs.2]

/-- C4, as stated, fails: on the one-product catalog, where intent `pi_1` is not
recorded, a first confirmation of `pi_1` without a session key is answered 500
and records nothing; a second one without a session key leaves no row for
`pi_1` either, and a second one with session key `s1` is the call that creates
the row. -/
theorem confirmPayment_twice_absent_key :
    (confirmPayment demoProcessor demoStore ⟨.val "pi_1", .undefined⟩).2.1.status = 500 ∧
    (confirmPayment demoProcessor demoStore ⟨.val "pi_1", .undefined⟩).1.payments = [] ∧
    (confirmPayment demoProcessor
      (confirmPayment demoProcessor demoStore ⟨.val "pi_1", .undefined⟩).1
      ⟨.val "pi_1", .undefined⟩).1.payments = [] ∧
    ((confirmPayment demoProcessor
      (confirmPayment demoProcessor demoStore ⟨.val "pi_1", .undefined⟩).1
      ⟨.val "pi_1", .val "s1"⟩).1.payments.filter
        (fun r => decide (r.payment_intent_id = "pi_1"))).length = 1 := by
  decide

/-- C4 (amended): let the processor answer the lookup of intent id `i` with an
intent of that id whose values fit the columns of `payments`, let `i` be not yet
recorded in a well-formed store and let a value be left in the key sequence of
`payments`.  The first `POST /api/confirm-payment` for `i`, with a session key
without U+0000 that fits its column, appends exactly one row for `i`; a second
one for `i`, on any store with the same `payments` table, with any session key
and whatever the processor then reports for `i`, adds none: exactly one row for
`i` is left. -/
theorem confirmPayment_twice (stripe stripe2 : Processor) (st mid : Store) (i s : String)
    (sessionId2 : JsField String) (paymentIntent : PaymentIntent) (hwf : st.WF)
    (hret : stripe.retrieve (.val i) = .ok paymentIntent) (hid : paymentIntent.id = i)
    (hfit : paymentIntent.fits) (hs : textFits 255 s)
    (hseq : st.payments_id_seq < int4Max)
    (hnew : ∀ r ∈ st.payments, r.payment_intent_id ≠ i)
    (hmid : mid.payments = (confirmPayment stripe st ⟨.val i, .val s⟩).1.payments)
    (hret2 : ∀ paymentIntent2, stripe2.retrieve (.val i) = .ok paymentIntent2 →
      paymentIntent2.id = i) :
    (∃ row, row.payment_intent_id = i ∧
      (confirmPayment stripe st ⟨.val i, .val s⟩).1.payments = st.payments ++ [row]) ∧
    (confirmPayment stripe2 mid ⟨.val i, sessionId2⟩).1.payments = mid.payments ∧
    ((confirmPayment stripe2 mid ⟨.val i, sessionId2⟩).1.payments.filter
      (fun r => decide (r.payment_intent_id = i))).length = 1 := by
  have hfirst : (confirmPayment stripe st ⟨.val i, .val s⟩).1.payments =
      st.payments ++ [paymentRow st paymentIntent s (snapshotOf (joinRows st (some s)))] := by
    rw [confirmPayment_fresh hwf hret hfit hs hseq (by rw [hid]; exact hnew)]
    rfl
  have hlen : i.length ≤ 255 := by rw [← hid]; exact hfit.2.1.1
  have hsecond : (confirmPayment stripe2 mid ⟨.val i, sessionId2⟩).1.payments = mid.payments :=
    confirmPayment_recorded hlen hret2
      ⟨paymentRow st paymentIntent s (snapshotOf (joinRows st (some s))),
        by rw [hmid, hfirst]; simp, hid⟩
  refine ⟨⟨_, ?_, hfirst⟩, hsecond, ?_⟩
  · exact hid
  · rw [hsecond, hmid, hfirst, List.filter_append]
    have h0 : st.payments.filter (fun r => decide (r.payment_intent_id = i)) = [] := by
      rw [List.filter_eq_nil_iff]
      intro r hr
      simpa using hnew r hr
    rw [h0]
    simp [paymentRow, hid]

/-- Witness of C4 (amended): intent `pi_1` confirmed twice by session `s1`. -/
theorem confirmPayment_twice_witness :
    ((confirmPayment demoProcessor
        (confirmPayment demoProcessor (addItem demoStore ⟨.val "s1", .val 1, .val 2⟩).1
          ⟨.val "pi_1", .val "s1"⟩).1 ⟨.val "pi_1", .val "s1"⟩).1.payments.filter
      (fun r => decide (r.payment_intent_id = "pi_1"))).length = 1 :=
  (confirmPayment_twice demoProcessor demoProcessor
    (addItem demoStore ⟨.val "s1", .val 1, .val 2⟩).1
    (confirmPayment demoProcessor (addItem demoStore ⟨.val "s1", .val 1, .val 2⟩).1
      ⟨.val "pi_1", .val "s1"⟩).1 "pi_1" "s1" (.val "s1")
    ⟨"pi_1", "pi_1_secret", 400000, "zar", "succeeded", .undefined⟩ demoCart_WF rfl rfl
    ⟨by decide, by decide, by decide, by decide, by intro e h; simp [orNull] at h⟩
    (by decide) (by decide) (by decide) rfl
    (by intro paymentIntent2 h; simp only [demoProcessor, if_true] at h; cases h; rfl)).2.2

/-- C2, as stated, fails: for a cart of 2147483647 units of a product priced
99999999.99 the `total` of `GET /api/cart/:sessionId` is
"214748364678525152.00", whereas the sum of price times quantity is
214748364678525163.53; and for a session key that holds U+0000, which has no
cart, the answer is the 500 error. -/
theorem getCart_total_inexact :
    (getCart bulkStore "s1").total = some "214748364678525152.00" ∧
    totalCents (joinRows bulkStore (some "s1")) = 21474836467852516353 ∧
    decimal2 21474836467852516353 = "214748364678525163.53" ∧
    getCart demoStore nulKey = ⟨500, .error "Internal server error"⟩ := by
  refine ⟨?_, by decide, by decide, by decide⟩
  have hfixed : toFixed2 214748364678525152 =
      some (decimal2 (21474836467852515200 : ℤ).toNat) :=
    toFixed2_eq (by norm_num) (by norm_num) (by norm_num)
  rw [getCart_total_singleton cartRows_bulk, parseFloatDecimal_bulk, jsMul_bulk, jsAdd_bulk,
    hfixed]
  decide

/-- C2 (amended): for a session key without U+0000 (not empty, as it is a path
segment), `GET /api/cart/:sessionId` answers 200 with no items, total "0.00" and
count 0 when the key has no cart.
For a cart whose rows have
non-negative prices and quantities, with the number of rows (plus one) times
four times the exact total in hundredths (plus 400) at most `2 ^ 51` and fewer
than `2 ^ 53` units in all, it answers 200 with one item per row, `total` the
exact sum of price times quantity written with two fractional digits, and
`count` the sum of the quantities.  On a well-formed store the rows are the line
items of the session, in their order, each with the product it references. -/
theorem getCart_total_and_count (st : Store) (s : String) (_hs : s ≠ "")
    (hnul : hasNul s = false) :
    ((∀ c ∈ st.carts, c.session_id ≠ s) → getCart st s = ⟨200, .cart [] (some "0.00") 0⟩) ∧
    ((∀ row ∈ joinRows st (some s), 0 ≤ row.2.price ∧ 0 ≤ row.1.quantity) →
      (((joinRows st (some s)).length : ℤ) + 1) *
        (4 * totalCents (joinRows st (some s)) + 400) ≤ 2 ^ 51 →
      totalCount (joinRows st (some s)) < 2 ^ 53 →
      getCart st s = ⟨200, .cart ((joinRows st (some s)).map cartLine)
        (some (decimal2 (totalCents (joinRows st (some s))).toNat))
        (totalCount (joinRows st (some s)))⟩) ∧
    (st.WF → (joinRows st (some s)).map Prod.fst = linesOf st s) ∧
    (∀ row ∈ joinRows st (some s),
      row.2 ∈ st.products ∧ row.1.product_id = some row.2.id) := by
  refine ⟨?_, ?_, fun hwf => joinRows_map_fst hwf s, fun row hrow => (mem_joinRows hrow).2⟩
  · intro hno
    have hrows : joinRows st (some s) = [] := joinRows_eq_nil (linesOf_eq_nil_of_no_cart hno)
    have hfixed : toFixed2 0 = some (decimal2 (0 : ℤ).toNat) :=
      toFixed2_eq (le_refl _) (by norm_num) (by norm_num)
    unfold getCart
    simp only [cartRows_val hnul, hrows, List.map_nil, List.foldl_nil, hfixed]
    rfl
  · intro hnn hbound hcount
    unfold totalCents at hbound ⊢
    obtain ⟨hclose, htotal0⟩ := total_close (fun row : CartItem × Product => row.2.price)
      (fun row => row.1.quantity) (joinRows st (some s)) hnn hbound
    have hT0 := exactCents_nonneg (fun row : CartItem × Product => row.2.price)
      (fun row => row.1.quantity) (joinRows st (some s)) hnn
    have hT0q : (0 : ℚ) ≤ ((exactCents (fun row : CartItem × Product => row.2.price)
        (fun row => row.1.quantity) (joinRows st (some s)) : ℤ) : ℚ) := by exact_mod_cast hT0
    have hb : (((joinRows st (some s)).length : ℚ) + 1) *
        (4 * ((exactCents (fun row : CartItem × Product => row.2.price)
          (fun row => row.1.quantity) (joinRows st (some s)) : ℤ) : ℚ) + 400) ≤ 2 ^ 51 := by
      exact_mod_cast hbound
    have hlen0 : (0 : ℚ) ≤ ((joinRows st (some s)).length : ℚ) := by positivity
    have hquarter : ((joinRows st (some s)).length : ℚ) *
        (4 * ((exactCents (fun row : CartItem × Product => row.2.price)
          (fun row => row.1.quantity) (joinRows st (some s)) : ℤ) : ℚ) + 400) / 2 ^ 53 ≤
        1 / 4 := by
      rw [div_le_iff₀ (by norm_num)]
      nlinarith
    have hclose2 := le_trans hclose hquarter
    have hTle : ((exactCents (fun row : CartItem × Product => row.2.price)
        (fun row => row.1.quantity) (joinRows st (some s)) : ℤ) : ℚ) ≤ 2 ^ 51 := by nlinarith
    have hlt : (joinRows st (some s)).foldl (fun sum row =>
        jsAdd sum (jsMul (parseFloatDecimal row.2.price) row.1.quantity)) 0 < 10 ^ 21 := by
      have := (abs_le.1 hclose2).2
      norm_num at hTle this ⊢
      linarith
    have hfixed := toFixed2_eq htotal0 hlt hclose2
    have hcnt := foldl_count (fun row : CartItem × Product => row.1.quantity)
      (joinRows st (some s)) 0 (fun r hr => (hnn r hr).2) (le_refl _)
      (by rw [zero_add]; exact hcount)
    rw [zero_add, Int.cast_zero] at hcnt
    unfold getCart
    simp only [cartRows_val hnul, List.foldl_map, cartLine]
    rw [hfixed, hcnt]
    rfl

/-- Witness of C2 (amended): two units of a product priced 2000.00. -/
theorem getCart_total_and_count_witness :
    (getCart (addItem demoStore ⟨.val "s1", .val 1, .val 2⟩).1 "s1").total =
      some "4000.00" := by
  rw [(getCart_total_and_count (addItem demoStore ⟨.val "s1", .val 1, .val 2⟩).1 "s1"
    (by decide) (by decide)).2.1 (by decide) (by decide) (by decide)]
  decide

/-- C5, as stated, fails: for a cart of 2147483647 units of a product priced
99999999.99 the amount requested from the processor is 21474836467852513280,
whereas the sum of price times quantity is 21474836467852516353 hundredths. -/
theorem createPaymentIntent_amount_inexact :
    (createPaymentIntent demoProcessor bulkStore ⟨.val "s1", .undefined⟩).2.2 =
      [.create ⟨21474836467852513280, "zar", .val "s1", .undefined, .undefined⟩] ∧
    totalCents (joinRows bulkStore (some "s1")) = 21474836467852516353 := by
  refine ⟨?_, by decide⟩
  have hround : mathRound 21474836467852513280 = 21474836467852513280 := by
    unfold mathRound
    exact floor_add_half_eq (by norm_num)
  rw [createPaymentIntent_calls demoProcessor bulkStore .undefined (by decide) (by decide)
    (by rw [joinRows_bulk]; simp), joinRows_bulk, amountInCents_singleton,
    parseFloatDecimal_bulk, jsMul_bulk, jsAdd_bulk, jsMul_bulk_hundred, hround]

/-- C5 (amended): for a non-empty session key whose cart query returns rows,
all with non-negative prices and quantities, with the number of rows (plus one)
times four times the exact total in hundredths (plus 400) at most `2 ^ 51`,
`POST /api/create-payment-intent` makes one call to the processor, for the exact
sum of price times quantity in hundredths and currency `zar`, tagged with the
session key and the customer email. -/
theorem createPaymentIntent_amount (stripe : Processor) (st : Store) (s : String)
    (email : JsField String) (rows : List (CartItem × Product)) (hs : s ≠ "")
    (hquery : cartRows st (.val s) = .ok rows) (hrows : rows ≠ [])
    (hnn : ∀ row ∈ rows, 0 ≤ row.2.price ∧ 0 ≤ row.1.quantity)
    (hbound : ((rows.length : ℤ) + 1) * (4 * totalCents rows + 400) ≤ 2 ^ 51) :
    (createPaymentIntent stripe st ⟨.val s, email⟩).2.2 =
      [.create ⟨totalCents rows, "zar", .val s, email, email⟩] := by
  obtain ⟨hnul, hjoin⟩ := cartRows_ok_val hquery
  subst hjoin
  have hamount : amountInCents (joinRows st (some s)) = totalCents (joinRows st (some s)) :=
    amount_eq (fun row : CartItem × Product => row.2.price) (fun row => row.1.quantity)
      (joinRows st (some s)) hnn hbound
  rw [createPaymentIntent_calls stripe st email hs hnul hrows, hamount]

/-- Witness of C5 (amended): two units of a product priced 2000.00 give the
amount 400000. -/
theorem createPaymentIntent_amount_witness :
    (createPaymentIntent demoProcessor (addItem demoStore ⟨.val "s1", .val 1, .val 2⟩).1
      ⟨.val "s1", .undefined⟩).2.2 =
      [.create ⟨400000, "zar", .val "s1", .undefined, .undefined⟩] :=
  createPaymentIntent_amount demoProcessor (addItem demoStore ⟨.val "s1", .val 1, .val 2⟩).1
    "s1" .undefined [(⟨1, some 1, some 1, 2⟩, ⟨1, "Design",
      some "Professional design services for your business", 200000⟩)] (by decide)
    (by rw [cartRows_val (by decide)]; congr 1) (by decide) (by decide) (by decide)

/-! ## Claims on `getOrCreateCart` -/

/-- A value longer than the column, with a character other than a space in the
excess, is refused. -/
theorem toVarchar_too_long {n : Nat} {s : String} (hlen : ¬ s.length ≤ n)
    (hexcess : (s.data.drop n).all (fun c => c == ' ') = false) :
    toVarchar n s = .error .stringDataRightTruncation := by
  unfold toVarchar
  rw [if_neg hlen, String.all_eq, String.data_drop, hexcess]
  simp

theorem toVarchar_longKey : toVarchar 255 longKey = .error .stringDataRightTruncation := by
  apply toVarchar_too_long
  · show ¬ (List.replicate 256 'a').length ≤ 255
    rw [List.length_replicate]
    decide
  · show ((List.replicate 256 'a').drop 255).all (fun c => c == ' ') = false
    rw [List.drop_replicate]
    decide

theorem hasNul_longKey : hasNul longKey = false := by
  unfold hasNul longKey
  rw [Bool.eq_false_iff, Ne, List.contains_iff_exists_mem_beq]
  rintro ⟨c, hc, hc2⟩
  rw [List.mem_replicate] at hc
  rw [hc.2] at hc2
  exact absurd hc2 (by decide)

theorem cartsOf_eq_filter (st : Store) (s : String) :
    cartsOf st (some s) = st.carts.filter (fun c => decide (c.session_id = s)) := rfl

/-- C11, as stated, fails: for a session key of 256 characters on a store
without carts, both calls of `getOrCreateCart` raise a database error (the key
does not fit `session_id VARCHAR(255)`): no cart is returned and no row of
`carts` has that key afterwards; and for a key that holds U+0000 the first
statement of `getOrCreateCart` raises already. -/
theorem getOrCreateCart_long_key :
    (getOrCreateCart demoStore (.val longKey)).2.toOption = none ∧
    (getOrCreateCart (getOrCreateCart demoStore (.val longKey)).1 (.val longKey)).2.toOption =
      none ∧
    (getOrCreateCart (getOrCreateCart demoStore (.val longKey)).1 (.val longKey)).1.carts =
      [] ∧
    (getOrCreateCart demoStore (.val nulKey)).2.toOption = none := by
  have h1 : getOrCreateCart demoStore (.val longKey) =
      (demoStore, .error .stringDataRightTruncation) := by
    unfold getOrCreateCart
    rw [selectCartsBySession_val hasNul_longKey]
    have hnone : cartsOf demoStore (some longKey) = [] := rfl
    rw [hnone]
    simp only [insertCart, bindText_val hasNul_longKey, toVarcharOpt, toVarchar_longKey,
      Except.map]
  rw [h1]
  simp only
  rw [h1]
  refine ⟨rfl, rfl, rfl, ?_⟩
  rw [getOrCreateCart_nul (by decide)]
  rfl

/-- C11 (amended): on a well-formed store with a value left in the key sequence
of `carts`, for a session key without U+0000 of at most 255 characters, two
calls of `getOrCreateCart` in sequence return the same cart, a
cart of that session key; the second call leaves the store as the first left
it; afterwards exactly one row of `carts` has the session key, the cart
returned; and when a cart for the key existed before, the first call leaves
the store as it was. -/
theorem getOrCreateCart_twice (st : Store) (s : String) (hwf : st.WF)
    (hfit : textFits 255 s) (hseq : st.carts_id_seq < int4Max) :
    (getOrCreateCart (getOrCreateCart st (.val s)).1 (.val s)).2.toOption =
      (getOrCreateCart st (.val s)).2.toOption ∧
    (getOrCreateCart st (.val s)).2.toOption.map (fun c => c.session_id) = some s ∧
    (getOrCreateCart (getOrCreateCart st (.val s)).1 (.val s)).1 =
      (getOrCreateCart st (.val s)).1 ∧
    ((getOrCreateCart st (.val s)).1.carts.filter
      (fun c => decide (c.session_id = s))).length = 1 ∧
    ((getOrCreateCart st (.val s)).1.carts.filter
      (fun c => decide (c.session_id = s))).head? =
      (getOrCreateCart st (.val s)).2.toOption ∧
    ((∃ c ∈ st.carts, c.session_id = s) → (getOrCreateCart st (.val s)).1 = st) := by
  rcases cartsOf_cases hwf s with h | ⟨c, h⟩
  · have hg := getOrCreateCart_new hwf hfit.2 hfit.1 hseq h
    have hsel : cartsOf ({ st with
          carts_id_seq := st.carts_id_seq + 1
          carts := st.carts ++ [(⟨st.carts_id_seq + 1, s⟩ : Cart)] } : Store) (some s) =
        [⟨st.carts_id_seq + 1, s⟩] := by
      rw [cartsOf_eq_filter]
      show List.filter _ (st.carts ++ [(⟨st.carts_id_seq + 1, s⟩ : Cart)]) = _
      rw [List.filter_append, ← cartsOf_eq_filter, h]
      simp
    have hg2 := getOrCreateCart_existing hfit.2 hsel
    have hf : List.filter (fun c => decide (c.session_id = s))
        (st.carts ++ [(⟨st.carts_id_seq + 1, s⟩ : Cart)]) = [⟨st.carts_id_seq + 1, s⟩] := hsel
    rw [hg]
    simp only
    rw [hg2]
    refine ⟨rfl, rfl, rfl, ?_, ?_, ?_⟩
    · rw [hf]
      rfl
    · rw [hf]
      rfl
    · rintro ⟨d, hd, hds⟩
      have : d ∈ cartsOf st (some s) := mem_cartsOf.2 ⟨hd, hds⟩
      rw [h] at this
      simp at this
  · have hc : c ∈ st.carts ∧ c.session_id = s :=
      mem_cartsOf.1 (by rw [h]; simp)
    have hg := getOrCreateCart_existing hfit.2 h
    rw [hg]
    simp only
    rw [hg]
    refine ⟨rfl, by simp [Except.toOption, hc.2], rfl, ?_, ?_, fun _ => trivial⟩
    · show (st.carts.filter (fun c => decide (c.session_id = s))).length = 1
      rw [← cartsOf_eq_filter, h]
      rfl
    · show (st.carts.filter (fun c => decide (c.session_id = s))).head? = _
      rw [← cartsOf_eq_filter, h]
      rfl

/-- Witness of C11 (amended): session `s1` on a store without carts. -/
theorem getOrCreateCart_twice_witness :
    ((getOrCreateCart demoStore (.val "s1")).1.carts.filter
      (fun c => decide (c.session_id = "s1"))).length = 1 :=
  (getOrCreateCart_twice demoStore "s1" demoStore_WF (by decide) (by decide)).2.2.2.1

/-! ## Claims on failing and unconditional confirmations -/

/-- C19: when `POST /api/confirm-payment` fails because the processor lookup
fails, or because the intent the processor reports (its id fitting the column)
is already recorded in `payments`, the answer has status 500 and the store is as
it was, the key counter of `payments` apart: no row of `cart_items` is deleted
and no row of `payments` is added or changed. -/
theorem confirmPayment_failure_keeps_rows (stripe : Processor) (st : Store)
    (req : ConfirmRequest)
    (hcause : (∃ message, stripe.retrieve req.paymentIntentId = .error message) ∨
      ∃ paymentIntent, stripe.retrieve req.paymentIntentId = .ok paymentIntent ∧
        paymentIntent.id.length ≤ 255 ∧
        ∃ r ∈ st.payments, r.payment_intent_id = paymentIntent.id) :
    (confirmPayment stripe st req).2.1.status = 500 ∧
    (confirmPayment stripe st req).1 =
      { st with payments_id_seq := (confirmPayment stripe st req).1.payments_id_seq } ∧
    (confirmPayment stripe st req).1.cart_items = st.cart_items ∧
    (confirmPayment stripe st req).1.payments = st.payments := by
  have key : (confirmPayment stripe st req).2.1.status = 500 ∧
      (confirmPayment stripe st req).1 =
        { st with payments_id_seq := (confirmPayment stripe st req).1.payments_id_seq } := by
    unfold confirmPayment
    rcases hcause with ⟨message, hr⟩ | ⟨paymentIntent, hr, hlen, r, hr1, hr2⟩
    · rw [hr]
      exact ⟨rfl, rfl⟩
    · rw [hr]
      simp only
      cases hrows : cartRows st req.sessionId with
      | error e => exact ⟨rfl, rfl⟩
      | ok rows =>
        simp only
        cases hins : insertPayment st paymentIntent req.sessionId (snapshotOf rows) with
        | mk st1 res =>
          cases res with
          | error e => exact ⟨rfl, (insertPayment_error_frame hins).1⟩
          | ok payment =>
            exfalso
            obtain ⟨_, _, h3, h4⟩ := insertPayment_ok hins
            rw [toVarchar_of_length_le hlen] at h3
            simp only [Except.ok.injEq] at h3
            exact h4 r hr1 (hr2.trans h3)
  refine ⟨key.1, key.2, ?_, ?_⟩
  · rw [key.2]
  · rw [key.2]

/-- Witness of C19: session `s1` confirms intent `pi_1`, which is recorded. -/
theorem confirmPayment_failure_keeps_rows_witness :
    (confirmPayment demoProcessor recordedStore ⟨.val "pi_1", .val "s1"⟩).1.cart_items =
      recordedStore.cart_items :=
  (confirmPayment_failure_keeps_rows demoProcessor recordedStore ⟨.val "pi_1", .val "s1"⟩
    (Or.inr ⟨⟨"pi_1", "pi_1_secret", 400000, "zar", "succeeded", .undefined⟩, rfl, by decide,
      ⟨1, "pi_1", "s1", 400000, "zar", "succeeded", none, some []⟩,
      List.mem_singleton.2 rfl, rfl⟩)).2.2.1

/-- C18: the status the processor reports plays no part in
`POST /api/confirm-payment`.  Whatever the status of the intent the lookup
returns (the reported id, amount, currency, status and customer email fitting
the columns of `payments`, the intent not yet recorded, the session key without
U+0000 and fitting its column, a value left in the key sequence, the store well
formed), the handler answers 200, appends to `payments` one row carrying the
amount, currency and status of the processor and the customer email of the
metadata when there is a non-empty one, `NULL` otherwise, deletes every line
item of the session and keeps every other line item. -/
theorem confirmPayment_any_status (stripe : Processor) (st : Store) (i : JsField String)
    (s : String) (paymentIntent : PaymentIntent) (email : Option String) (hwf : st.WF)
    (hret : stripe.retrieve i = .ok paymentIntent)
    (hamount : isInt4 paymentIntent.amount) (hid : textFits 255 paymentIntent.id)
    (hcurrency : textFits 3 paymentIntent.currency)
    (hstatus : textFits 50 paymentIntent.status)
    (hemail : (∃ e, paymentIntent.metadata_customer_email = .val e ∧ e ≠ "" ∧
        textFits 255 e ∧ email = some e) ∨
      ((paymentIntent.metadata_customer_email = .undefined ∨
        paymentIntent.metadata_customer_email = .null ∨
        paymentIntent.metadata_customer_email = .val "") ∧ email = none))
    (hs : textFits 255 s) (hseq : st.payments_id_seq < int4Max)
    (hnew : ∀ r ∈ st.payments, r.payment_intent_id ≠ paymentIntent.id) :
    (confirmPayment stripe st ⟨i, .val s⟩).2.1 =
      ⟨200, .confirmed ⟨st.payments_id_seq + 1, paymentIntent.id, s, paymentIntent.amount,
          paymentIntent.currency, paymentIntent.status, email,
          some (snapshotOf (joinRows st (some s)))⟩
        (snapshotOf (joinRows st (some s)))⟩ ∧
    (confirmPayment stripe st ⟨i, .val s⟩).1.payments =
      st.payments ++ [⟨st.payments_id_seq + 1, paymentIntent.id, s, paymentIntent.amount,
        paymentIntent.currency, paymentIntent.status, email,
        some (snapshotOf (joinRows st (some s)))⟩] ∧
    linesOf (confirmPayment stripe st ⟨i, .val s⟩).1 s = [] ∧
    (confirmPayment stripe st ⟨i, .val s⟩).1.cart_items =
      st.cart_items.filter (fun ci => !decide (ci ∈ linesOf st s)) := by
  have horNull : orNull paymentIntent.metadata_customer_email = email := by
    rcases hemail with ⟨e, he, hne, _, hmail⟩ | ⟨h | h | h, hmail⟩
    · rw [he, hmail]
      simp [orNull, hne]
    · rw [h, hmail]
      rfl
    · rw [h, hmail]
      rfl
    · rw [h, hmail]
      rfl
  have hfit : paymentIntent.fits := by
    refine ⟨hamount, hid, hcurrency, hstatus, ?_⟩
    intro e he
    rw [horNull] at he
    rcases hemail with ⟨e2, _, _, hfit2, hmail⟩ | ⟨_, hmail⟩
    · rw [hmail] at he
      simp only [Option.some.injEq] at he
      rw [← he]
      exact hfit2
    · rw [hmail] at he
      simp at he
  rw [confirmPayment_fresh hwf hret hfit hs hseq hnew]
  unfold paymentRow
  rw [horNull]
  exact ⟨rfl, rfl, linesOf_withoutCart _ s, rfl⟩

/-- Witness of C18: the processor reports the intent as canceled, with a
customer email in its metadata. -/
theorem confirmPayment_any_status_witness :
    (confirmPayment canceledProcessor (addItem demoStore ⟨.val "s1", .val 1, .val 2⟩).1
      ⟨.val "pi_1", .val "s1"⟩).1.payments =
      [⟨1, "pi_1", "s1", 400000, "zar", "canceled", some "ann@example.com",
        some [⟨1, "Design", 200000, 2, 400000⟩]⟩] :=
  (confirmPayment_any_status canceledProcessor
    (addItem demoStore ⟨.val "s1", .val 1, .val 2⟩).1 (.val "pi_1") "s1"
    ⟨"pi_1", "pi_1_secret", 400000, "zar", "canceled", .val "ann@example.com"⟩
    (some "ann@example.com") demoCart_WF rfl (by decide) (by decide) (by decide) (by decide)
    (Or.inl ⟨"ann@example.com", rfl, by decide, by decide, rfl⟩)
    (by decide) (by decide) (by decide)).2.1

/-- C15, as stated, fails: on a store where intent `pi_1` is recorded, the
second confirmation of `pi_1`, the confirmation of an intent the processor does
not know, and a confirmation of `pi_1` that carries no session key are all
answered with status 500 and a body `{ error: err.message }`.  The answer to the
duplicate has the status and the shape of the answer to any other failure. -/
theorem confirmPayment_duplicate_is_generic :
    (confirmPayment demoProcessor recordedStore ⟨.val "pi_1", .val "s1"⟩).2.1 =
      ⟨500, .errorOf (.db .uniqueViolation)⟩ ∧
    (confirmPayment demoProcessor recordedStore ⟨.val "pi_2", .val "s1"⟩).2.1 =
      ⟨500, .errorOf (.processor "No such payment_intent")⟩ ∧
    (confirmPayment demoProcessor recordedStore ⟨.val "pi_1", .null⟩).2.1 =
      ⟨500, .errorOf (.db .notNullViolation)⟩ := by
  decide

/-- C15 (amended): a confirmation of an intent that is already recorded (the
values the processor reports fitting the columns, the session key without U+0000
and fitting its column, a value left in the key sequence of `payments`) is
answered with status 500 and the message of the unique violation the insert
raised, and `payments` is left as it was; and every answer of
`POST /api/confirm-payment` other than the 200 one has status 500 and such a
body, so the duplicate differs from another failure in the message text
alone. -/
theorem confirmPayment_duplicate (stripe : Processor) (st : Store) (i : JsField String)
    (s : String) (paymentIntent : PaymentIntent)
    (hret : stripe.retrieve i = .ok paymentIntent) (hfit : paymentIntent.fits)
    (hs : textFits 255 s) (hseq : st.payments_id_seq < int4Max)
    (hrec : ∃ r ∈ st.payments, r.payment_intent_id = paymentIntent.id) :
    (confirmPayment stripe st ⟨i, .val s⟩).2.1 = ⟨500, .errorOf (.db .uniqueViolation)⟩ ∧
    (confirmPayment stripe st ⟨i, .val s⟩).1.payments = st.payments ∧
    ∀ (stripe2 : Processor) (st2 : Store) (req2 : ConfirmRequest),
      (confirmPayment stripe2 st2 req2).2.1.status = 200 ∨
      ((confirmPayment stripe2 st2 req2).2.1.status = 500 ∧
        ∃ cause, (confirmPayment stripe2 st2 req2).2.1.body = .errorOf cause) := by
  have hins := insertPayment_recorded hfit hs hseq hrec (snapshotOf (joinRows st (some s)))
  have hall : confirmPayment stripe st ⟨i, .val s⟩ =
      ({ st with payments_id_seq := st.payments_id_seq + 1 },
        ⟨500, .errorOf (.db .uniqueViolation)⟩, [.retrieve i]) := by
    unfold confirmPayment
    simp only [hret, cartRows_val hs.2, hins]
  rw [hall]
  refine ⟨rfl, rfl, ?_⟩
  intro stripe2 st2 req2
  unfold confirmPayment
  split
  · exact Or.inr ⟨rfl, _, rfl⟩
  · split
    · exact Or.inr ⟨rfl, _, rfl⟩
    · simp only
      split
      · exact Or.inr ⟨rfl, _, rfl⟩
      · split
        · exact Or.inr ⟨rfl, _, rfl⟩
        · exact Or.inl rfl

/-- Witness of C15 (amended): session `s1` confirms intent `pi_1`, which is
recorded. -/
theorem confirmPayment_duplicate_witness :
    (confirmPayment demoProcessor recordedStore ⟨.val "pi_1", .val "s1"⟩).1.payments =
      recordedStore.payments :=
  (confirmPayment_duplicate demoProcessor recordedStore (.val "pi_1") "s1"
    ⟨"pi_1", "pi_1_secret", 400000, "zar", "succeeded", .undefined⟩ rfl
    ⟨by decide, by decide, by decide, by decide, by intro e h; simp [orNull] at h⟩
    (by decide) (by decide)
    ⟨⟨1, "pi_1", "s1", 400000, "zar", "succeeded", none, some []⟩,
      List.mem_singleton.2 rfl, rfl⟩).2.1

/-! ## Claims on the quantities of line items -/

theorem QuantitiesPositive_filter {st : Store} (hpos : st.QuantitiesPositive)
    (P : CartItem → Bool) :
    ({ st with cart_items := st.cart_items.filter P } : Store).QuantitiesPositive := by
  intro ci hci
  exact hpos ci (List.mem_filter.1 hci).1

theorem QuantitiesPositive_setQuantity {st : Store} (hpos : st.QuantitiesPositive)
    (P : CartItem → Bool) {q : Int} (hq : 0 < q) :
    ({ st with cart_items := st.cart_items.map (fun ci =>
        if P ci then { ci with quantity := q } else ci) } : Store).QuantitiesPositive := by
  intro ci hci
  have hci2 : ci ∈ st.cart_items.map (fun ci =>
      if P ci then { ci with quantity := q } else ci) := hci
  rw [List.mem_map] at hci2
  obtain ⟨old, hold, rfl⟩ := hci2
  split
  · exact hq
  · exact hpos old hold

/-- `DELETE /api/cart/remove` keeps every quantity positive. -/
theorem removeItem_QuantitiesPositive {st : Store} (hpos : st.QuantitiesPositive)
    (req : CartRequest) : (removeItem st req).1.QuantitiesPositive := by
  unfold removeItem
  split
  · exact hpos
  · rename_i st1 h
    obtain ⟨P, rfl⟩ := deleteCartItem_ok h
    exact QuantitiesPositive_filter hpos _

/-- `PUT /api/cart/update` keeps every quantity positive, unless the quantity is
sent as the string "0", which is stored. -/
theorem updateQuantity_QuantitiesPositive {st : Store} (hpos : st.QuantitiesPositive)
    (req : CartRequest) (hq : req.quantity ≠ .str 0) :
    (updateQuantity st req).1.QuantitiesPositive := by
  unfold updateQuantity
  split
  · exact hpos
  · rename_i hguard
    split
    · split
      · exact hpos
      · rename_i st1 h
        obtain ⟨P, rfl⟩ := deleteCartItem_ok h
        exact QuantitiesPositive_filter hpos _
    · rename_i hzero
      split
      · exact hpos
      · rename_i st1 h
        rcases updateCartItem_ok h with rfl | ⟨P, q, hbind, rfl⟩
        · exact hpos
        · apply QuantitiesPositive_setQuantity hpos
          simp only [Bool.or_eq_true, not_or] at hguard
          cases hreq : req.quantity with
          | undefined => simp [hreq, bindInt4] at hbind
          | null => simp [hreq, bindInt4] at hbind
          | val n =>
            rw [hreq] at hbind hguard hzero
            have hn : n = q := by
              by_cases h4 : isInt4 n
              · rw [bindInt4_val h4] at hbind
                simpa using hbind
              · rw [bindInt4_val_error h4] at hbind
                simp at hbind
            subst hn
            simp only [ltZero, strictEqZero, decide_eq_true_eq, not_lt] at hguard hzero
            omega
          | str n =>
            rw [hreq] at hbind hguard hq
            have hn : n = q := by
              by_cases h4 : isInt4 n
              · rw [bindInt4_str h4] at hbind
                simpa using hbind
              · rw [bindInt4_str_error h4] at hbind
                simp at hbind
            subst hn
            simp only [ltZero, decide_eq_true_eq, not_lt] at hguard
            have hn0 : n ≠ 0 := fun h0 => hq (by rw [h0])
            omega

/-- The string "0" as quantity is neither negative nor strictly equal to the
number 0: `PUT /api/cart/update` stores it. -/
theorem updateQuantity_str_zero :
    (updateQuantity (addItem demoStore ⟨.val "s1", .val 1, .val 2⟩).1
      ⟨.val "s1", .val 1, .str 0⟩).2.status = 200 ∧
    (updateQuantity (addItem demoStore ⟨.val "s1", .val 1, .val 2⟩).1
      ⟨.val "s1", .val 1, .str 0⟩).1.cart_items = [⟨1, some 1, some 1, 0⟩] := by
  decide

/-- `POST /api/confirm-payment` keeps every quantity positive. -/
theorem confirmPayment_QuantitiesPositive {st : Store} (hpos : st.QuantitiesPositive)
    (stripe : Processor) (req : ConfirmRequest) :
    (confirmPayment stripe st req).1.QuantitiesPositive := by
  unfold confirmPayment
  split
  · exact hpos
  · split
    · exact hpos
    · simp only
      split
      · rename_i st1 e hins
        intro ci hci
        rw [(insertPayment_error hins).2.1] at hci
        exact hpos ci hci
      · rename_i st1 payment hins
        have hpos1 : st1.QuantitiesPositive := by
          intro ci hci
          rw [(insertPayment_ok hins).1] at hci
          exact hpos ci hci
        split
        · exact hpos1
        · rename_i st2 h
          obtain ⟨P, rfl⟩ := clearCart_ok h
          exact QuantitiesPositive_filter hpos1 _

theorem insertCart_cart_items (st : Store) (sessionId : JsField String) :
    (insertCart st sessionId).1.cart_items = st.cart_items := by
  unfold insertCart
  split
  · rfl
  · split
    · rfl
    · split
      · rfl
      · simp only
        split
        · rfl
        · split <;> rfl

theorem getOrCreateCart_cart_items (st : Store) (sessionId : JsField String) :
    (getOrCreateCart st sessionId).1.cart_items = st.cart_items := by
  unfold getOrCreateCart
  split
  · rfl
  · exact insertCart_cart_items st sessionId
  · rfl

/-- The integer the server reads from a quantity that is sent as a number or as
a string of digits. -/
theorem bindInt4_some {x : NumField} {q : Int} (h : bindInt4 x = .ok (some q)) :
    x = .val q ∨ x = .str q := by
  cases x with
  | undefined => simp [bindInt4] at h
  | null => simp [bindInt4] at h
  | val n =>
    by_cases h4 : isInt4 n
    · rw [bindInt4_val h4] at h
      simp only [Except.ok.injEq, Option.some.injEq] at h
      exact Or.inl (by rw [h])
    · rw [bindInt4_val_error h4] at h
      simp at h
  | str n =>
    by_cases h4 : isInt4 n
    · rw [bindInt4_str h4] at h
      simp only [Except.ok.injEq, Option.some.injEq] at h
      exact Or.inr (by rw [h])
    · rw [bindInt4_str_error h4] at h
      simp at h

theorem upsertCartItem_QuantitiesPositive {st : Store} (hpos : st.QuantitiesPositive)
    (cartId : Int) (productId quantity : NumField)
    (hq : ∀ q, quantity = .val q ∨ quantity = .str q → 0 < q) :
    (upsertCartItem st cartId productId quantity).1.QuantitiesPositive := by
  unfold upsertCartItem
  split
  · exact hpos
  · exact hpos
  · rename_i pid qty hp hqty
    split
    · exact hpos
    · simp only
      split
      · exact hpos
      · rename_i q
        have hq0 : 0 < q := hq q (bindInt4_some hqty)
        split
        · rename_i old hold
          split
          · exact hpos
          · rename_i sum hsum
            have hold0 : 0 < old.quantity := hpos old (List.mem_of_find?_eq_some hold)
            have hs : sum = old.quantity + q := by
              unfold toInt4 at hsum
              split at hsum
              · simpa using hsum.symm
              · simp at hsum
            apply QuantitiesPositive_setQuantity hpos
            omega
        · split
          · exact hpos
          · split
            · exact hpos
            · split
              · exact hpos
              · intro ci hci
                have hci2 := List.mem_append.1 hci
                rcases hci2 with h | h
                · exact hpos ci h
                · rw [List.mem_singleton.1 h]
                  exact hq0

/-- `POST /api/cart/add` with a positive quantity, or none, keeps every
quantity positive. -/
theorem addItem_QuantitiesPositive {st : Store} (hpos : st.QuantitiesPositive)
    (req : CartRequest) (hq : ∀ q, req.quantity = .val q ∨ req.quantity = .str q → 0 < q) :
    (addItem st req).1.QuantitiesPositive := by
  have hq1 : ∀ q, withDefault 1 req.quantity = .val q ∨ withDefault 1 req.quantity = .str q →
      0 < q := by
    intro q h
    cases hreq : req.quantity with
    | undefined =>
      rw [hreq] at h
      rcases h with h | h
      · simp only [withDefault, NumField.val.injEq] at h
        omega
      · simp [withDefault] at h
    | null =>
      rw [hreq] at h
      rcases h with h | h <;> simp [withDefault] at h
    | val n =>
      rw [hreq] at h
      rcases h with h | h
      · simp only [withDefault, NumField.val.injEq] at h
        rw [← h]
        exact hq n (Or.inl hreq)
      · simp [withDefault] at h
    | str n =>
      rw [hreq] at h
      rcases h with h | h
      · simp [withDefault] at h
      · simp only [withDefault, NumField.str.injEq] at h
        rw [← h]
        exact hq n (Or.inr hreq)
  unfold addItem
  simp only
  split
  · exact hpos
  · split
    · exact hpos
    · exact hpos
    · have hcart := getOrCreateCart_cart_items st req.sessionId
      split
      · rename_i st1 e hg
        rw [hg] at hcart
        intro ci hci
        rw [hcart] at hci
        exact hpos ci hci
      · rename_i st1 cart hg
        rw [hg] at hcart
        have hpos1 : st1.QuantitiesPositive := by
          intro ci hci
          rw [hcart] at hci
          exact hpos ci hci
        have hup := upsertCartItem_QuantitiesPositive hpos1 cart.id req.productId
          (withDefault 1 req.quantity) hq1
        split
        · rename_i st2 e h2
          rw [h2] at hup
          exact hup
        · rename_i st2 u h2
          rw [h2] at hup
          exact hup

/-- C16 at the failing inputs: on the demo catalog, where no line item exists,
`POST /api/cart/add` with quantity 0 and with quantity -5 is answered 200 and
stores a line item with that quantity; and on a cart holding quantity 2 an add
of -5 is answered 200 and leaves quantity -3. -/
theorem addItem_nonpositive_quantity :
    demoStore.QuantitiesPositive ∧
    (addItem demoStore ⟨.val "s1", .val 1, .val 0⟩).2.status = 200 ∧
    (addItem demoStore ⟨.val "s1", .val 1, .val 0⟩).1.cart_items =
      [⟨1, some 1, some 1, 0⟩] ∧
    ¬ (addItem demoStore ⟨.val "s1", .val 1, .val 0⟩).1.QuantitiesPositive ∧
    (addItem demoStore ⟨.val "s1", .val 1, .val (-5)⟩).2.status = 200 ∧
    (addItem demoStore ⟨.val "s1", .val 1, .val (-5)⟩).1.cart_items =
      [⟨1, some 1, some 1, -5⟩] ∧
    (addItem (addItem demoStore ⟨.val "s1", .val 1, .val 2⟩).1
      ⟨.val "s1", .val 1, .val (-5)⟩).2.status = 200 ∧
    (addItem (addItem demoStore ⟨.val "s1", .val 1, .val 2⟩).1
      ⟨.val "s1", .val 1, .val (-5)⟩).1.cart_items = [⟨1, some 1, some 1, -3⟩] := by
  have h0 : (addItem demoStore ⟨.val "s1", .val 1, .val 0⟩).1.cart_items =
      [⟨1, some 1, some 1, 0⟩] := by decide
  refine ⟨?_, by decide, h0, ?_, by decide, by decide, by decide, by decide⟩
  · intro ci hci
    simp [demoStore] at hci
  · intro hpos
    have := hpos ⟨1, some 1, some 1, 0⟩ (by rw [h0]; simp)
    simp at this

/-! ## Claims on orders -/

theorem selectPaymentsByIntent_val {st : Store} {i : String} (hnul : hasNul i = false) :
    selectPaymentsByIntent st i =
      .ok (st.payments.filter (fun r => decide (r.payment_intent_id = i))) := by
  simp [selectPaymentsByIntent, sqlText_of_not_hasNul hnul]

theorem selectPaymentsByIntent_of_mem {st : Store} (hwf : st.WF) {row : Payment}
    (hrow : row ∈ st.payments) (hnul : hasNul row.payment_intent_id = false) :
    selectPaymentsByIntent st row.payment_intent_id = .ok [row] := by
  rw [selectPaymentsByIntent_val hnul]
  congr 1
  apply filter_eq_singleton _ (List.Nodup.of_map _ hwf.payments_pkey) hrow
  · simp
  · intro b hb hP
    simp only [decide_eq_true_eq] at hP
    exact List.inj_on_of_nodup_map hwf.payments_payment_intent_id_key hb hrow hP

/-- The quotient by 100 of an amount of the `INTEGER` range, as a double,
determines the amount: a hundred times it rounds to the amount. -/
theorem mathRound_jsDiv_hundred {a : Int} (ha : isInt4 a) :
    mathRound (jsDiv a 100 * 100) = a := by
  unfold mathRound jsDiv
  apply floor_add_half_eq
  have herr := toDouble_error_abs ((a : ℚ) / 100)
  have habs : |(a : ℚ)| ≤ 2147483648 := by
    obtain ⟨h1, h2⟩ := ha
    unfold int4Min at h1
    unfold int4Max at h2
    rw [abs_le]
    constructor
    · have : ((-2147483648 : Int) : ℚ) ≤ (a : ℚ) := by exact_mod_cast h1
      simpa using this
    · have : (a : ℚ) ≤ ((2147483647 : Int) : ℚ) := by exact_mod_cast h2
      have h3 : ((2147483647 : Int) : ℚ) ≤ 2147483648 := by norm_num
      exact le_trans this h3
  have hx : |(a : ℚ) / 100| = |(a : ℚ)| / 100 := by
    rw [abs_div]
    norm_num
  rw [hx] at herr
  have heq : toDouble ((a : ℚ) / 100) * 100 - (a : ℚ) =
      100 * (toDouble ((a : ℚ) / 100) - (a : ℚ) / 100) := by ring
  rw [heq, abs_mul]
  have h100 : |(100 : ℚ)| = 100 := by norm_num
  rw [h100]
  have hb : (|(a : ℚ)| / 100 + 1) / 2 ^ 53 ≤ (2147483648 / 100 + 1) / 2 ^ 53 := by
    apply div_le_div_of_nonneg_right _ (by positivity)
    linarith
  have hc : (100 : ℚ) * ((2147483648 / 100 + 1) / 2 ^ 53) ≤ 1 / 4 := by norm_num
  nlinarith [abs_nonneg (toDouble ((a : ℚ) / 100) - (a : ℚ) / 100)]

/-- C12, as stated, fails: for an intent id that holds U+0000, which no row of
`payments` has, `GET /api/orders/:paymentIntentId` answers 500 with the message
of the database error, not 404. -/
theorem getOrder_nul_id :
    (∀ r ∈ recordedStore.payments, r.payment_intent_id ≠ nulKey) ∧
    getOrder recordedStore nulKey = ⟨500, .errorOf (.db .characterNotInRepertoire)⟩ := by
  decide

/-- C12 (amended): for an intent id without U+0000 (not empty, as it is a path
segment), `GET /api/orders/:paymentIntentId` answers 404 exactly when no row of
`payments` has the intent id; and on a well-formed store, for the row that has it, it
answers 200 with the selected columns of that row (id, intent id, currency,
status, customer email) as stored, the items as the structured value the column
holds, and `amount` the JavaScript quotient of the stored amount by 100: the
double nearest to the exact quotient, from which the stored amount of an
`INTEGER` column is recovered by rounding a hundred times it. -/
theorem getOrder_spec (st : Store) (i : String) (hwf : st.WF) (_hi : i ≠ "")
    (hnul : hasNul i = false) :
    ((getOrder st i).status = 404 ↔ ∀ r ∈ st.payments, r.payment_intent_id ≠ i) ∧
    ∀ row ∈ st.payments, row.payment_intent_id = i →
      getOrder st i = ⟨200, .order ⟨row.id, row.payment_intent_id, jsDiv row.amount 100,
        row.currency, row.status, row.customer_email, row.items⟩⟩ ∧
      jsDiv row.amount 100 = toDouble ((row.amount : ℚ) / 100) ∧
      |jsDiv row.amount 100 - (row.amount : ℚ) / 100| ≤
        (|(row.amount : ℚ) / 100| + 1) / 2 ^ 53 ∧
      (isInt4 row.amount → mathRound (jsDiv row.amount 100 * 100) = row.amount) := by
  constructor
  · unfold getOrder
    rw [selectPaymentsByIntent_val hnul]
    constructor
    · intro h r hr hri
      have hmem : r ∈ st.payments.filter (fun r => decide (r.payment_intent_id = i)) := by
        rw [List.mem_filter]
        exact ⟨hr, by simpa using hri⟩
      split at h
      · simp at h
      · rename_i hnil
        simp only [Except.ok.injEq] at hnil
        rw [hnil] at hmem
        simp at hmem
      · simp at h
    · intro h
      have hnil : st.payments.filter (fun r => decide (r.payment_intent_id = i)) = [] := by
        rw [List.filter_eq_nil_iff]
        intro r hr
        simpa using h r hr
      rw [hnil]
  · intro row hrow hid
    have hsel := selectPaymentsByIntent_of_mem hwf hrow (by rw [hid]; exact hnul)
    rw [hid] at hsel
    refine ⟨?_, by norm_num [jsDiv], ?_, fun h4 => mathRound_jsDiv_hundred h4⟩
    · unfold getOrder
      rw [hsel]
    · have := toDouble_error_abs ((row.amount : ℚ) / 100)
      simpa [jsDiv] using this

theorem recordedStore_WF : recordedStore.WF := by
  constructor <;> decide

/-- Witness of C12: the order of intent `pi_1`, recorded with amount 400000, is
answered with the columns of its row. -/
theorem getOrder_spec_witness :
    getOrder recordedStore "pi_1" =
      ⟨200, .order ⟨1, "pi_1", jsDiv 400000 100, "zar", "succeeded", none, some []⟩⟩ :=
  ((getOrder_spec recordedStore "pi_1" recordedStore_WF (by decide) (by decide)).2
    ⟨1, "pi_1", "s1", 400000, "zar", "succeeded", none, some []⟩
    (List.mem_singleton.2 rfl) rfl).1

/-! ## Claims on the contact form -/

theorem jsTrim_of_isBlank {s : String} (h : isBlank s = true) : jsTrim s = "" := by
  unfold isBlank at h
  have hdrop : s.data.dropWhile isJsWhiteSpace = [] := by
    rw [List.dropWhile_eq_nil_iff]
    intro c hc
    exact List.all_eq_true.1 h c hc
  unfold jsTrim
  rw [hdrop]
  rfl

theorem truthyStr_trim_of_isBlank {s : String} (h : isBlank s = true) :
    truthyStr (.val (jsTrim s)) = false := by
  rw [jsTrim_of_isBlank h]
  rfl

/-- A request with a missing or empty field is answered 400 and nothing is
stored or posted. -/
theorem submitContact_rejects (relay : Relay) (st : Store) (req : ContactRequest)
    (h : truthyStr req.name = false ∨ truthyStr req.email = false ∨
      truthyStr req.subject = false ∨ truthyStr req.message = false) :
    submitContact relay st req =
      (st, ⟨some ⟨400, .error "All fields are required."⟩, [], false⟩) := by
  unfold submitContact
  rw [if_pos]
  rcases h with h | h | h | h <;> simp [h]

/-- The insert of four values without U+0000 that fit their columns, with a
value left in the key sequence, appends one row holding them. -/
theorem insertContact_ok {st : Store} {n e s m : String} (hn : textFits 255 n)
    (he : textFits 255 e) (hs : textFits 255 s) (hm : hasNul m = false)
    (hseq : st.contacts_id_seq < int4Max)
    (hfresh : ∀ c ∈ st.contacts, c.id ≤ st.contacts_id_seq) :
    insertContact st (.val n) (.val e) (.val s) (.val m) =
      ({ st with
          contacts_id_seq := st.contacts_id_seq + 1
          contacts := st.contacts ++ [⟨st.contacts_id_seq + 1, n, e, s, m⟩] }, .ok ()) := by
  have hany : st.contacts.any (fun c => decide (c.id = st.contacts_id_seq + 1)) = false := by
    rw [Bool.eq_false_iff]
    intro hany
    rw [List.any_eq_true] at hany
    obtain ⟨c, hc, hc2⟩ := hany
    simp only [decide_eq_true_eq] at hc2
    have := hfresh c hc
    omega
  have hvalues : contactValues (.val n) (.val e) (.val s) (.val m) =
      .ok (some n, some e, some s, some m) := by
    unfold contactValues
    simp only [bindText_val hn.2, bindText_val he.2, bindText_val hs.2, bindText_val hm,
      toVarcharOpt_of_length_le hn.1, toVarcharOpt_of_length_le he.1,
      toVarcharOpt_of_length_le hs.1]
  unfold insertContact
  simp only [hvalues, nextval_of_lt hseq, hany, Bool.false_eq_true, if_false]

/-- Once the row is stored the caller has its answer: whatever the relay does
afterwards, the answer delivered is the 200 one written after the insert, and
the error of the later write leaves the handler uncaught. -/
theorem forwardContact_after_answer (relay : Relay) (answer : Response)
    (document : RelayMessage) :
    forwardContact relay (some answer) document = (some answer, true) := by
  unfold forwardContact resJson
  simp only
  split
  · rfl
  · split <;> rfl

/-- C13, as stated, fails: a request whose name is a single space, the other
three fields filled in, is answered 200 and its row is stored; and a request
with four non-blank fields whose message holds U+0000 is answered 500 and no
row is stored. -/
theorem submitContact_whitespace_name :
    isBlank " " = true ∧
    (submitContact failingRelay demoStore
      ⟨.val " ", .val "ann@example.com", .val "Hi", .val "Hello"⟩).2.response =
      some ⟨200, .saved⟩ ∧
    (submitContact failingRelay demoStore
      ⟨.val " ", .val "ann@example.com", .val "Hi", .val "Hello"⟩).1.contacts =
      [⟨1, " ", "ann@example.com", "Hi", "Hello"⟩] ∧
    isBlank nulKey = false ∧
    submitContact failingRelay demoStore
        ⟨.val "Ann", .val "ann@example.com", .val "Hi", .val nulKey⟩ =
      (demoStore, ⟨some ⟨500, .error "Failed to save contact."⟩, [], false⟩) := by
  decide

/-- C13 (amended): `POST /api/contact` answers 400 and stores no row when any of
name, email, subject and message is missing or empty; the form of the site trims
the four values before it posts them, so a value entered there that is empty or
white space only is answered 400 too, with no row stored; and when the four
posted values are non-empty strings without U+0000, name, email and subject of
at most 255 characters (a value left in the key sequence of `contacts`, which is
ahead of no stored key), the handler stores exactly one new row, holding the
four values, and answers 200. -/
theorem submitContact_spec (relay : Relay) (st : Store) :
    (∀ req : ContactRequest,
      truthyStr req.name = false ∨ truthyStr req.email = false ∨
        truthyStr req.subject = false ∨ truthyStr req.message = false →
      (submitContact relay st req).2.response =
          some ⟨400, .error "All fields are required."⟩ ∧
        (submitContact relay st req).1 = st) ∧
    (∀ name email subject message : String,
      isBlank name = true ∨ isBlank email = true ∨ isBlank subject = true ∨
        isBlank message = true →
      (submitContact relay st (contactFormRequest name email subject message)).2.response =
          some ⟨400, .error "All fields are required."⟩ ∧
        (submitContact relay st (contactFormRequest name email subject message)).1 = st) ∧
    (∀ n e s m : String, n ≠ "" → e ≠ "" → s ≠ "" → m ≠ "" →
      textFits 255 n → textFits 255 e → textFits 255 s → hasNul m = false →
      st.contacts_id_seq < int4Max →
      (∀ c ∈ st.contacts, c.id ≤ st.contacts_id_seq) →
      (submitContact relay st ⟨.val n, .val e, .val s, .val m⟩).2.response =
          some ⟨200, .saved⟩ ∧
        (submitContact relay st ⟨.val n, .val e, .val s, .val m⟩).1.contacts =
          st.contacts ++ [⟨st.contacts_id_seq + 1, n, e, s, m⟩]) := by
  refine ⟨?_, ?_, ?_⟩
  · intro req h
    rw [submitContact_rejects relay st req h]
    exact ⟨rfl, rfl⟩
  · intro name email subject message h
    have h2 : truthyStr (contactFormRequest name email subject message).name = false ∨
        truthyStr (contactFormRequest name email subject message).email = false ∨
        truthyStr (contactFormRequest name email subject message).subject = false ∨
        truthyStr (contactFormRequest name email subject message).message = false := by
      rcases h with h | h | h | h
      · exact Or.inl (truthyStr_trim_of_isBlank h)
      · exact Or.inr (Or.inl (truthyStr_trim_of_isBlank h))
      · exact Or.inr (Or.inr (Or.inl (truthyStr_trim_of_isBlank h)))
      · exact Or.inr (Or.inr (Or.inr (truthyStr_trim_of_isBlank h)))
    rw [submitContact_rejects relay st _ h2]
    exact ⟨rfl, rfl⟩
  · intro n e s m hn he hs hm hnl hel hsl hml hseq hfresh
    have hall : submitContact relay st ⟨.val n, .val e, .val s, .val m⟩ =
        ({ st with
            contacts_id_seq := st.contacts_id_seq + 1
            contacts := st.contacts ++ [⟨st.contacts_id_seq + 1, n, e, s, m⟩] },
          ⟨some ⟨200, .saved⟩, [⟨.val n, .val e, .val m⟩], true⟩) := by
      unfold submitContact
      rw [if_neg (by simp [truthyStr, hn, he, hs, hm])]
      simp only [insertContact_ok hnl hel hsl hml hseq hfresh, resJson,
        forwardContact_after_answer]
    rw [hall]
    exact ⟨rfl, rfl⟩

/-- Witness of C13 (amended): a filled-in request on a store without
contacts. -/
theorem submitContact_spec_witness :
    (submitContact failingRelay demoStore
      ⟨.val "Ann", .val "ann@example.com", .val "Hi", .val "Hello"⟩).1.contacts =
      [⟨1, "Ann", "ann@example.com", "Hi", "Hello"⟩] :=
  ((submitContact_spec failingRelay demoStore).2.2 "Ann" "ann@example.com" "Hi" "Hello"
    (by decide) (by decide) (by decide) (by decide) (by decide) (by decide) (by decide)
    (by decide) (by decide) (by decide)).2

/-- C14 at the failing inputs: for a filled-in request whose row is stored, a
relay that answers with a failure status and a relay that cannot be reached both
leave the caller with the 200 answer `{ success: true }` written right after the
insert; the later attempt to answer 500 throws, and the row stays stored. -/
theorem submitContact_relay_failure :
    submitContact failingRelay demoStore
        ⟨.val "Ann", .val "ann@example.com", .val "Hi", .val "Hello"⟩ =
      ({ demoStore with
          contacts_id_seq := 1
          contacts := [⟨1, "Ann", "ann@example.com", "Hi", "Hello"⟩] },
        ⟨some ⟨200, .saved⟩, [⟨.val "Ann", .val "ann@example.com", .val "Hello"⟩], true⟩) ∧
    submitContact unreachableRelay demoStore
        ⟨.val "Ann", .val "ann@example.com", .val "Hi", .val "Hello"⟩ =
      ({ demoStore with
          contacts_id_seq := 1
          contacts := [⟨1, "Ann", "ann@example.com", "Hi", "Hello"⟩] },
        ⟨some ⟨200, .saved⟩, [⟨.val "Ann", .val "ann@example.com", .val "Hello"⟩], true⟩) := by
  decide

/-! ## Claims on the schema set-up -/

/-- Creating a table of another name neither creates nor drops `payments`, and
touches no row of `products`. -/
theorem createTableIfNotExists_other {db db1 : Database} {name : String}
    {columns references : List String} (hname : name ≠ "payments")
    (h : createTableIfNotExists db name columns references = .ok db1) :
    hasTable db1 "payments" = hasTable db "payments" ∧ db1.products = db.products := by
  unfold createTableIfNotExists at h
  split at h
  · simp only [Except.ok.injEq] at h
    rw [← h]
    exact ⟨rfl, rfl⟩
  · split at h
    · simp at h
    · simp only [Except.ok.injEq] at h
      rw [← h]
      refine ⟨?_, rfl⟩
      unfold hasTable
      simp [hname]

/-- On a database without a `payments` table the set-up stops at its
`ALTER TABLE payments` statement: the table is still missing afterwards and no
product has been inserted. -/
theorem initializeDatabase_without_payments {db : Database}
    (h : hasTable db "payments" = false) :
    hasTable (initializeDatabase db) "payments" = false ∧
      (initializeDatabase db).products = db.products := by
  unfold initializeDatabase
  split
  · exact ⟨h, rfl⟩
  · rename_i db1 h1
    obtain ⟨t1, p1⟩ := createTableIfNotExists_other (by decide) h1
    rw [h] at t1
    split
    · exact ⟨t1, p1⟩
    · rename_i db2 h2
      obtain ⟨t2, p2⟩ := createTableIfNotExists_other (by decide) h2
      rw [t1] at t2
      rw [p1] at p2
      split
      · exact ⟨t2, p2⟩
      · rename_i db3 h3
        obtain ⟨t3, p3⟩ := createTableIfNotExists_other (by decide) h3
        rw [t2] at t3
        rw [p2] at p3
        split
        · exact ⟨t3, p3⟩
        · rename_i db4 h4
          obtain ⟨t4, p4⟩ := createTableIfNotExists_other (by decide) h4
          rw [t3] at t4
          rw [p3] at p4
          split
          · exact ⟨t4, p4⟩
          · rename_i db5 h5
            unfold alterTableAddColumnsIfNotExists at h5
            rw [t4] at h5
            simp at h5

/-- On a database that holds a `payments` table of the seven columns of its
`CREATE TABLE` statement and nothing else, the set-up leaves the five tables,
`payments` with the two added columns, and the twelve sample products; a second
run changes nothing. -/
theorem initializeDatabase_with_payments :
    (initializeDatabase paymentsOnlyDatabase).tables.map (fun t => t.name) =
      ["payments", "products", "carts", "cart_items", "contacts"] ∧
    ((initializeDatabase paymentsOnlyDatabase).tables.filter
        (fun t => decide (t.name = "payments"))).map (fun t => t.columns) =
      [["id", "payment_intent_id", "session_id", "amount", "currency", "status", "created_at",
        "customer_email", "items"]] ∧
    (initializeDatabase paymentsOnlyDatabase).products.map (fun r => (r.name, r.price)) =
      sampleProducts.map (fun r => (r.1, r.2.2)) ∧
    (initializeDatabase paymentsOnlyDatabase).products.length = 12 ∧
    initializeDatabase (initializeDatabase paymentsOnlyDatabase) =
      initializeDatabase paymentsOnlyDatabase := by
  decide

/-- C17 at the failing input: run against a database without tables, the set-up
creates `products`, `carts`, `cart_items` and `contacts` and stops at
`ALTER TABLE payments`, which precedes the creation of that table: `payments`
does not exist afterwards and `products` holds no row; a second run ends the
same way. -/
theorem initializeDatabase_empty :
    initializeDatabase emptyDatabase =
      ⟨[⟨"products", ["id", "name", "description", "price", "created_at"]⟩,
        ⟨"carts", ["id", "session_id", "created_at"]⟩,
        ⟨"cart_items", ["id", "cart_id", "product_id", "quantity", "created_at"]⟩,
        ⟨"contacts", ["id", "name", "email", "subject", "message", "created_at"]⟩], [], 0⟩ ∧
    hasTable (initializeDatabase emptyDatabase) "payments" = false ∧
    (initializeDatabase emptyDatabase).products = [] ∧
    initializeDatabase (initializeDatabase emptyDatabase) = initializeDatabase emptyDatabase := by
  decide

end GuardianAngel

